import Mathlib

/-!
# EduBot account lifecycle: registration, code validation, login

A shallow embedding of the student account lifecycle implemented in
`backend/routes/auth.js`, `backend/routes/admin.js` and
`backend/services/messageCentral.js`.

* JavaScript values that cross a JSON boundary (provider payloads, response
  bodies, values kept in the ephemeral store) are values of `JVal`.
* The durable account store (Prisma `student` table) and the ephemeral store
  (Redis) are explicit state: a list of `Student` rows and an association list
  of keys to entries.
* Everything outside the handler (store faults, the provider, hashing and
  token signing, fresh ids and timestamps) is collected in `Env`.
* A handler is a function `Env → State → request → Result`; the result holds
  the state afterwards, the HTTP response and the trace of external calls.
-/

namespace EduBot

/-! ## JSON values -/

/-- JavaScript values as they appear in parsed JSON; numbers are integers. -/
inductive JVal where
  | undefined
  | null
  | bool (b : Bool)
  | num (n : Int)
  | str (s : String)
  | arr (items : List JVal)
  | obj (fields : List (String × JVal))

namespace JVal

instance : Inhabited JVal := ⟨JVal.undefined⟩

/-- JavaScript truthiness (what `!v` negates and what `||` tests). -/
def truthy : JVal → Bool
  | undefined => false
  | null => false
  | bool b => b
  | num n => n != 0
  | str s => s != ""
  | arr _ => true
  | obj _ => true

/-- Optional-chaining property read `v?.k` for the property names used by the
code; a value that is not an object has none of them. -/
def get (v : JVal) (k : String) : JVal :=
  match v with
  | obj fields => (fields.lookup k).getD undefined
  | _ => undefined

/-- JavaScript `a || b`: the left operand when it is truthy, else the right. -/
def or (a b : JVal) : JVal := if a.truthy then a else b

/-- Strict equality `v === "s"` against a string literal. -/
def eqStr (v : JVal) (s : String) : Bool :=
  match v with
  | str t => t == s
  | _ => false

/-- Strict equality `v === true`. -/
def eqTrue (v : JVal) : Bool :=
  match v with
  | bool b => b
  | _ => false

/-- Strict equality `v === n` against a number literal. -/
def eqNum (v : JVal) (n : Int) : Bool :=
  match v with
  | num m => m == n
  | _ => false

def isUndefined : JVal → Bool
  | undefined => true
  | _ => false

/-- The keys of an object, in order. -/
def keys : JVal → List String
  | obj fields => fields.map Prod.fst
  | _ => []

end JVal

/-- The body `res.json` sends for an object literal: properties whose value is
`undefined` are dropped by JSON serialisation. -/
def json (fields : List (String × JVal)) : JVal :=
  JVal.obj (fields.filter fun p => !p.2.isUndefined)

/-- A request-body field: absent, or a string. `!field` holds for an absent
field and for the empty string. -/
def jsNot (field : Option String) : Bool :=
  match field with
  | none => true
  | some s => s == ""

/-! ## Data model -/

/-- Modelled from the spec: the Prisma schema is not part of the sources; the
approval state is the three-valued enumeration of the data model, with the
names the routes compare against and write. -/
inductive Status where
  | PENDING_ADMIN_APPROVAL
  | APPROVED
  | REJECTED
  deriving DecidableEq, Repr

def Status.toString : Status → String
  | PENDING_ADMIN_APPROVAL => "PENDING_ADMIN_APPROVAL"
  | APPROVED => "APPROVED"
  | REJECTED => "REJECTED"

/-- Modelled from the spec: the Prisma schema is not part of the sources; a row
of the `student` table holds the columns that register, verify-otp, login and
the admin decisions read or write. -/
structure Student where
  id : String
  fullName : String
  email : String
  rollNumber : String
  mobileNumber : Option String
  password : String
  status : Status
  emailVerified : Bool
  createdAt : String
  deriving DecidableEq, Repr

/-- An entry of the ephemeral store: the value and the expiry that `redis.set`
was called with. -/
structure RedisEntry where
  value : JVal
  ex : Nat

/-- A row of the `admin` table, as far as the admin middleware reads it. -/
structure Admin where
  id : String
  fullName : String
  email : String
  password : String
  deriving DecidableEq, Repr

/-- The durable store (students and admins) and the ephemeral store. -/
structure State where
  students : List Student
  redis : List (String × RedisEntry)
  admins : List Admin

/-- An HTTP response: status code and JSON body. -/
structure Response where
  status : Nat
  body : JVal

/-- The awaited store calls, by call site. -/
inductive Call where
  | findByEmail
  | findByRollNumber
  | create
  | delete
  | update
  | redisSet
  | redisGet
  | redisDel
  | adminFind
  deriving DecidableEq, Repr

/-- What axios does with one request: a 2xx response with its parsed body, or
a thrown error (with the response of the provider when there was one). -/
inductive AxiosOutcome where
  | response (status : Nat) (data : JVal)
  | error (message : String) (response : Option (Nat × JVal))

/-- The world outside a handler, for the duration of one request. -/
structure Env where
  /-- A store call that rejects, with the message of the error. -/
  fault : Call → Option String
  /-- The id the store gives the next created row. -/
  newId : String
  /-- The timestamp of the request. -/
  now : String
  hashPassword : String → String
  comparePassword : String → String → Bool
  /-- Signs the payload `(id, email, rollNumber)`. -/
  generateToken : String → String → String → String
  /-- Checks a token and yields the `id` of its payload; `none` when
  `jwt.verify` throws. -/
  verifyToken : String → Option String
  customerId : String
  authToken : String
  /-- What `redis.get` resolves to for an entry whose value was handed to
  `redis.set`. The client of `config/redis.js` (`@upstash/redis` with its
  default options) is not part of the sources: it sends a string as it is and
  parses what the store returns as JSON where that succeeds, so the string
  `"0"` comes back as the number `0` and a string that is no JSON text comes
  back as it is. -/
  redisReadBack : JVal → JVal
  /-- The provider behind `axios.post(url, null, config)`. -/
  axiosPost : String → JVal → AxiosOutcome
  /-- The provider behind `axios.get(url, config)`. -/
  axiosGet : String → JVal → AxiosOutcome

/-- The columns a row gets from `prisma.student.create`. -/
structure CreateData where
  fullName : String
  email : String
  rollNumber : String
  mobileNumber : String
  password : String
  status : Status
  emailVerified : Bool

/-- A thrown JavaScript error, with the two properties the handlers read. -/
structure JsError where
  message : String
  studentId : Option String

/-- External calls, in the order a handler makes them. -/
inductive Event where
  | dbFindByEmail (email : String)
  | dbFindByRollNumber (rollNumber : String)
  | dbCreate (data : CreateData)
  | dbDelete (id : String)
  | dbUpdate (key : String)
  | dbAdminFind (id : String)
  | redisSet (key : String) (value : JVal) (ex : Nat)
  | redisGet (key : String)
  | redisDel (key : String)
  | axiosPost (url : String) (config : JVal)
  | axiosGet (url : String) (config : JVal)

/-- A call that changes a store or reaches the verification provider. -/
def Event.isEffect : Event → Bool
  | dbCreate _ => true
  | dbDelete _ => true
  | dbUpdate _ => true
  | redisSet _ _ _ => true
  | redisDel _ => true
  | axiosPost _ _ => true
  | axiosGet _ _ => true
  | _ => false

/-- The outcome of handling one request. -/
structure Result where
  state : State
  resp : Response
  trace : List Event

/-! ## The account store -/

/-- The row with the given email, if any. -/
def findByEmail (students : List Student) (email : String) : Option Student :=
  students.find? fun s => s.email == email

/-- The row with the given roll number, if any. -/
def findByRollNumber (students : List Student) (rollNumber : String) : Option Student :=
  students.find? fun s => s.rollNumber == rollNumber

/-- The row with the given id, if any. -/
def findById (students : List Student) (id : String) : Option Student :=
  students.find? fun s => s.id == id

/-- Lookup `prisma.student.findUnique` by email. -/
def prismaFindByEmail (env : Env) (st : State) (email : String) :
    Except JsError (Option Student) :=
  match env.fault Call.findByEmail with
  | some m => .error ⟨m, none⟩
  | none => .ok (findByEmail st.students email)

/-- Lookup `prisma.student.findUnique` by roll number. -/
def prismaFindByRollNumber (env : Env) (st : State) (rollNumber : String) :
    Except JsError (Option Student) :=
  match env.fault Call.findByRollNumber with
  | some m => .error ⟨m, none⟩
  | none => .ok (findByRollNumber st.students rollNumber)

/-- The row the store makes of the data of a create call: it assigns the id
and the creation time. -/
def createdRow (env : Env) (data : CreateData) : Student :=
  { id := env.newId, fullName := data.fullName, email := data.email,
    rollNumber := data.rollNumber, mobileNumber := some data.mobileNumber,
    password := data.password, status := data.status,
    emailVerified := data.emailVerified, createdAt := env.now }

/-- Call `prisma.student.create`: the store assigns id and timestamps and
enforces its unique keys (id, email, roll number). -/
def prismaCreate (env : Env) (st : State) (data : CreateData) :
    Except JsError (State × Student) :=
  match env.fault Call.create with
  | some m => .error ⟨m, none⟩
  | none =>
    let row := createdRow env data
    if st.students.any fun t =>
        t.id == row.id || t.email == row.email || t.rollNumber == row.rollNumber then
      .error ⟨"Unique constraint failed", none⟩
    else
      .ok ({ st with students := st.students ++ [row] }, row)

/-- Call `prisma.student.delete` with `where: { id }`. -/
def prismaDelete (env : Env) (st : State) (id : String) : Except JsError State :=
  match env.fault Call.delete with
  | some m => .error ⟨m, none⟩
  | none =>
    match findById st.students id with
    | none => .error ⟨"Record to delete does not exist.", none⟩
    | some _ => .ok { st with students := st.students.filter fun t => !(t.id == id) }

/-- Call `prisma.student.update` with `where: { email }` and
`data: { emailVerified: true }`. -/
def prismaUpdateVerified (env : Env) (st : State) (email : String) : Except JsError State :=
  match env.fault Call.update with
  | some m => .error ⟨m, none⟩
  | none =>
    match findByEmail st.students email with
    | none => .error ⟨"Record to update not found.", none⟩
    | some _ =>
      .ok { st with students := st.students.map fun t =>
        if t.email == email then { t with emailVerified := true } else t }

/-- Call `prisma.student.update` with `where: { id }` and `data: { status }`. -/
def prismaUpdateStatus (env : Env) (st : State) (id : String) (status : Status) :
    Except JsError (State × Student) :=
  match env.fault Call.update with
  | some m => .error ⟨m, none⟩
  | none =>
    match findById st.students id with
    | none => .error ⟨"Record to update not found.", none⟩
    | some row =>
      .ok ({ st with students := st.students.map fun t =>
        if t.id == id then { t with status := status } else t },
        { row with status := status })

/-! ## The ephemeral store -/

/-- Call `redis.set(key, value, { ex })`: the entry replaces any entry under the key. -/
def redisSet (env : Env) (st : State) (key : String) (value : JVal) (ex : Nat) :
    Except JsError State :=
  match env.fault Call.redisSet with
  | some m => .error ⟨m, none⟩
  | none => .ok { st with redis := (key, ⟨value, ex⟩) :: st.redis.filter fun p => !(p.1 == key) }

/-- Call `redis.get(key)`: `null` when there is no entry under the key, else
the value the client reads back from the entry, which need not be the value
that was written. -/
def redisGet (env : Env) (st : State) (key : String) : Except JsError JVal :=
  match env.fault Call.redisGet with
  | some m => .error ⟨m, none⟩
  | none => .ok (((st.redis.lookup key).map fun e => env.redisReadBack e.value).getD JVal.null)

/-- Call `redis.del(key)`. -/
def redisDel (env : Env) (st : State) (key : String) : Except JsError State :=
  match env.fault Call.redisDel with
  | some m => .error ⟨m, none⟩
  | none => .ok { st with redis := st.redis.filter fun p => !(p.1 == key) }

/-! ## The verification provider client (`services/messageCentral.js`) -/

def MESSAGE_CENTRAL_BASE_URL : String := "https://cpaas.messagecentral.com/verification/v3"

/-- The object `sendOTP` resolves to. -/
structure SendResult where
  success : Bool
  data : JVal
  verificationId : JVal
  error : JVal
  message : JVal
  statusCode : JVal

/-- The property `error.response?.data`. -/
def errorResponseData (response : Option (Nat × JVal)) : JVal :=
  match response with
  | some (_, data) => data
  | none => JVal.undefined

/-- The property `error.response?.status`. -/
def errorResponseStatus (response : Option (Nat × JVal)) : JVal :=
  match response with
  | some (status, _) => JVal.num status
  | none => JVal.undefined

/-- The request configuration `sendOTP` passes to axios. -/
def sendRequestConfig (env : Env) (mobileNumber countryCode flowType : String) : JVal :=
  JVal.obj [("params", JVal.obj [("countryCode", .str countryCode),
      ("customerId", .str env.customerId),
      ("flowType", .str flowType),
      ("mobileNumber", .str mobileNumber)]),
    ("headers", JVal.obj [("authToken", .str env.authToken)])]

/-- Function `sendOTP` of `services/messageCentral.js`. -/
def sendOTP (env : Env) (mobileNumber countryCode flowType : String) : SendResult :=
  let url := MESSAGE_CENTRAL_BASE_URL ++ "/send"
  let requestConfig := sendRequestConfig env mobileNumber countryCode flowType
  match env.axiosPost url requestConfig with
  | .response _ data =>
    let verificationId :=
      ((((data.get "data").get "verificationId").or (data.get "verificationId")).or
        (data.get "id")).or (data.get "verification_id")
    { success := true, data := data, verificationId := verificationId,
      error := .undefined, message := .undefined, statusCode := .undefined }
  | .error message response =>
    { success := false, data := .undefined, verificationId := .undefined,
      error := (errorResponseData response).or (.str message),
      message := .str "Failed to send OTP via Message Central",
      statusCode := errorResponseStatus response }

/-- The object `validateOTP` resolves to. -/
structure ValidateResult where
  success : Bool
  data : JVal
  isValid : Bool
  error : JVal
  message : JVal

/-- The request configuration `validateOTP` passes to axios. -/
def validateRequestConfig (env : Env) (mobileNumber : String) (verificationId : JVal)
    (code countryCode : String) : JVal :=
  JVal.obj [("params", JVal.obj [("countryCode", .str countryCode),
      ("mobileNumber", .str mobileNumber),
      ("verificationId", verificationId),
      ("customerId", .str env.customerId),
      ("code", .str code)]),
    ("headers", JVal.obj [("authToken", .str env.authToken)])]

/-- The validity signal `validateOTP` computes from a response body. -/
def isValidSignal (data : JVal) : Bool :=
  ((data.get "data").get "verificationStatus").eqStr "VERIFICATION_COMPLETED"
    || (data.get "verificationStatus").eqStr "VERIFICATION_COMPLETED"
    || (data.get "valid").eqTrue
    || (data.get "status").eqStr "SUCCESS"
    || (data.get "verified").eqTrue
    || ((data.get "data").get "valid").eqTrue
    || ((data.get "data").get "status").eqStr "SUCCESS"
    || ((data.get "message").eqStr "SUCCESS" && (data.get "responseCode").eqNum 200)

/-- Function `validateOTP` of `services/messageCentral.js`. -/
def validateOTP (env : Env) (mobileNumber : String) (verificationId : JVal)
    (code countryCode : String) : ValidateResult :=
  let url := MESSAGE_CENTRAL_BASE_URL ++ "/validateOtp"
  let requestConfig := validateRequestConfig env mobileNumber verificationId code countryCode
  match env.axiosGet url requestConfig with
  | .response _ data =>
    { success := true, data := data, isValid := isValidSignal data,
      error := .undefined, message := .undefined }
  | .error message response =>
    { success := false, data := .undefined, isValid := false,
      error := (errorResponseData response).or (.str message),
      message := .str "Failed to validate OTP via Message Central" }

/-! ## Registration (`POST /api/register`) -/

/-- The body of a registration request. -/
structure RegisterReq where
  fullName : Option String
  email : Option String
  rollNumber : Option String
  password : Option String
  mobileNumber : Option String
  countryCode : Option String

/-- The `select` of the create call in the register route, as JSON. -/
def selectCreated (row : Student) : JVal :=
  json [("id", .str row.id),
    ("fullName", .str row.fullName),
    ("email", .str row.email),
    ("rollNumber", .str row.rollNumber),
    ("mobileNumber", (row.mobileNumber.map JVal.str).getD JVal.null),
    ("status", .str row.status.toString),
    ("emailVerified", .bool row.emailVerified),
    ("createdAt", .str row.createdAt)]

/-- The dialling code `countryCode || '91'` the routes pass to the provider client. -/
def otpCountryCode (countryCode : Option String) : String :=
  if jsNot countryCode then "91" else countryCode.getD ""

/-- The key of the verification session of an email. -/
def verificationKey (email : String) : String := "verification:" ++ email

/-- The `catch` block of the register route. -/
def registerCatch (env : Env) (st : State) (error : JsError) (trace : List Event) : Result :=
  let resp : Response := ⟨500, json [("success", .bool false),
    ("message", .str "Server error during registration"),
    ("error", .str error.message)]⟩
  match error.studentId with
  | some studentId =>
    if studentId != "" then
      match prismaDelete env st studentId with
      | .ok st1 => ⟨st1, resp, trace ++ [.dbDelete studentId]⟩
      | .error _ => ⟨st, resp, trace ++ [.dbDelete studentId]⟩
    else ⟨st, resp, trace⟩
  | none => ⟨st, resp, trace⟩

/-- The register route from the provider call on (lines 106 to 159): `st1` is
the store after the create call, `student` the created row and `trace` the
calls made so far. -/
def registerIssue (env : Env) (st1 : State) (student : Student) (email mobileNumber : String)
    (countryCode : Option String) (trace : List Event) : Result :=
  let otpCountryCode := otpCountryCode countryCode
  let otpResult := sendOTP env mobileNumber otpCountryCode "SMS"
  let t4 := trace ++ [.axiosPost (MESSAGE_CENTRAL_BASE_URL ++ "/send")
    (sendRequestConfig env mobileNumber otpCountryCode "SMS")]
  if !otpResult.success || !otpResult.verificationId.truthy then
    let resp : Response := ⟨500, json [("success", .bool false),
      ("message", .str "Failed to send OTP. Please try again."),
      ("error", otpResult.message.or (.str "Message Central API error")),
      ("details", otpResult.error)]⟩
    match prismaDelete env st1 student.id with
    | .ok st2 => ⟨st2, resp, t4 ++ [.dbDelete student.id]⟩
    | .error _ => ⟨st1, resp, t4 ++ [.dbDelete student.id]⟩
  else
    let resp : Response := ⟨201, json [("success", .bool true),
      ("message", .str "Registration successful. Please verify your email with OTP."),
      ("data", selectCreated student)]⟩
    let t5 := t4 ++ [.redisSet (verificationKey email) otpResult.verificationId 600]
    match redisSet env st1 (verificationKey email) otpResult.verificationId 600 with
    | .ok st2 => ⟨st2, resp, t5⟩
    | .error _ => ⟨st1, resp, t5⟩

/-- The data the register route passes to the create call. -/
def registerData (env : Env) (fullName email rollNumber password mobileNumber : String) :
    CreateData :=
  { fullName := fullName, email := email, rollNumber := rollNumber,
    mobileNumber := mobileNumber, password := env.hashPassword password,
    status := Status.PENDING_ADMIN_APPROVAL, emailVerified := false }

/-- Handler `router.post('/register')` of `routes/auth.js`. -/
def register (env : Env) (st : State) (req : RegisterReq) : Result :=
  if jsNot req.fullName || jsNot req.email || jsNot req.rollNumber || jsNot req.password then
    ⟨st, ⟨400, json [("success", .bool false),
      ("message", .str "Please provide all required fields")]⟩, []⟩
  else if jsNot req.mobileNumber then
    ⟨st, ⟨400, json [("success", .bool false),
      ("message", .str "Mobile number is required for OTP verification")]⟩, []⟩
  else
    let fullName := req.fullName.getD ""
    let email := req.email.getD ""
    let rollNumber := req.rollNumber.getD ""
    let password := req.password.getD ""
    let mobileNumber := req.mobileNumber.getD ""
    let t1 : List Event := [.dbFindByEmail email]
    match prismaFindByEmail env st email with
    | .error error => registerCatch env st error t1
    | .ok (some _) =>
      ⟨st, ⟨400, json [("success", .bool false),
        ("message", .str "Email already registered")]⟩, t1⟩
    | .ok none =>
    let t2 := t1 ++ [.dbFindByRollNumber rollNumber]
    match prismaFindByRollNumber env st rollNumber with
    | .error error => registerCatch env st error t2
    | .ok (some _) =>
      ⟨st, ⟨400, json [("success", .bool false),
        ("message", .str "Roll number already registered")]⟩, t2⟩
    | .ok none =>
    let data := registerData env fullName email rollNumber password mobileNumber
    let t3 := t2 ++ [.dbCreate data]
    match prismaCreate env st data with
    | .error error => registerCatch env st error t3
    | .ok (st1, student) =>
      registerIssue env st1 student email mobileNumber req.countryCode t3

/-! ## Code validation (`POST /api/verify-otp`) -/

/-- The body of a verify-otp request. -/
structure VerifyReq where
  email : Option String
  otp : Option String
  countryCode : Option String

/-- The property `length` of a JavaScript string: its number of UTF-16 code units. -/
def jsLength (s : String) : Nat :=
  (s.data.map fun c => if c.val ≥ 0x10000 then 2 else 1).sum

/-- The test `/^\d+$/.test(s)`: one or more characters, each of them `0` to `9`. -/
def digitsOnly (s : String) : Bool :=
  !s.data.isEmpty && s.data.all fun c => decide ('0' ≤ c) && decide (c ≤ '9')

/-- The `catch` block of the verify-otp route. -/
def verifyCatch (st : State) (error : JsError) (trace : List Event) : Result :=
  ⟨st, ⟨500, json [("success", .bool false),
    ("message", .str "Server error during OTP verification"),
    ("error", .str error.message)]⟩, trace⟩

/-- Handler `router.post('/verify-otp')` of `routes/auth.js`. -/
def verifyOtp (env : Env) (st : State) (req : VerifyReq) : Result :=
  if jsNot req.email || jsNot req.otp then
    ⟨st, ⟨400, json [("success", .bool false),
      ("message", .str "Please provide email and OTP")]⟩, []⟩
  else
    let email := req.email.getD ""
    let otp := req.otp.getD ""
    if jsLength otp < 4 || jsLength otp > 6 || !digitsOnly otp then
      ⟨st, ⟨400, json [("success", .bool false),
        ("message", .str "OTP must be 4-6 digits")]⟩, []⟩
    else
    let t1 : List Event := [.dbFindByEmail email]
    match prismaFindByEmail env st email with
    | .error error => verifyCatch st error t1
    | .ok none =>
      ⟨st, ⟨404, json [("success", .bool false),
        ("message", .str "Student not found")]⟩, t1⟩
    | .ok (some student) =>
    if student.emailVerified then
      ⟨st, ⟨400, json [("success", .bool false),
        ("message", .str "Email is already verified")]⟩, t1⟩
    else if jsNot student.mobileNumber then
      ⟨st, ⟨400, json [("success", .bool false),
        ("message", .str "Mobile number not found. Please register again.")]⟩, t1⟩
    else
    let mobileNumber := student.mobileNumber.getD ""
    let t2 := t1 ++ [.redisGet (verificationKey email)]
    match redisGet env st (verificationKey email) with
    | .error error => verifyCatch st error t2
    | .ok verificationId =>
    if !verificationId.truthy then
      ⟨st, ⟨400, json [("success", .bool false),
        ("message", .str "OTP has expired or is invalid. Please register again.")]⟩, t2⟩
    else
    let otpCountryCode := otpCountryCode req.countryCode
    let validationResult := validateOTP env mobileNumber verificationId otp otpCountryCode
    let t3 := t2 ++ [.axiosGet (MESSAGE_CENTRAL_BASE_URL ++ "/validateOtp")
      (validateRequestConfig env mobileNumber verificationId otp otpCountryCode)]
    if !validationResult.success || !validationResult.isValid then
      ⟨st, ⟨400, json [("success", .bool false),
        ("message", validationResult.message.or (.str "Invalid OTP"))]⟩, t3⟩
    else
    let t4 := t3 ++ [.redisDel (verificationKey email)]
    match redisDel env st (verificationKey email) with
    | .error error => verifyCatch st error t4
    | .ok st1 =>
    let t5 := t4 ++ [.dbUpdate email]
    match prismaUpdateVerified env st1 email with
    | .error error => verifyCatch st1 error t5
    | .ok st2 =>
      ⟨st2, ⟨200, json [("success", .bool true),
        ("message", .str "Email verified successfully. Waiting for admin approval.")]⟩, t5⟩

/-! ## Login (`POST /api/login`) -/

/-- The body of a login request. -/
structure LoginReq where
  email : Option String
  password : Option String

/-- Handler `router.post('/login')` of `routes/auth.js`. -/
def login (env : Env) (st : State) (req : LoginReq) : Result :=
  if jsNot req.email || jsNot req.password then
    ⟨st, ⟨400, json [("success", .bool false),
      ("message", .str "Please provide email and password")]⟩, []⟩
  else
    let email := req.email.getD ""
    let password := req.password.getD ""
    match prismaFindByEmail env st email with
    | .error error =>
      ⟨st, ⟨500, json [("success", .bool false),
        ("message", .str "Server error during login"),
        ("error", .str error.message)]⟩, [.dbFindByEmail email]⟩
    | .ok none =>
      ⟨st, ⟨401, json [("success", .bool false),
        ("message", .str "Invalid email or password")]⟩, [.dbFindByEmail email]⟩
    | .ok (some student) =>
      let isPasswordValid := env.comparePassword password student.password
      if !isPasswordValid then
        ⟨st, ⟨401, json [("success", .bool false),
          ("message", .str "Invalid email or password")]⟩, [.dbFindByEmail email]⟩
      else if !student.emailVerified then
        ⟨st, ⟨400, json [("success", .bool false),
          ("message", .str "Please verify your email first"),
          ("status", .str "EMAIL_NOT_VERIFIED")]⟩, [.dbFindByEmail email]⟩
      else if student.status = Status.PENDING_ADMIN_APPROVAL then
        ⟨st, ⟨403, json [("success", .bool false),
          ("message", .str "Your account is pending admin approval"),
          ("status", .str "PENDING_ADMIN_APPROVAL")]⟩, [.dbFindByEmail email]⟩
      else if student.status = Status.REJECTED then
        ⟨st, ⟨403, json [("success", .bool false),
          ("message", .str "Your account has been rejected"),
          ("status", .str "REJECTED")]⟩, [.dbFindByEmail email]⟩
      else
        let token := env.generateToken student.id student.email student.rollNumber
        ⟨st, ⟨200, json [("success", .bool true),
          ("message", .str "Login successful"),
          ("token", .str token),
          ("user", json [("id", .str student.id),
            ("fullName", .str student.fullName),
            ("email", .str student.email),
            ("rollNumber", .str student.rollNumber),
            ("status", .str student.status.toString)]),
          ("status", .str student.status.toString)]⟩, [.dbFindByEmail email]⟩

/-- The session token a response carries, `undefined` when it carries none. -/
def Response.token (r : Response) : JVal := r.body.get "token"

/-! ## Admin decisions (`PATCH /api/admin/students/:id/approve|reject`) -/

/-- An admin request: the `Authorization` header and the `:id` of the route. -/
structure AdminReq where
  authorization : Option String
  id : String

/-- The method `s.startsWith(t)` of a JavaScript string. -/
def jsStartsWith (s t : String) : Bool := t.data.isPrefixOf s.data

/-- The pieces of a list of characters between the occurrences of a separator. -/
def splitChars (sep : Char) : List Char → List (List Char)
  | [] => [[]]
  | c :: cs =>
    if c == sep then [] :: splitChars sep cs
    else
      match splitChars sep cs with
      | [] => [[c]]
      | w :: ws => (c :: w) :: ws

/-- The method `s.split(sep)` of a JavaScript string, for a separator of one character. -/
def jsSplit (s : String) (sep : Char) : List String :=
  (splitChars sep s.data).map String.mk

/-- Middleware `authenticateAdmin` of `routes/admin.js`: the response that ends
the request, or the admin the request continues with. -/
def authenticateAdmin (env : Env) (st : State) (authorization : Option String) :
    Except Response Admin × List Event :=
  if jsNot authorization || !jsStartsWith (authorization.getD "") "Bearer " then
    (.error ⟨401, json [("success", .bool false),
      ("message", .str "No token provided")]⟩, [])
  else
    let token := (jsSplit (authorization.getD "") ' ').getD 1 ""
    match env.verifyToken token with
    | none =>
      (.error ⟨401, json [("success", .bool false),
        ("message", .str "Invalid or expired token")]⟩, [])
    | some id =>
      match env.fault Call.adminFind with
      | some _ =>
        (.error ⟨401, json [("success", .bool false),
          ("message", .str "Invalid or expired token")]⟩, [.dbAdminFind id])
      | none =>
        match st.admins.find? fun a => a.id == id with
        | none =>
          (.error ⟨401, json [("success", .bool false),
            ("message", .str "Invalid token")]⟩, [.dbAdminFind id])
        | some admin => (.ok admin, [.dbAdminFind id])

/-- The `select` of the update call in the approve and reject routes, as JSON. -/
def selectDecided (row : Student) : JVal :=
  json [("id", .str row.id),
    ("fullName", .str row.fullName),
    ("email", .str row.email),
    ("rollNumber", .str row.rollNumber),
    ("status", .str row.status.toString),
    ("emailVerified", .bool row.emailVerified)]

/-- Handler `router.patch('/students/:id/approve')` of `routes/admin.js`. -/
def approveStudent (env : Env) (st : State) (req : AdminReq) : Result :=
  match authenticateAdmin env st req.authorization with
  | (.error resp, t0) => ⟨st, resp, t0⟩
  | (.ok _, t0) =>
    match prismaUpdateStatus env st req.id Status.APPROVED with
    | .ok (st1, student) =>
      ⟨st1, ⟨200, json [("success", .bool true),
        ("message", .str "Student approved successfully"),
        ("data", selectDecided student)]⟩, t0 ++ [.dbUpdate req.id]⟩
    | .error error =>
      ⟨st, ⟨500, json [("success", .bool false),
        ("message", .str "Server error approving student"),
        ("error", .str error.message)]⟩, t0 ++ [.dbUpdate req.id]⟩

/-- Handler `router.patch('/students/:id/reject')` of `routes/admin.js`. -/
def rejectStudent (env : Env) (st : State) (req : AdminReq) : Result :=
  match authenticateAdmin env st req.authorization with
  | (.error resp, t0) => ⟨st, resp, t0⟩
  | (.ok _, t0) =>
    match prismaUpdateStatus env st req.id Status.REJECTED with
    | .ok (st1, student) =>
      ⟨st1, ⟨200, json [("success", .bool true),
        ("message", .str "Student rejected successfully"),
        ("data", selectDecided student)]⟩, t0 ++ [.dbUpdate req.id]⟩
    | .error error =>
      ⟨st, ⟨500, json [("success", .bool false),
        ("message", .str "Server error rejecting student"),
        ("error", .str error.message)]⟩, t0 ++ [.dbUpdate req.id]⟩

/-! ## The lifecycle as a transition system -/

/-- The requests of the account lifecycle. -/
inductive Request where
  | register (req : RegisterReq)
  | verifyOtp (req : VerifyReq)
  | login (req : LoginReq)
  | approve (req : AdminReq)
  | reject (req : AdminReq)

/-- One request, handled in the world `env`. -/
def handle (env : Env) (st : State) : Request → Result
  | .register req => register env st req
  | .verifyOtp req => verifyOtp env st req
  | .login req => login env st req
  | .approve req => approveStudent env st req
  | .reject req => rejectStudent env st req

/-- The world `env` with the fault of one call site removed. -/
def Env.withoutFault (env : Env) (call : Call) : Env :=
  { env with fault := fun c => if c = call then none else env.fault c }

/-- Requests handled one after the other, each in its own world. -/
def run (st : State) : List (Env × Request) → State
  | [] => st
  | (env, req) :: rest => run (handle env st req).state rest

/-- No two accounts share an email and no two share a roll number. -/
def UniqueIdentity (st : State) : Prop :=
  (st.students.map fun s => s.email).Nodup ∧ (st.students.map fun s => s.rollNumber).Nodup

end EduBot

/-! ## Sample worlds and stores -/

namespace EduBot

/-- The value of a decimal numeral: `none` unless the characters are ASCII
digits without a leading zero (the numeral `0` apart). -/
def decimalNat (cs : List Char) : Option Nat :=
  match cs with
  | [] => none
  | ['0'] => some 0
  | c :: rest =>
    if c != '0' && (c :: rest).all (fun d => decide ('0' ≤ d) && decide (d ≤ '9')) then
      some ((c :: rest).foldl (fun n d => 10 * n + (d.toNat - 48)) 0)
    else none

/-- The read-back of the sample worlds, after the client's default
deserialisation: a string that spells `null`, `true`, `false` or an integer
(in canonical decimal form, within the safe integer range) comes back as that
JSON value; any other string of the sample stores is no JSON text and comes
back as it is, and so does a value that is not a string. -/
def sampleReadBack : JVal → JVal
  | .str s =>
    if s = "null" then .null
    else if s = "true" then .bool true
    else if s = "false" then .bool false
    else
      match s.data with
      | '-' :: rest =>
        match decimalNat rest with
        | some n => if n ≠ 0 ∧ n ≤ 9007199254740991 then .num (-(n : Int)) else .str s
        | none => .str s
      | cs =>
        match decimalNat cs with
        | some n => if n ≤ 9007199254740991 then .num (n : Int) else .str s
        | none => .str s
  | v => v

/-- A world in which no store call fails and the provider issues and accepts. -/
def sampleEnv : Env where
  fault := fun _ => none
  newId := "s-9"
  now := "2024-01-01T00:00:00.000Z"
  hashPassword := fun p => "h:" ++ p
  comparePassword := fun p h => h == "h:" ++ p
  generateToken := fun id _ _ => "jwt:" ++ id
  verifyToken := fun t => if t == "adm" then some "a-1" else none
  customerId := "C-1"
  authToken := "T-1"
  redisReadBack := sampleReadBack
  axiosPost := fun _ _ =>
    .response 200 (.obj [("data", .obj [("verificationId", .str "v-1")])])
  axiosGet := fun _ _ =>
    .response 200 (.obj [("data", .obj [("verificationStatus", .str "VERIFICATION_COMPLETED")])])

/-- An account with the given verification flag and approval state. -/
def sampleStudent (emailVerified : Bool) (status : Status) : Student :=
  { id := "s-1", fullName := "Asha", email := "a@x.com", rollNumber := "R1",
    mobileNumber := some "9000000001", password := "h:pw", status := status,
    emailVerified := emailVerified, createdAt := "2023-12-31T00:00:00.000Z" }

/-- A store holding one account and no session. -/
def sampleState (emailVerified : Bool) (status : Status) : State :=
  { students := [sampleStudent emailVerified status], redis := [], admins := [] }

/-- The empty store. -/
def emptyState : State := { students := [], redis := [], admins := [] }

/-- The world of `sampleEnv`, except that the issue call times out. -/
def issueFailsEnv : Env :=
  { sampleEnv with axiosPost := fun _ _ => .error "timeout of 10000ms exceeded" none }

/-- The world of `issueFailsEnv`, except that the store also rejects deletes. -/
def issueAndDeleteFailEnv : Env :=
  { issueFailsEnv with
    fault := fun c => if c = Call.delete then some "Connection lost" else none }

/-- The world of `sampleEnv`, except that the ephemeral store rejects writes. -/
def redisSetFailsEnv : Env :=
  { sampleEnv with
    fault := fun c => if c = Call.redisSet then some "fetch failed" else none }

/-- A complete registration request. -/
def sampleRegisterReq : RegisterReq :=
  { fullName := some "Asha", email := some "a@x.com", rollNumber := some "R1",
    password := some "pw", mobileNumber := some "9000000001", countryCode := none }

/-- The shape of code the spec accepts: between four and six characters, each
of them an ASCII digit `0` to `9`. -/
def WellFormedCode (otp : String) : Prop :=
  4 ≤ otp.length ∧ otp.length ≤ 6 ∧ ∀ c ∈ otp.data, '0' ≤ c ∧ c ≤ '9'

/-- A store holding one unverified, pending account and its live session. -/
def sessionState : State :=
  { students := [sampleStudent false Status.PENDING_ADMIN_APPROVAL],
    redis := [("verification:a@x.com", ⟨.str "v-1", 600⟩)], admins := [] }

/-- The world of `sampleEnv`, except that the validate call fails at transport level. -/
def validateFailsEnv : Env :=
  { sampleEnv with axiosGet := fun _ _ => .error "Network Error" none }

/-- The world of `sampleEnv`, except that the ephemeral store rejects deletes. -/
def redisDelFailsEnv : Env :=
  { sampleEnv with
    fault := fun c => if c = Call.redisDel then some "fetch failed" else none }

/-- A store holding an abandoned registration: the unverified account and the
session reference `v-0` issued for it. -/
def abandonedState : State :=
  { students := [sampleStudent false Status.PENDING_ADMIN_APPROVAL],
    redis := [("verification:a@x.com", ⟨.str "v-0", 600⟩)], admins := [] }

/-- The world of `sampleEnv`, except that the store rejects the create call
with a unique-constraint violation (the duplicate was inserted by a concurrent
request after the lookups). -/
def createConflictEnv : Env :=
  { sampleEnv with
    fault := fun c =>
      if c = Call.create then some "Unique constraint failed on the fields: (email)" else none }

/-- The world of `sampleEnv`, except that the provider answers both calls with
status 200 and a body that is not the JSON it promises. -/
def malformedBodyEnv : Env :=
  { sampleEnv with
    axiosPost := fun _ _ => .response 200 (.str "<html>Service temporarily unavailable</html>")
    axiosGet := fun _ _ => .response 200 (.str "<html>Service temporarily unavailable</html>") }

/-- A store holding one unverified, pending account and one admin. -/
def adminState : State :=
  { students := [sampleStudent false Status.PENDING_ADMIN_APPROVAL], redis := [],
    admins := [⟨"a-1", "Admin", "admin@x.com", "h:adm"⟩] }

/-- The world `env` with the behaviour of one call site replaced: it rejects
with the given message, or answers when there is none. -/
def Env.withFault (env : Env) (call : Call) (message : Option String) : Env :=
  { env with fault := fun c => if c = call then message else env.fault c }

/-- The world `env` with another provider behind both axios calls. -/
def Env.withProvider (env : Env) (post get : String → JVal → AxiosOutcome) : Env :=
  { env with axiosPost := post, axiosGet := get }

/-- The normalised outcome of a validate call: `none` when the call failed,
else whether the body carries one of the validity signals. -/
def AxiosOutcome.verdict : AxiosOutcome → Option Bool
  | .response _ data => some (isValidSignal data)
  | .error _ _ => none

/-- The world of `sampleEnv`, except that the provider refuses the issue call
with status 400 and a body that carries the given text. -/
def refusingEnv (text : String) : Env :=
  { sampleEnv with
    axiosPost := fun _ _ =>
      .error "Request failed with status code 400"
        (some (400, .obj [("responseCode", .num 506), ("message", .str text)])) }

/-- A store holding one unverified, pending account and a session whose
reference is the string `0`. -/
def zeroSessionState : State :=
  { students := [sampleStudent false Status.PENDING_ADMIN_APPROVAL],
    redis := [("verification:a@x.com", ⟨.str "0", 600⟩)], admins := [] }

/-- A store holding one unverified, pending account and a session whose
reference is a string of digits. -/
def numericSessionState : State :=
  { students := [sampleStudent false Status.PENDING_ADMIN_APPROVAL],
    redis := [("verification:a@x.com", ⟨.str "2949", 600⟩)], admins := [] }

/-- A provider that confirms the validate call for the reference `v-1`, the
number `9000000001` and the code `1234`, and fails every other call. -/
def pickyValidate (url : String) (config : JVal) : AxiosOutcome :=
  if url == MESSAGE_CENTRAL_BASE_URL ++ "/validateOtp"
      && ((config.get "params").get "verificationId").eqStr "v-1"
      && ((config.get "params").get "mobileNumber").eqStr "9000000001"
      && ((config.get "params").get "code").eqStr "1234" then
    .response 200 (.obj [("data", .obj [("verificationStatus", .str "VERIFICATION_COMPLETED")])])
  else .error "Network Error" none

/-- The account of the email exists, is unverified and has no session entry
under the key of the email. -/
def Stranded (email : String) (st : State) : Prop :=
  ∃ student, findByEmail st.students email = some student ∧ student.emailVerified = false ∧
    st.redis.lookup (verificationKey email) = none

end EduBot

/-! ## Theorems -/

namespace EduBot

/-- C1: when the submitted password matches the account found for the email,
login decides in a fixed order: an unverified account gets `EMAIL_NOT_VERIFIED`
whatever its approval state; otherwise a pending account gets
`PENDING_ADMIN_APPROVAL`; otherwise a rejected account gets `REJECTED`;
otherwise the response is a success that carries the signed token. -/
theorem login_decision_order (env : Env) (st : State) (email password : String)
    (student : Student) (hemail : email ≠ "") (hpassword : password ≠ "")
    (hfault : env.fault Call.findByEmail = none)
    (hfind : findByEmail st.students email = some student)
    (hmatch : env.comparePassword password student.password = true) :
    (student.emailVerified = false →
      (login env st ⟨some email, some password⟩).resp.status = 400 ∧
      (login env st ⟨some email, some password⟩).resp.body.get "status"
        = .str "EMAIL_NOT_VERIFIED" ∧
      (login env st ⟨some email, some password⟩).resp.token = .undefined) ∧
    (student.emailVerified = true → student.status = Status.PENDING_ADMIN_APPROVAL →
      (login env st ⟨some email, some password⟩).resp.status = 403 ∧
      (login env st ⟨some email, some password⟩).resp.body.get "status"
        = .str "PENDING_ADMIN_APPROVAL" ∧
      (login env st ⟨some email, some password⟩).resp.token = .undefined) ∧
    (student.emailVerified = true → student.status ≠ Status.PENDING_ADMIN_APPROVAL →
      student.status = Status.REJECTED →
      (login env st ⟨some email, some password⟩).resp.status = 403 ∧
      (login env st ⟨some email, some password⟩).resp.body.get "status" = .str "REJECTED" ∧
      (login env st ⟨some email, some password⟩).resp.token = .undefined) ∧
    (student.emailVerified = true → student.status ≠ Status.PENDING_ADMIN_APPROVAL →
      student.status ≠ Status.REJECTED →
      (login env st ⟨some email, some password⟩).resp.status = 200 ∧
      (login env st ⟨some email, some password⟩).resp.body.get "success" = .bool true ∧
      (login env st ⟨some email, some password⟩).resp.token
        = .str (env.generateToken student.id student.email student.rollNumber)) := by
  refine ⟨?_, ?_, ?_, ?_⟩
  · intro hv
    simp [login, jsNot, hemail, hpassword, prismaFindByEmail, hfault, hfind, hmatch, hv,
      Response.token, json, JVal.get, JVal.isUndefined, List.lookup]
  · intro hv hs
    simp [login, jsNot, hemail, hpassword, prismaFindByEmail, hfault, hfind, hmatch, hv, hs,
      Response.token, json, JVal.get, JVal.isUndefined, List.lookup]
  · intro hv _ hs
    simp [login, jsNot, hemail, hpassword, prismaFindByEmail, hfault, hfind, hmatch, hv, hs,
      Response.token, json, JVal.get, JVal.isUndefined, List.lookup]
  · intro hv hs1 hs2
    simp [login, jsNot, hemail, hpassword, prismaFindByEmail, hfault, hfind, hmatch, hv, hs1,
      hs2, Response.token, json, JVal.get, JVal.isUndefined, List.lookup]

/-- Witness of C1: an account that is both unverified and rejected is reported
as unverified. -/
theorem login_decision_order_witness :
    findByEmail (sampleState false Status.REJECTED).students "a@x.com"
      = some (sampleStudent false Status.REJECTED) ∧
    (login sampleEnv (sampleState false Status.REJECTED) ⟨some "a@x.com", some "pw"⟩).resp.body.get
      "status" = .str "EMAIL_NOT_VERIFIED" :=
  ⟨by decide,
   ((login_decision_order sampleEnv (sampleState false Status.REJECTED) "a@x.com" "pw"
      (sampleStudent false Status.REJECTED) (by decide) (by decide) rfl (by decide)
      (by decide)).1 rfl).2.1⟩

/-- C2: for non-empty email and password, login answers an email that has no
account exactly as it answers an existing account whose password does not
match: the same HTTP status 401 and the same body. -/
theorem login_unknown_email_same_as_wrong_password (env env2 : Env) (st st2 : State)
    (email password email2 password2 : String) (student : Student)
    (hemail : email ≠ "") (hpassword : password ≠ "")
    (hemail2 : email2 ≠ "") (hpassword2 : password2 ≠ "")
    (hfault : env.fault Call.findByEmail = none)
    (hfault2 : env2.fault Call.findByEmail = none)
    (hnone : findByEmail st.students email = none)
    (hsome : findByEmail st2.students email2 = some student)
    (hbad : env2.comparePassword password2 student.password = false) :
    (login env st ⟨some email, some password⟩).resp
      = (login env2 st2 ⟨some email2, some password2⟩).resp ∧
    (login env st ⟨some email, some password⟩).resp.status = 401 ∧
    (login env st ⟨some email, some password⟩).resp.body
      = json [("success", .bool false), ("message", .str "Invalid email or password")] := by
  simp [login, jsNot, hemail, hpassword, hemail2, hpassword2, prismaFindByEmail, hfault,
    hfault2, hnone, hsome, hbad]

/-- Witness of C2: an unknown email against the empty store, and a wrong
password against a store that holds the account. -/
theorem login_unknown_email_same_as_wrong_password_witness :
    findByEmail emptyState.students "a@x.com" = none ∧
    findByEmail (sampleState true Status.APPROVED).students "a@x.com"
      = some (sampleStudent true Status.APPROVED) ∧
    sampleEnv.comparePassword "bad" (sampleStudent true Status.APPROVED).password = false ∧
    (login sampleEnv emptyState ⟨some "a@x.com", some "bad"⟩).resp
      = (login sampleEnv (sampleState true Status.APPROVED) ⟨some "a@x.com", some "bad"⟩).resp :=
  ⟨by decide, by decide, by decide,
   (login_unknown_email_same_as_wrong_password sampleEnv sampleEnv emptyState
      (sampleState true Status.APPROVED) "a@x.com" "bad" "a@x.com" "bad"
      (sampleStudent true Status.APPROVED) (by decide) (by decide) (by decide) (by decide)
      rfl rfl (by decide) (by decide) (by decide)).1⟩

/-- C3: login issues a token only if the request names an account of the
store, the password matches its stored hash, the account is verified and its
approval state is APPROVED; and when the lookup answers, it issues the signed
token whenever all of these hold. -/
theorem login_token_iff_eligible (env : Env) (st : State) (req : LoginReq) :
    ((login env st req).resp.token ≠ JVal.undefined →
      ∃ email password student, req.email = some email ∧ req.password = some password ∧
        findByEmail st.students email = some student ∧
        env.comparePassword password student.password = true ∧
        student.emailVerified = true ∧ student.status = Status.APPROVED) ∧
    (env.fault Call.findByEmail = none →
      ∀ email password student, req.email = some email → email ≠ "" →
        req.password = some password → password ≠ "" →
        findByEmail st.students email = some student →
        env.comparePassword password student.password = true →
        student.emailVerified = true → student.status = Status.APPROVED →
        (login env st req).resp.token
          = .str (env.generateToken student.id student.email student.rollNumber)) := by
  obtain ⟨oe, op⟩ := req
  constructor
  · intro h
    cases oe with
    | none => simp [login, jsNot, Response.token, json, JVal.get, JVal.isUndefined,
        List.lookup] at h
    | some email =>
      cases op with
      | none => simp [login, jsNot, Response.token, json, JVal.get, JVal.isUndefined,
          List.lookup] at h
      | some password =>
        refine ⟨email, password, ?_⟩
        by_cases he : email = ""
        · simp [login, jsNot, he, Response.token, json, JVal.get, JVal.isUndefined,
            List.lookup] at h
        by_cases hp : password = ""
        · simp [login, jsNot, hp, Response.token, json, JVal.get, JVal.isUndefined,
            List.lookup] at h
        cases hf : env.fault Call.findByEmail with
        | some m =>
          simp [login, jsNot, he, hp, prismaFindByEmail, hf, Response.token, json, JVal.get,
            JVal.isUndefined, List.lookup] at h
        | none =>
          cases hfind : findByEmail st.students email with
          | none =>
            simp [login, jsNot, he, hp, prismaFindByEmail, hf, hfind, Response.token, json,
              JVal.get, JVal.isUndefined, List.lookup] at h
          | some student =>
            refine ⟨student, rfl, rfl, rfl, ?_⟩
            cases hc : env.comparePassword password student.password with
            | false =>
              simp [login, jsNot, he, hp, prismaFindByEmail, hf, hfind, hc, Response.token,
                json, JVal.get, JVal.isUndefined, List.lookup] at h
            | true =>
              cases hv : student.emailVerified with
              | false =>
                simp [login, jsNot, he, hp, prismaFindByEmail, hf, hfind, hc, hv,
                  Response.token, json, JVal.get, JVal.isUndefined, List.lookup] at h
              | true =>
                refine ⟨rfl, rfl, ?_⟩
                cases hs : student.status with
                | APPROVED => rfl
                | PENDING_ADMIN_APPROVAL =>
                  simp [login, jsNot, he, hp, prismaFindByEmail, hf, hfind, hc, hv, hs,
                    Response.token, json, JVal.get, JVal.isUndefined, List.lookup] at h
                | REJECTED =>
                  simp [login, jsNot, he, hp, prismaFindByEmail, hf, hfind, hc, hv, hs,
                    Response.token, json, JVal.get, JVal.isUndefined, List.lookup] at h
  · intro hf email password student h1 he h2 hp hfind hc hv hs
    cases h1
    cases h2
    simp [login, jsNot, he, hp, prismaFindByEmail, hf, hfind, hc, hv, hs,
      Response.token, json, JVal.get, JVal.isUndefined, List.lookup]

/-- Witness of C3: a verified, approved account with the right password gets
the signed token. -/
theorem login_token_iff_eligible_witness :
    findByEmail (sampleState true Status.APPROVED).students "a@x.com"
      = some (sampleStudent true Status.APPROVED) ∧
    (login sampleEnv (sampleState true Status.APPROVED) ⟨some "a@x.com", some "pw"⟩).resp.token
      = .str "jwt:s-1" :=
  ⟨by decide,
   (login_token_iff_eligible sampleEnv (sampleState true Status.APPROVED)
      ⟨some "a@x.com", some "pw"⟩).2 rfl "a@x.com" "pw" (sampleStudent true Status.APPROVED)
      rfl (by decide) rfl (by decide) (by decide) (by decide) rfl rfl⟩

/-! ### Identity uniqueness is preserved by every store operation -/

theorem uniq_of_create {env : Env} {st st1 : State} {data : CreateData} {row : Student}
    (h : prismaCreate env st data = .ok (st1, row)) (hu : UniqueIdentity st) :
    UniqueIdentity st1 := by
  unfold prismaCreate at h
  split at h
  · cases h
  · dsimp only at h
    split at h
    · cases h
    · rename_i hany
      simp only [Except.ok.injEq, Prod.mk.injEq] at h
      obtain ⟨h1, h2⟩ := h
      subst h1
      simp only [List.any_eq_true, not_exists, not_and, Bool.or_eq_true, beq_iff_eq] at hany
      unfold UniqueIdentity at *
      simp only [List.map_append, List.map_cons, List.map_nil]
      constructor
      · refine List.Nodup.append hu.1 (List.nodup_singleton _) ?_
        intro a ha hb
        simp only [List.mem_map] at ha
        simp only [List.mem_singleton] at hb
        obtain ⟨t, ht, hta⟩ := ha
        have := hany t ht
        apply this
        left; right
        rw [hta, hb]
      · refine List.Nodup.append hu.2 (List.nodup_singleton _) ?_
        intro a ha hb
        simp only [List.mem_map] at ha
        simp only [List.mem_singleton] at hb
        obtain ⟨t, ht, hta⟩ := ha
        have := hany t ht
        apply this
        right
        rw [hta, hb]

theorem uniq_of_delete {env : Env} {st st1 : State} {id : String}
    (h : prismaDelete env st id = .ok st1) (hu : UniqueIdentity st) :
    UniqueIdentity st1 := by
  unfold prismaDelete at h
  split at h
  · cases h
  · split at h
    · cases h
    · simp only [Except.ok.injEq] at h
      subst h
      exact ⟨hu.1.sublist ((List.filter_sublist _).map _), hu.2.sublist ((List.filter_sublist _).map _)⟩


theorem uniq_of_redisSet {env : Env} {st st1 : State} {key : String} {value : JVal} {ex : Nat}
    (h : redisSet env st key value ex = .ok st1) (hu : UniqueIdentity st) :
    UniqueIdentity st1 := by
  unfold redisSet at h
  split at h
  · cases h
  · simp only [Except.ok.injEq] at h
    subst h
    exact hu

theorem registerCatch_uniq (env : Env) (st : State) (error : JsError) (trace : List Event)
    (hu : UniqueIdentity st) : UniqueIdentity (registerCatch env st error trace).state := by
  unfold registerCatch
  dsimp only
  repeat' split
  all_goals first
    | exact hu
    | exact uniq_of_delete (by assumption) hu

theorem register_uniq (env : Env) (st : State) (req : RegisterReq)
    (hu : UniqueIdentity st) : UniqueIdentity (register env st req).state := by
  unfold register registerIssue
  dsimp only
  repeat' split
  all_goals first
    | exact hu
    | exact registerCatch_uniq _ _ _ _ hu
    | exact uniq_of_create (by assumption) hu
    | exact uniq_of_delete (by assumption) (uniq_of_create (by assumption) hu)
    | exact uniq_of_redisSet (by assumption) (uniq_of_create (by assumption) hu)


theorem uniq_of_updateVerified {env : Env} {st st1 : State} {email : String}
    (h : prismaUpdateVerified env st email = .ok st1) (hu : UniqueIdentity st) :
    UniqueIdentity st1 := by
  unfold prismaUpdateVerified at h
  split at h
  · cases h
  · split at h
    · cases h
    · simp only [Except.ok.injEq] at h
      subst h
      unfold UniqueIdentity at *
      simp only [List.map_map]
      have e1 : ((fun s : Student => s.email) ∘ fun t : Student =>
          if (t.email == email) = true then { t with emailVerified := true } else t)
          = fun s => s.email := by
        funext t
        simp only [Function.comp]
        split <;> rfl
      have e2 : ((fun s : Student => s.rollNumber) ∘ fun t : Student =>
          if (t.email == email) = true then { t with emailVerified := true } else t)
          = fun s => s.rollNumber := by
        funext t
        simp only [Function.comp]
        split <;> rfl
      rw [e1, e2]
      exact hu

theorem uniq_of_updateStatus {env : Env} {st st1 : State} {id : String} {status : Status}
    {row : Student} (h : prismaUpdateStatus env st id status = .ok (st1, row))
    (hu : UniqueIdentity st) : UniqueIdentity st1 := by
  unfold prismaUpdateStatus at h
  split at h
  · cases h
  · split at h
    · cases h
    · simp only [Except.ok.injEq, Prod.mk.injEq] at h
      obtain ⟨h1, _⟩ := h
      subst h1
      unfold UniqueIdentity at *
      simp only [List.map_map]
      have e1 : ((fun s : Student => s.email) ∘ fun t : Student =>
          if (t.id == id) = true then { t with status := status } else t)
          = fun s => s.email := by
        funext t
        simp only [Function.comp]
        split <;> rfl
      have e2 : ((fun s : Student => s.rollNumber) ∘ fun t : Student =>
          if (t.id == id) = true then { t with status := status } else t)
          = fun s => s.rollNumber := by
        funext t
        simp only [Function.comp]
        split <;> rfl
      rw [e1, e2]
      exact hu

theorem uniq_of_redisDel {env : Env} {st st1 : State} {key : String}
    (h : redisDel env st key = .ok st1) (hu : UniqueIdentity st) :
    UniqueIdentity st1 := by
  unfold redisDel at h
  split at h
  · cases h
  · simp only [Except.ok.injEq] at h
    subst h
    exact hu

theorem verifyOtp_uniq (env : Env) (st : State) (req : VerifyReq)
    (hu : UniqueIdentity st) : UniqueIdentity (verifyOtp env st req).state := by
  unfold verifyOtp verifyCatch
  dsimp only
  repeat' split
  all_goals first
    | exact hu
    | exact uniq_of_redisDel (by assumption) hu
    | exact uniq_of_updateVerified (by assumption) (uniq_of_redisDel (by assumption) hu)

theorem login_state (env : Env) (st : State) (req : LoginReq) :
    (login env st req).state = st := by
  unfold login
  dsimp only
  repeat' split
  all_goals rfl

theorem approveStudent_uniq (env : Env) (st : State) (req : AdminReq)
    (hu : UniqueIdentity st) : UniqueIdentity (approveStudent env st req).state := by
  unfold approveStudent
  repeat' split
  all_goals first
    | exact hu
    | exact uniq_of_updateStatus (by assumption) hu

theorem rejectStudent_uniq (env : Env) (st : State) (req : AdminReq)
    (hu : UniqueIdentity st) : UniqueIdentity (rejectStudent env st req).state := by
  unfold rejectStudent
  repeat' split
  all_goals first
    | exact hu
    | exact uniq_of_updateStatus (by assumption) hu

theorem handle_uniq (env : Env) (st : State) (req : Request)
    (hu : UniqueIdentity st) : UniqueIdentity (handle env st req).state := by
  cases req with
  | register r => exact register_uniq env st r hu
  | verifyOtp r => exact verifyOtp_uniq env st r hu
  | login r => simpa only [handle, login_state] using hu
  | approve r => exact approveStudent_uniq env st r hu
  | reject r => exact rejectStudent_uniq env st r hu

/-- C4: identity uniqueness is an invariant of the lifecycle: from a store in
which emails and roll numbers are pairwise distinct, any sequence of register,
verify-otp, login, approve and reject requests, handled one after the other in
arbitrary worlds, ends in a store in which they are still pairwise distinct. -/
theorem identity_unique_invariant (st : State) (steps : List (Env × Request))
    (hu : UniqueIdentity st) : UniqueIdentity (run st steps) := by
  induction steps generalizing st with
  | nil => exact hu
  | cons step rest ih =>
    obtain ⟨env, req⟩ := step
    exact ih _ (handle_uniq env st req hu)

/-- Witness of C4: a registration followed by a second registration with the
same email and roll number, a code validation and an approval. -/
theorem identity_unique_invariant_witness :
    UniqueIdentity emptyState ∧
    UniqueIdentity (run emptyState
      [(sampleEnv, .register sampleRegisterReq),
       (sampleEnv, .register sampleRegisterReq),
       (sampleEnv, .verifyOtp ⟨some "a@x.com", some "1234", none⟩),
       (sampleEnv, .approve ⟨some "Bearer adm", "s-9"⟩)]) :=
  ⟨by simp [UniqueIdentity, emptyState],
   identity_unique_invariant emptyState _ (by simp [UniqueIdentity, emptyState])⟩

/-! ### Registration -/

theorem find?_eq_none_any {p : Student → Bool} {l : List Student}
    (h : l.find? p = none) : ∀ t ∈ l, p t = false := by
  intro t ht
  have := List.find?_eq_none.1 h t ht
  simpa using this

theorem prismaCreate_ok (env : Env) (st : State) (data : CreateData)
    (hfault : env.fault Call.create = none)
    (hemail : findByEmail st.students data.email = none)
    (hroll : findByRollNumber st.students data.rollNumber = none)
    (hid : findById st.students env.newId = none) :
    prismaCreate env st data
      = .ok ({ st with students := st.students ++ [createdRow env data] }, createdRow env data) := by
  have hany : (st.students.any fun t =>
      t.id == (createdRow env data).id || t.email == (createdRow env data).email ||
        t.rollNumber == (createdRow env data).rollNumber) = false := by
    rw [List.any_eq_false]
    intro t ht
    have h1 := find?_eq_none_any hemail t ht
    have h2 := find?_eq_none_any hroll t ht
    have h3 := find?_eq_none_any hid t ht
    simp only [createdRow, h1, h2, h3, Bool.or_self, Bool.false_eq_true, not_false_eq_true]
  unfold prismaCreate
  rw [hfault]
  simp only [hany, Bool.false_eq_true, if_false]

theorem prismaDelete_created (env : Env) (st : State) (row : Student)
    (hfault : env.fault Call.delete = none)
    (hid : findById st.students row.id = none) :
    prismaDelete env { st with students := st.students ++ [row] } row.id = .ok st := by
  unfold prismaDelete
  rw [hfault]
  dsimp only
  have hfound : findById (st.students ++ [row]) row.id = some row := by
    unfold findById at *
    rw [List.find?_append, hid]
    simp
  rw [hfound]
  dsimp only
  have hfilter : (st.students ++ [row]).filter (fun t => !(t.id == row.id)) = st.students := by
    rw [List.filter_append]
    have : [row].filter (fun t => !(t.id == row.id)) = [] := by simp
    rw [this, List.append_nil, List.filter_eq_self]
    intro t ht
    have := find?_eq_none_any hid t ht
    simp only [this, Bool.not_false]
  rw [hfilter]


/-- A complete request that passes both uniqueness checks and whose row the
store accepts reaches the provider call with the created row in the store. -/
theorem register_reaches_issue (env : Env) (st : State)
    (fullName email rollNumber password mobileNumber : String) (countryCode : Option String)
    (hfullName : fullName ≠ "") (hemail : email ≠ "") (hrollNumber : rollNumber ≠ "")
    (hpassword : password ≠ "") (hmobileNumber : mobileNumber ≠ "")
    (hfind1 : env.fault Call.findByEmail = none)
    (hfind2 : env.fault Call.findByRollNumber = none)
    (hcreate : env.fault Call.create = none)
    (hnoEmail : findByEmail st.students email = none)
    (hnoRoll : findByRollNumber st.students rollNumber = none)
    (hfresh : findById st.students env.newId = none) :
    register env st ⟨some fullName, some email, some rollNumber, some password,
        some mobileNumber, countryCode⟩
      = registerIssue env
          { st with students := st.students ++
            [createdRow env (registerData env fullName email rollNumber password mobileNumber)] }
          (createdRow env (registerData env fullName email rollNumber password mobileNumber))
          email mobileNumber countryCode
          [.dbFindByEmail email, .dbFindByRollNumber rollNumber,
           .dbCreate (registerData env fullName email rollNumber password mobileNumber)] := by
  have hc := prismaCreate_ok env st
    (registerData env fullName email rollNumber password mobileNumber)
    hcreate hnoEmail hnoRoll hfresh
  have hv : (jsNot (some fullName) || jsNot (some email) || jsNot (some rollNumber)
      || jsNot (some password)) = false := by
    simp [jsNot, hfullName, hemail, hrollNumber, hpassword]
  have hm : jsNot (some mobileNumber) = false := by simp [jsNot, hmobileNumber]
  unfold register
  simp only [hv, hm, Bool.false_eq_true, if_false, Option.getD_some, prismaFindByEmail,
    prismaFindByRollNumber, hfind1, hfind2, hnoEmail, hnoRoll, hc, List.singleton_append,
    List.cons_append, List.nil_append]

/-- C5 (as amended): when the issue call fails, or succeeds without a usable
verificationId, register returns the delivery error; and when the compensating
delete does not fail, the store afterwards is identical to the store before
the request. -/
theorem register_issue_failure_compensated (env : Env) (st : State)
    (fullName email rollNumber password mobileNumber : String) (countryCode : Option String)
    (hfullName : fullName ≠ "") (hemail : email ≠ "") (hrollNumber : rollNumber ≠ "")
    (hpassword : password ≠ "") (hmobileNumber : mobileNumber ≠ "")
    (hfind1 : env.fault Call.findByEmail = none)
    (hfind2 : env.fault Call.findByRollNumber = none)
    (hcreate : env.fault Call.create = none)
    (hnoEmail : findByEmail st.students email = none)
    (hnoRoll : findByRollNumber st.students rollNumber = none)
    (hfresh : findById st.students env.newId = none)
    (hissue : (sendOTP env mobileNumber (otpCountryCode countryCode) "SMS").success = false ∨
      (sendOTP env mobileNumber (otpCountryCode countryCode) "SMS").verificationId.truthy
        = false) :
    (register env st ⟨some fullName, some email, some rollNumber, some password,
        some mobileNumber, countryCode⟩).resp.status = 500 ∧
    (register env st ⟨some fullName, some email, some rollNumber, some password,
        some mobileNumber, countryCode⟩).resp.body.get "message"
      = .str "Failed to send OTP. Please try again." ∧
    (env.fault Call.delete = none →
      (register env st ⟨some fullName, some email, some rollNumber, some password,
        some mobileNumber, countryCode⟩).state = st) := by
  have hcond : (!(sendOTP env mobileNumber (otpCountryCode countryCode) "SMS").success ||
      !(sendOTP env mobileNumber (otpCountryCode countryCode) "SMS").verificationId.truthy)
      = true := by
    rcases hissue with h | h <;> simp [h]
  rw [register_reaches_issue env st fullName email rollNumber password mobileNumber countryCode
    hfullName hemail hrollNumber hpassword hmobileNumber hfind1 hfind2 hcreate hnoEmail hnoRoll
    hfresh]
  unfold registerIssue
  simp only [hcond, if_true]
  refine ⟨?_, ?_, ?_⟩
  · split <;> rfl
  · split <;> simp [json, JVal.get, JVal.isUndefined, List.lookup]
  · intro hdel
    rw [prismaDelete_created env st _ hdel hfresh]

/-- Witness of C5: the issue call times out, the delete succeeds, and the
store is the empty store it was before. -/
theorem register_issue_failure_compensated_witness :
    (sendOTP issueFailsEnv "9000000001" (otpCountryCode none) "SMS").success = false ∧
    (register issueFailsEnv emptyState sampleRegisterReq).resp.status = 500 ∧
    (register issueFailsEnv emptyState sampleRegisterReq).state = emptyState :=
  have h := register_issue_failure_compensated issueFailsEnv emptyState "Asha" "a@x.com" "R1"
    "pw" "9000000001" none (by decide) (by decide) (by decide) (by decide) (by decide)
    rfl rfl rfl rfl rfl rfl (Or.inl rfl)
  ⟨rfl, h.1, h.2.2 rfl⟩

/-- Counterexample to C5 as stated: the issue call times out and the
compensating delete fails too; register answers 500, the created account stays
in the store, and the retry is rejected as a duplicate. -/
theorem register_issue_failure_account_remains :
    (sendOTP issueAndDeleteFailEnv "9000000001" (otpCountryCode none) "SMS").success = false ∧
    (register issueAndDeleteFailEnv emptyState sampleRegisterReq).resp.status = 500 ∧
    (register issueAndDeleteFailEnv emptyState sampleRegisterReq).state.students
      ≠ emptyState.students ∧
    (findByEmail (register issueAndDeleteFailEnv emptyState sampleRegisterReq).state.students
      "a@x.com").isSome = true ∧
    (register sampleEnv (register issueAndDeleteFailEnv emptyState sampleRegisterReq).state
      sampleRegisterReq).resp.status = 400 := by
  refine ⟨rfl, ?_, ?_, ?_, ?_⟩ <;> decide

theorem registerCatch_status (env : Env) (st : State) (error : JsError) (trace : List Event) :
    (registerCatch env st error trace).resp.status = 500 := by
  unfold registerCatch
  dsimp only
  repeat' split
  all_goals rfl

theorem prismaCreate_inv {env : Env} {st st1 : State} {data : CreateData} {row : Student}
    (h : prismaCreate env st data = .ok (st1, row)) :
    env.fault Call.create = none ∧ findById st.students env.newId = none ∧
    st1 = { st with students := st.students ++ [createdRow env data] } ∧
    row = createdRow env data := by
  unfold prismaCreate at h
  split at h
  · cases h
  · rename_i hf
    dsimp only at h
    split at h
    · cases h
    · rename_i hany
      simp only [Except.ok.injEq, Prod.mk.injEq] at h
      refine ⟨hf, ?_, h.1.symm, h.2.symm⟩
      unfold findById
      rw [List.find?_eq_none]
      intro t ht hid
      apply hany
      rw [List.any_eq_true]
      exact ⟨t, ht, by simp only [createdRow, hid, Bool.true_or]⟩

/-- A registration that answers 201 was complete, passed both uniqueness
checks, had its row accepted by the store and its code issued. -/
theorem register_success_inv (env : Env) (st : State) (req : RegisterReq)
    (h : (register env st req).resp.status = 201) :
    ∃ fullName email rollNumber password mobileNumber,
      req = ⟨some fullName, some email, some rollNumber, some password, some mobileNumber,
        req.countryCode⟩ ∧
      fullName ≠ "" ∧ email ≠ "" ∧ rollNumber ≠ "" ∧ password ≠ "" ∧ mobileNumber ≠ "" ∧
      env.fault Call.findByEmail = none ∧ env.fault Call.findByRollNumber = none ∧
      env.fault Call.create = none ∧
      findByEmail st.students email = none ∧ findByRollNumber st.students rollNumber = none ∧
      findById st.students env.newId = none ∧
      (sendOTP env mobileNumber (otpCountryCode req.countryCode) "SMS").success = true ∧
      (sendOTP env mobileNumber (otpCountryCode req.countryCode) "SMS").verificationId.truthy
        = true := by
  obtain ⟨ofn, oe, orn, op, om, cc⟩ := req
  rcases ofn with _ | fullName
  · simp [register, jsNot] at h
  rcases oe with _ | email
  · simp [register, jsNot] at h
  rcases orn with _ | rollNumber
  · simp [register, jsNot] at h
  rcases op with _ | password
  · simp [register, jsNot] at h
  rcases om with _ | mobileNumber
  · simp [register, jsNot] at h
    split at h <;> simp at h
  by_cases h1 : fullName = ""
  · simp [register, jsNot, h1] at h
  by_cases h2 : email = ""
  · simp [register, jsNot, h2] at h
  by_cases h3 : rollNumber = ""
  · simp [register, jsNot, h3] at h
  by_cases h4 : password = ""
  · simp [register, jsNot, h4] at h
  by_cases h5 : mobileNumber = ""
  · simp [register, jsNot, h1, h2, h3, h4, h5] at h
  have hv : (jsNot (some fullName) || jsNot (some email) || jsNot (some rollNumber)
      || jsNot (some password)) = false := by
    simp [jsNot, h1, h2, h3, h4]
  have hm : jsNot (some mobileNumber) = false := by simp [jsNot, h5]
  unfold register at h
  simp only [hv, hm, Bool.false_eq_true, if_false, Option.getD_some] at h
  refine ⟨fullName, email, rollNumber, password, mobileNumber, rfl, h1, h2, h3, h4, h5, ?_⟩
  cases hf1 : env.fault Call.findByEmail with
  | some m => simp [prismaFindByEmail, hf1, registerCatch_status] at h
  | none =>
  cases hfe : findByEmail st.students email with
  | some s => simp [prismaFindByEmail, hf1, hfe] at h
  | none =>
  cases hf2 : env.fault Call.findByRollNumber with
  | some m => simp [prismaFindByEmail, hf1, hfe, prismaFindByRollNumber, hf2,
      registerCatch_status] at h
  | none =>
  cases hfr : findByRollNumber st.students rollNumber with
  | some s => simp [prismaFindByEmail, hf1, hfe, prismaFindByRollNumber, hf2, hfr] at h
  | none =>
  simp only [prismaFindByEmail, hf1, hfe, prismaFindByRollNumber, hf2, hfr] at h
  cases hc : prismaCreate env st
      (registerData env fullName email rollNumber password mobileNumber) with
  | error e => simp [hc, registerCatch_status] at h
  | ok p =>
    obtain ⟨st1, student⟩ := p
    obtain ⟨hcf, hid, _, _⟩ := prismaCreate_inv hc
    refine ⟨rfl, rfl, hcf, rfl, rfl, hid, ?_⟩
    simp only [hc] at h
    unfold registerIssue at h
    dsimp only at h
    split at h
    · split at h <;> simp at h
    · rename_i hcond
      simpa using hcond

/-- C6 (as amended): after every registration that answers success, exactly
one account has the submitted email; and when the write to the ephemeral store
did not fail, the store holds a live session reference, with the fixed expiry,
under the key derived from that email. -/
theorem register_success_account_and_session (env : Env) (st : State) (req : RegisterReq)
    (email : String) (hreq : req.email = some email)
    (h : (register env st req).resp.status = 201) :
    ((register env st req).state.students.filter fun s => s.email == email).length = 1 ∧
    (env.fault Call.redisSet = none →
      ∃ ref, ref.truthy = true ∧
        (register env st req).state.redis.lookup (verificationKey email) = some ⟨ref, 600⟩) := by
  obtain ⟨fullName, email2, rollNumber, password, mobileNumber, hr, h1, h2, h3, h4, h5, hf1, hf2,
    hfc, hne, hnr, hid, hs, hv⟩ := register_success_inv env st req h
  generalize req.countryCode = cc at hr hs hv
  subst hr
  cases hreq
  rw [register_reaches_issue env st fullName email rollNumber password mobileNumber cc
    h1 h2 h3 h4 h5 hf1 hf2 hfc hne hnr hid]
  have hfilter : (st.students.filter fun s => s.email == email) = [] := by
    rw [List.filter_eq_nil_iff]
    intro t ht
    have := find?_eq_none_any hne t ht
    simp only [this, Bool.false_eq_true, not_false_eq_true]
  unfold registerIssue
  simp only [hs, hv, Bool.not_true, Bool.or_self, Bool.false_eq_true, if_false]
  constructor
  · cases hr : env.fault Call.redisSet <;>
      simp [redisSet, hr, List.filter_append, hfilter, createdRow, registerData]
  · intro hr
    refine ⟨_, hv, ?_⟩
    simp [redisSet, hr, List.lookup]

/-- Witness of C6: a registration into the empty store. -/
theorem register_success_account_and_session_witness :
    (register sampleEnv emptyState sampleRegisterReq).resp.status = 201 ∧
    ((register sampleEnv emptyState sampleRegisterReq).state.students.filter
      fun s => s.email == "a@x.com").length = 1 ∧
    ∃ ref, ref.truthy = true ∧
      (register sampleEnv emptyState sampleRegisterReq).state.redis.lookup
        (verificationKey "a@x.com") = some ⟨ref, 600⟩ :=
  have h := register_success_account_and_session sampleEnv emptyState sampleRegisterReq
    "a@x.com" rfl (by decide)
  ⟨by decide, h.1, h.2 rfl⟩

/-- Counterexample to C6 as stated: the provider issues the code but the write
to the ephemeral store fails; register answers success and no session
reference is stored under the key of the email. -/
theorem register_success_without_session :
    (register redisSetFailsEnv emptyState sampleRegisterReq).resp.status = 201 ∧
    ((register redisSetFailsEnv emptyState sampleRegisterReq).state.redis.lookup
      (verificationKey "a@x.com")).isSome = false := by
  constructor <;> decide

theorem registerIssue_status (env : Env) (st1 : State) (student : Student)
    (email mobileNumber : String) (countryCode : Option String) (trace : List Event) :
    (registerIssue env st1 student email mobileNumber countryCode trace).resp.status = 500 ∨
    (registerIssue env st1 student email mobileNumber countryCode trace).resp.status = 201 := by
  unfold registerIssue
  dsimp only
  repeat' split
  all_goals simp

/-- C7: register answers 400 whenever one of fullName, email, rollNumber,
password, mobileNumber is missing or empty, and (when the two lookups answer)
whenever an account with the same email or the same roll number exists; and in
every 400 answer both stores are unchanged and no call that creates, writes or
reaches the provider was made. -/
theorem register_rejects_without_effects (env : Env) (st : State) (req : RegisterReq) :
    ((jsNot req.fullName = true ∨ jsNot req.email = true ∨ jsNot req.rollNumber = true ∨
        jsNot req.password = true ∨ jsNot req.mobileNumber = true) →
      (register env st req).resp.status = 400) ∧
    (env.fault Call.findByEmail = none → env.fault Call.findByRollNumber = none →
      ((∃ email, req.email = some email ∧ (findByEmail st.students email).isSome = true) ∨
       (∃ rollNumber, req.rollNumber = some rollNumber ∧
          (findByRollNumber st.students rollNumber).isSome = true)) →
      (register env st req).resp.status = 400) ∧
    ((register env st req).resp.status = 400 →
      (register env st req).state = st ∧
      (register env st req).trace.all (fun e => !e.isEffect) = true) := by
  refine ⟨?_, ?_, ?_⟩
  · intro hmiss
    unfold register
    by_cases hv : (jsNot req.fullName || jsNot req.email || jsNot req.rollNumber
        || jsNot req.password) = true
    · rw [if_pos hv]
    · rw [if_neg hv]
      simp only [Bool.or_eq_true, not_or] at hv
      rcases hmiss with h | h | h | h | h
      · exact absurd h hv.1.1.1
      · exact absurd h hv.1.1.2
      · exact absurd h hv.1.2
      · exact absurd h hv.2
      · rw [if_pos h]
  · intro hf1 hf2 hdup
    unfold register
    dsimp only
    split
    · rfl
    split
    · rfl
    simp only [prismaFindByEmail, hf1, prismaFindByRollNumber, hf2]
    cases hfe : findByEmail st.students (req.email.getD "") with
    | some s => rfl
    | none =>
      cases hfr : findByRollNumber st.students (req.rollNumber.getD "") with
      | some s => rfl
      | none =>
        exfalso
        rcases hdup with ⟨email, he, hsome⟩ | ⟨rollNumber, hr, hsome⟩
        · simp only [he, Option.getD_some] at hfe
          rw [hfe] at hsome
          exact absurd hsome (by decide)
        · simp only [hr, Option.getD_some] at hfr
          rw [hfr] at hsome
          exact absurd hsome (by decide)
  · unfold register
    dsimp only
    repeat' split
    all_goals first
      | (intro _; exact ⟨rfl, rfl⟩)
      | (intro h; rw [registerCatch_status] at h; exact absurd h (by decide))
      | (intro h
         rcases registerIssue_status _ _ _ _ _ _ _ with h2 | h2 <;>
           (rw [h2] at h; exact absurd h (by decide)))

/-- Witness of C7: a second registration with an email that is already taken. -/
theorem register_rejects_without_effects_witness :
    (findByEmail (sampleState false Status.PENDING_ADMIN_APPROVAL).students "a@x.com").isSome
      = true ∧
    (register sampleEnv (sampleState false Status.PENDING_ADMIN_APPROVAL)
      sampleRegisterReq).resp.status = 400 ∧
    (register sampleEnv (sampleState false Status.PENDING_ADMIN_APPROVAL)
      sampleRegisterReq).state = sampleState false Status.PENDING_ADMIN_APPROVAL :=
  have h := register_rejects_without_effects sampleEnv
    (sampleState false Status.PENDING_ADMIN_APPROVAL) sampleRegisterReq
  have h400 := h.2.1 rfl rfl (Or.inl ⟨"a@x.com", rfl, by decide⟩)
  ⟨by decide, h400, (h.2.2 h400).1⟩

theorem registerCatch_create_mem (env : Env) (st : State) (error : JsError)
    (trace : List Event) (data : CreateData) :
    Event.dbCreate data ∈ (registerCatch env st error trace).trace ↔
      Event.dbCreate data ∈ trace := by
  unfold registerCatch
  dsimp only
  repeat' split
  all_goals simp

theorem registerIssue_create_mem (env : Env) (st1 : State) (student : Student)
    (email mobileNumber : String) (countryCode : Option String) (trace : List Event)
    (data : CreateData) :
    Event.dbCreate data ∈
        (registerIssue env st1 student email mobileNumber countryCode trace).trace ↔
      Event.dbCreate data ∈ trace := by
  unfold registerIssue
  dsimp only
  repeat' split
  all_goals simp

theorem registerIssue_success_students (env : Env) (st1 : State) (student : Student)
    (email mobileNumber : String) (countryCode : Option String) (trace : List Event)
    (h : (registerIssue env st1 student email mobileNumber countryCode trace).resp.status
      = 201) :
    (registerIssue env st1 student email mobileNumber countryCode trace).state.students
      = st1.students := by
  unfold registerIssue at h ⊢
  dsimp only at h ⊢
  split
  · rename_i hcond
    rw [if_pos hcond] at h
    split at h <;> simp at h
  · cases hr : env.fault Call.redisSet <;> simp [redisSet, hr]

theorem eq_some_getD_of_jsNot {field : Option String} (h : jsNot field = false) :
    field = some (field.getD "") := by
  cases field with
  | none => simp [jsNot] at h
  | some s => rfl

/-- C8: every create call of register passes the submitted fullName, email,
rollNumber and mobileNumber with `status = PENDING_ADMIN_APPROVAL` and
`emailVerified = false`, so the row the store makes of it is UNVERIFIED and
PENDING; and when register answers success that row is in the store. -/
theorem register_creates_unverified_pending (env : Env) (st : State) (req : RegisterReq)
    (data : CreateData) (h : Event.dbCreate data ∈ (register env st req).trace) :
    req.fullName = some data.fullName ∧ req.email = some data.email ∧
    req.rollNumber = some data.rollNumber ∧ req.mobileNumber = some data.mobileNumber ∧
    (createdRow env data).fullName = data.fullName ∧
    (createdRow env data).email = data.email ∧
    (createdRow env data).rollNumber = data.rollNumber ∧
    (createdRow env data).mobileNumber = some data.mobileNumber ∧
    (createdRow env data).status = Status.PENDING_ADMIN_APPROVAL ∧
    (createdRow env data).emailVerified = false ∧
    ((register env st req).resp.status = 201 →
      createdRow env data ∈ (register env st req).state.students) := by
  by_cases hv : (jsNot req.fullName || jsNot req.email || jsNot req.rollNumber
      || jsNot req.password) = true
  · simp [register, hv] at h
  by_cases hm : jsNot req.mobileNumber = true
  · simp [register, hv, hm] at h
  have hkey : data = registerData env (req.fullName.getD "") (req.email.getD "")
      (req.rollNumber.getD "") (req.password.getD "") (req.mobileNumber.getD "") ∧
      ((register env st req).resp.status = 201 →
        createdRow env data ∈ (register env st req).state.students) := by
    unfold register at h ⊢
    simp only [hv, hm, Bool.false_eq_true, if_false] at h ⊢
    cases hfe : prismaFindByEmail env st (req.email.getD "") with
    | error e => simp [hfe, registerCatch_create_mem] at h
    | ok o =>
      cases o with
      | some s => simp [hfe] at h
      | none =>
        simp only [hfe] at h ⊢
        cases hfr : prismaFindByRollNumber env st (req.rollNumber.getD "") with
        | error e => simp [hfr, registerCatch_create_mem] at h
        | ok o =>
          cases o with
          | some s => simp [hfr] at h
          | none =>
            simp only [hfr] at h ⊢
            cases hc : prismaCreate env st (registerData env (req.fullName.getD "")
                (req.email.getD "") (req.rollNumber.getD "") (req.password.getD "")
                (req.mobileNumber.getD "")) with
            | error e =>
              simp only [hc] at h ⊢
              rw [registerCatch_create_mem] at h
              simp at h
              refine ⟨h, ?_⟩
              intro h201
              rw [registerCatch_status] at h201
              exact absurd h201 (by decide)
            | ok p =>
              obtain ⟨st1, student⟩ := p
              obtain ⟨_, _, hst1, hrow⟩ := prismaCreate_inv hc
              simp only [hc] at h ⊢
              rw [registerIssue_create_mem] at h
              simp at h
              refine ⟨h, ?_⟩
              intro h201
              rw [registerIssue_success_students _ _ _ _ _ _ _ h201, hst1, h]
              simp
  obtain ⟨hdata, hmem⟩ := hkey
  simp only [Bool.or_eq_true, not_or, Bool.not_eq_true] at hv hm
  obtain ⟨⟨⟨hfn, he⟩, hr⟩, _⟩ := hv
  refine ⟨?_, ?_, ?_, ?_, rfl, rfl, rfl, rfl, ?_, ?_, hmem⟩
  · rw [hdata]; exact eq_some_getD_of_jsNot hfn
  · rw [hdata]; exact eq_some_getD_of_jsNot he
  · rw [hdata]; exact eq_some_getD_of_jsNot hr
  · rw [hdata]; exact eq_some_getD_of_jsNot hm
  · rw [hdata]; rfl
  · rw [hdata]; rfl

/-- Witness of C8: the create call of a registration into the empty store. -/
theorem register_creates_unverified_pending_witness :
    Event.dbCreate (registerData sampleEnv "Asha" "a@x.com" "R1" "pw" "9000000001")
      ∈ (register sampleEnv emptyState sampleRegisterReq).trace ∧
    (createdRow sampleEnv
      (registerData sampleEnv "Asha" "a@x.com" "R1" "pw" "9000000001")).status
      = Status.PENDING_ADMIN_APPROVAL ∧
    (createdRow sampleEnv
      (registerData sampleEnv "Asha" "a@x.com" "R1" "pw" "9000000001")).emailVerified
      = false ∧
    createdRow sampleEnv (registerData sampleEnv "Asha" "a@x.com" "R1" "pw" "9000000001")
      ∈ (register sampleEnv emptyState sampleRegisterReq).state.students :=
  have hmem : Event.dbCreate (registerData sampleEnv "Asha" "a@x.com" "R1" "pw" "9000000001")
      ∈ (register sampleEnv emptyState sampleRegisterReq).trace :=
    List.Mem.tail _ (List.Mem.tail _ (List.Mem.head _))
  have h := register_creates_unverified_pending sampleEnv emptyState sampleRegisterReq _ hmem
  ⟨hmem, h.2.2.2.2.2.2.2.2.1, h.2.2.2.2.2.2.2.2.2.1, h.2.2.2.2.2.2.2.2.2.2 (by decide)⟩

/-- When the provider issued a usable reference, the response is the success
response, whatever the ephemeral store does with the write. -/
theorem registerIssue_success_resp (env : Env) (st1 : State) (student : Student)
    (email mobileNumber : String) (countryCode : Option String) (trace : List Event)
    (hs : (sendOTP env mobileNumber (otpCountryCode countryCode) "SMS").success = true)
    (hv : (sendOTP env mobileNumber (otpCountryCode countryCode) "SMS").verificationId.truthy
      = true) :
    (registerIssue env st1 student email mobileNumber countryCode trace).resp
      = ⟨201, json [("success", .bool true),
          ("message", .str "Registration successful. Please verify your email with OTP."),
          ("data", selectCreated student)]⟩ := by
  unfold registerIssue
  simp only [hs, hv, Bool.not_true, Bool.or_self, Bool.false_eq_true, if_false]
  split <;> rfl

/-- C9: the body of a successful registration is the success flag, the message
and the account data; the data has exactly the keys id, fullName, email,
rollNumber, mobileNumber, status, emailVerified and createdAt, with the values
of the request and the id and time the store assigned: neither the plaintext
password nor its hash occurs in it. -/
theorem register_success_data_sanitized (env : Env) (st : State) (req : RegisterReq)
    (h : (register env st req).resp.status = 201) :
    ∃ fullName email rollNumber mobileNumber,
      req.fullName = some fullName ∧ req.email = some email ∧
      req.rollNumber = some rollNumber ∧ req.mobileNumber = some mobileNumber ∧
      (register env st req).resp.body
        = JVal.obj [("success", .bool true),
            ("message", .str "Registration successful. Please verify your email with OTP."),
            ("data", JVal.obj [("id", .str env.newId),
              ("fullName", .str fullName),
              ("email", .str email),
              ("rollNumber", .str rollNumber),
              ("mobileNumber", .str mobileNumber),
              ("status", .str "PENDING_ADMIN_APPROVAL"),
              ("emailVerified", .bool false),
              ("createdAt", .str env.now)])] ∧
      ((register env st req).resp.body.get "data").keys
        = ["id", "fullName", "email", "rollNumber", "mobileNumber", "status",
           "emailVerified", "createdAt"] ∧
      ((register env st req).resp.body.get "data").get "password" = JVal.undefined := by
  obtain ⟨fullName, email, rollNumber, password, mobileNumber, hr, h1, h2, h3, h4, h5, hf1, hf2,
    hfc, hne, hnr, hid, hs, hv⟩ := register_success_inv env st req h
  generalize req.countryCode = cc at hr hs hv
  subst hr
  refine ⟨fullName, email, rollNumber, mobileNumber, rfl, rfl, rfl, rfl, ?_⟩
  rw [register_reaches_issue env st fullName email rollNumber password mobileNumber cc
    h1 h2 h3 h4 h5 hf1 hf2 hfc hne hnr hid]
  rw [registerIssue_success_resp _ _ _ _ _ _ _ hs hv]
  simp [json, selectCreated, createdRow, registerData, JVal.isUndefined, JVal.get, JVal.keys,
    Status.toString, List.lookup]

/-- Witness of C9: the body of a registration into the empty store. -/
theorem register_success_data_sanitized_witness :
    (register sampleEnv emptyState sampleRegisterReq).resp.status = 201 ∧
    ((register sampleEnv emptyState sampleRegisterReq).resp.body.get "data").get "password"
      = JVal.undefined :=
  match register_success_data_sanitized sampleEnv emptyState sampleRegisterReq (by decide) with
  | ⟨_, _, _, _, _, _, _, _, _, _, hpw⟩ => ⟨by decide, hpw⟩

/-- C10: when the provider issued a usable reference and the write of the
session reference to the ephemeral store fails, register still answers 201
with the response it gives when the write succeeds, the created account is in
the account store, and the ephemeral store is unchanged. -/
theorem register_session_write_failure_nonfatal (env : Env) (st : State)
    (fullName email rollNumber password mobileNumber : String) (countryCode : Option String)
    (message : String)
    (hfullName : fullName ≠ "") (hemail : email ≠ "") (hrollNumber : rollNumber ≠ "")
    (hpassword : password ≠ "") (hmobileNumber : mobileNumber ≠ "")
    (hfind1 : env.fault Call.findByEmail = none)
    (hfind2 : env.fault Call.findByRollNumber = none)
    (hcreate : env.fault Call.create = none)
    (hnoEmail : findByEmail st.students email = none)
    (hnoRoll : findByRollNumber st.students rollNumber = none)
    (hfresh : findById st.students env.newId = none)
    (hissued : (sendOTP env mobileNumber (otpCountryCode countryCode) "SMS").success = true)
    (husable : (sendOTP env mobileNumber (otpCountryCode countryCode) "SMS").verificationId.truthy
      = true)
    (hwrite : env.fault Call.redisSet = some message) :
    (register env st ⟨some fullName, some email, some rollNumber, some password,
        some mobileNumber, countryCode⟩).resp.status = 201 ∧
    (register env st ⟨some fullName, some email, some rollNumber, some password,
        some mobileNumber, countryCode⟩).resp
      = (register (env.withoutFault Call.redisSet) st ⟨some fullName, some email,
          some rollNumber, some password, some mobileNumber, countryCode⟩).resp ∧
    (register env st ⟨some fullName, some email, some rollNumber, some password,
        some mobileNumber, countryCode⟩).state.students
      = st.students ++
          [createdRow env (registerData env fullName email rollNumber password mobileNumber)] ∧
    (register env st ⟨some fullName, some email, some rollNumber, some password,
        some mobileNumber, countryCode⟩).state.redis = st.redis := by
  have e1 : (env.withoutFault Call.redisSet).fault Call.findByEmail = none := by
    simp [Env.withoutFault, hfind1]
  have e2 : (env.withoutFault Call.redisSet).fault Call.findByRollNumber = none := by
    simp [Env.withoutFault, hfind2]
  have e3 : (env.withoutFault Call.redisSet).fault Call.create = none := by
    simp [Env.withoutFault, hcreate]
  rw [register_reaches_issue env st fullName email rollNumber password mobileNumber countryCode
    hfullName hemail hrollNumber hpassword hmobileNumber hfind1 hfind2 hcreate hnoEmail hnoRoll
    hfresh,
    register_reaches_issue (env.withoutFault Call.redisSet) st fullName email rollNumber
      password mobileNumber countryCode hfullName hemail hrollNumber hpassword hmobileNumber
      e1 e2 e3 hnoEmail hnoRoll hfresh,
    registerIssue_success_resp _ _ _ _ _ _ _ hissued husable,
    registerIssue_success_resp (env.withoutFault Call.redisSet) _ _ _ _ _ _ hissued husable]
  refine ⟨rfl, rfl, ?_, ?_⟩
  · unfold registerIssue
    simp [hissued, husable, redisSet, hwrite]
  · unfold registerIssue
    simp [hissued, husable, redisSet, hwrite]

/-- Witness of C10: the ephemeral store rejects the write; the registration
into the empty store still answers 201 and the account is stored. -/
theorem register_session_write_failure_nonfatal_witness :
    redisSetFailsEnv.fault Call.redisSet = some "fetch failed" ∧
    (register redisSetFailsEnv emptyState sampleRegisterReq).resp.status = 201 ∧
    (register redisSetFailsEnv emptyState sampleRegisterReq).resp
      = (register (redisSetFailsEnv.withoutFault Call.redisSet) emptyState
          sampleRegisterReq).resp :=
  have h := register_session_write_failure_nonfatal redisSetFailsEnv emptyState "Asha" "a@x.com"
    "R1" "pw" "9000000001" none "fetch failed" (by decide) (by decide) (by decide) (by decide)
    (by decide) rfl rfl rfl rfl rfl rfl rfl rfl rfl
  ⟨rfl, h.1, h.2.1⟩

/-! ### The session entry written by register -/

/-- C11: a registration that answers success makes exactly one write to the
ephemeral store: the key is `"verification:"` followed by the submitted email,
the value is the verificationId the provider client returned, and the expiry is
600 seconds; when the store accepts the write, that entry is the only entry
under the key and every entry under another key is kept. -/
theorem register_writes_one_session_entry (env : Env) (st : State) (req : RegisterReq)
    (h : (register env st req).resp.status = 201) :
    ∃ fullName email rollNumber password mobileNumber,
      req.fullName = some fullName ∧ req.email = some email ∧
      req.rollNumber = some rollNumber ∧ req.password = some password ∧
      req.mobileNumber = some mobileNumber ∧
      (register env st req).trace
        = [.dbFindByEmail email, .dbFindByRollNumber rollNumber,
           .dbCreate (registerData env fullName email rollNumber password mobileNumber),
           .axiosPost (MESSAGE_CENTRAL_BASE_URL ++ "/send")
             (sendRequestConfig env mobileNumber (otpCountryCode req.countryCode) "SMS"),
           .redisSet ("verification:" ++ email)
             (sendOTP env mobileNumber (otpCountryCode req.countryCode) "SMS").verificationId
             600] ∧
      (env.fault Call.redisSet = none →
        (register env st req).state.redis
          = ("verification:" ++ email,
              ⟨(sendOTP env mobileNumber (otpCountryCode req.countryCode) "SMS").verificationId,
                600⟩) ::
            st.redis.filter fun p => !(p.1 == "verification:" ++ email)) := by
  obtain ⟨fullName, email, rollNumber, password, mobileNumber, hr, h1, h2, h3, h4, h5, hf1, hf2,
    hfc, hne, hnr, hid, hs, hv⟩ := register_success_inv env st req h
  generalize req.countryCode = cc at hr hs hv
  subst hr
  refine ⟨fullName, email, rollNumber, password, mobileNumber, rfl, rfl, rfl, rfl, rfl, ?_⟩
  rw [register_reaches_issue env st fullName email rollNumber password mobileNumber cc
    h1 h2 h3 h4 h5 hf1 hf2 hfc hne hnr hid]
  unfold registerIssue
  simp only [hs, hv, Bool.not_true, Bool.or_self, Bool.false_eq_true, if_false]
  constructor
  · cases hr : env.fault Call.redisSet <;> simp [redisSet, hr, verificationKey]
  · intro hr
    simp [redisSet, hr, verificationKey]

/-- Witness of C11: the write of a registration into the empty store. -/
theorem register_writes_one_session_entry_witness :
    (register sampleEnv emptyState sampleRegisterReq).resp.status = 201 ∧
    (register sampleEnv emptyState sampleRegisterReq).state.redis
      = [("verification:a@x.com", ⟨.str "v-1", 600⟩)] := by
  refine ⟨by decide, ?_⟩
  obtain ⟨_, email, _, _, mobileNumber, _, hemail, _, _, hmobile, _, hredis⟩ :=
    register_writes_one_session_entry sampleEnv emptyState sampleRegisterReq (by decide)
  cases hemail
  cases hmobile
  rw [hredis rfl]
  rfl

/-! ### Code validation -/

theorem jsLength_of_digits (l : List Char) (h : ∀ c ∈ l, '0' ≤ c ∧ c ≤ '9') :
    (l.map fun c => if c.val ≥ 0x10000 then 2 else 1).sum = l.length := by
  induction l with
  | nil => rfl
  | cons c cs ih =>
    have hc := (h c (List.mem_cons_self _ _)).2
    have hlt : ¬ c.val ≥ 0x10000 := by
      have h9 : c.val.toNat ≤ 57 := hc
      intro hge
      have h1 : 65536 ≤ c.val.toNat := hge
      omega
    simp only [List.map_cons, List.sum_cons, if_neg hlt, List.length_cons]
    rw [ih (fun d hd => h d (List.mem_cons_of_mem _ hd))]
    omega

/-- The shape test of the verify-otp route lets a code through exactly when it
is between four and six ASCII digits. -/
theorem codeCheck_iff (otp : String) :
    (decide (jsLength otp < 4) || decide (jsLength otp > 6) || !digitsOnly otp) = false ↔
      WellFormedCode otp := by
  unfold WellFormedCode jsLength digitsOnly
  have hlen : otp.length = otp.data.length := rfl
  rw [hlen]
  constructor
  · intro h
    simp only [Bool.or_eq_false_iff, decide_eq_false_iff_not, not_lt, Bool.not_eq_false',
      Bool.and_eq_true, Bool.not_eq_true', List.all_eq_true, decide_eq_true_eq] at h
    obtain ⟨⟨h4, h6⟩, _, hd⟩ := h
    rw [jsLength_of_digits _ hd] at h4 h6
    exact ⟨h4, by omega, hd⟩
  · intro ⟨h4, h6, hd⟩
    rw [jsLength_of_digits _ hd]
    simp only [Bool.or_eq_false_iff, decide_eq_false_iff_not, not_lt, Bool.not_eq_false',
      Bool.and_eq_true, Bool.not_eq_true', List.all_eq_true, decide_eq_true_eq]
    refine ⟨⟨h4, by omega⟩, ?_, hd⟩
    cases hdata : otp.data with
    | nil => rw [hdata] at h4; simp at h4
    | cons c cs => rfl

/-- C12: for a non-empty email and a non-empty code, verify-otp goes on to its
first call after input validation (the account lookup) if and only if the code
is between four and six characters, all ASCII digits; any other code gets the
400 validation error, with both stores unchanged and no call made at all. -/
theorem verifyOtp_validation_iff (env : Env) (st : State) (email otp : String)
    (countryCode : Option String) (hemail : email ≠ "") (hotp : otp ≠ "") :
    ((verifyOtp env st ⟨some email, some otp, countryCode⟩).trace ≠ [] ↔ WellFormedCode otp) ∧
    (¬ WellFormedCode otp →
      (verifyOtp env st ⟨some email, some otp, countryCode⟩).resp
        = ⟨400, json [("success", .bool false), ("message", .str "OTP must be 4-6 digits")]⟩ ∧
      (verifyOtp env st ⟨some email, some otp, countryCode⟩).state = st ∧
      (verifyOtp env st ⟨some email, some otp, countryCode⟩).trace = []) := by
  have hv : (jsNot (some email) || jsNot (some otp)) = false := by
    simp [jsNot, hemail, hotp]
  by_cases hw : WellFormedCode otp
  · have hc := (codeCheck_iff otp).2 hw
    refine ⟨⟨fun _ => hw, fun _ => ?_⟩, fun hn => absurd hw hn⟩
    unfold verifyOtp verifyCatch
    simp only [hv, Bool.false_eq_true, if_false, Option.getD_some, hc]
    repeat' split
    all_goals simp
  · have hc : (decide (jsLength otp < 4) || decide (jsLength otp > 6) || !digitsOnly otp)
        = true := by
      cases hb : (decide (jsLength otp < 4) || decide (jsLength otp > 6) || !digitsOnly otp)
      · exact absurd ((codeCheck_iff otp).1 hb) hw
      · rfl
    have hres : verifyOtp env st ⟨some email, some otp, countryCode⟩
        = ⟨st, ⟨400, json [("success", .bool false),
            ("message", .str "OTP must be 4-6 digits")]⟩, []⟩ := by
      unfold verifyOtp
      simp only [hv, Bool.false_eq_true, if_false, Option.getD_some, hc, if_true]
    rw [hres]
    exact ⟨⟨fun h => absurd rfl h, fun h => absurd h hw⟩, fun _ => ⟨rfl, rfl, rfl⟩⟩

/-- Witness of C12: a code with a letter in it is rejected before any call. -/
theorem verifyOtp_validation_iff_witness :
    ¬ WellFormedCode "12a4" ∧
    (verifyOtp sampleEnv (sampleState false Status.PENDING_ADMIN_APPROVAL)
      ⟨some "a@x.com", some "12a4", none⟩).resp.status = 400 ∧
    (verifyOtp sampleEnv (sampleState false Status.PENDING_ADMIN_APPROVAL)
      ⟨some "a@x.com", some "12a4", none⟩).trace = [] :=
  have hbad : ¬ WellFormedCode "12a4" := by unfold WellFormedCode; decide
  have h := (verifyOtp_validation_iff sampleEnv (sampleState false Status.PENDING_ADMIN_APPROVAL)
    "a@x.com" "12a4" none (by decide) (by decide)).2 hbad
  ⟨hbad, by rw [h.1], h.2.2⟩

/-! ### The stages of verify-otp -/

theorem verifyOtp_validated (email otp : String) (hemail : email ≠ "") (hotp : otp ≠ "")
    (hcode : WellFormedCode otp) :
    (jsNot (some email) || jsNot (some otp)) = false ∧
    (decide (jsLength otp < 4) || decide (jsLength otp > 6) || !digitsOnly otp) = false :=
  ⟨by simp [jsNot, hemail, hotp], (codeCheck_iff otp).2 hcode⟩

/-- No account for the email: the not-found answer. -/
theorem verifyOtp_not_found (env : Env) (st : State) (email otp : String)
    (countryCode : Option String) (hemail : email ≠ "") (hotp : otp ≠ "")
    (hcode : WellFormedCode otp)
    (hfind : env.fault Call.findByEmail = none)
    (hnone : findByEmail st.students email = none) :
    verifyOtp env st ⟨some email, some otp, countryCode⟩
      = ⟨st, ⟨404, json [("success", .bool false), ("message", .str "Student not found")]⟩,
          [.dbFindByEmail email]⟩ := by
  obtain ⟨hv, hc⟩ := verifyOtp_validated email otp hemail hotp hcode
  unfold verifyOtp
  simp only [hv, hc, Bool.false_eq_true, if_false, Option.getD_some, prismaFindByEmail, hfind,
    hnone]

/-- The account is verified already: the already-verified answer. -/
theorem verifyOtp_already_verified (env : Env) (st : State) (email otp : String)
    (countryCode : Option String) (student : Student) (hemail : email ≠ "") (hotp : otp ≠ "")
    (hcode : WellFormedCode otp)
    (hfind : env.fault Call.findByEmail = none)
    (hsome : findByEmail st.students email = some student)
    (hverified : student.emailVerified = true) :
    verifyOtp env st ⟨some email, some otp, countryCode⟩
      = ⟨st, ⟨400, json [("success", .bool false),
            ("message", .str "Email is already verified")]⟩,
          [.dbFindByEmail email]⟩ := by
  obtain ⟨hv, hc⟩ := verifyOtp_validated email otp hemail hotp hcode
  unfold verifyOtp
  simp only [hv, hc, Bool.false_eq_true, if_false, Option.getD_some, prismaFindByEmail, hfind,
    hsome, hverified, if_true]

/-- The account has no mobile number: the no-mobile answer. -/
theorem verifyOtp_no_mobile (env : Env) (st : State) (email otp : String)
    (countryCode : Option String) (student : Student) (hemail : email ≠ "") (hotp : otp ≠ "")
    (hcode : WellFormedCode otp)
    (hfind : env.fault Call.findByEmail = none)
    (hsome : findByEmail st.students email = some student)
    (hverified : student.emailVerified = false)
    (hmobile : jsNot student.mobileNumber = true) :
    verifyOtp env st ⟨some email, some otp, countryCode⟩
      = ⟨st, ⟨400, json [("success", .bool false),
            ("message", .str "Mobile number not found. Please register again.")]⟩,
          [.dbFindByEmail email]⟩ := by
  obtain ⟨hv, hc⟩ := verifyOtp_validated email otp hemail hotp hcode
  unfold verifyOtp
  simp only [hv, hc, Bool.false_eq_true, if_false, Option.getD_some, prismaFindByEmail, hfind,
    hsome, hverified, hmobile, if_true]

/-- No live session under the key of the email: the challenge-expired answer. -/
theorem verifyOtp_no_session (env : Env) (st : State) (email otp : String)
    (countryCode : Option String) (student : Student) (hemail : email ≠ "") (hotp : otp ≠ "")
    (hcode : WellFormedCode otp)
    (hfind : env.fault Call.findByEmail = none)
    (hsome : findByEmail st.students email = some student)
    (hverified : student.emailVerified = false)
    (hmobile : jsNot student.mobileNumber = false)
    (hget : env.fault Call.redisGet = none)
    (habsent : st.redis.lookup (verificationKey email) = none) :
    verifyOtp env st ⟨some email, some otp, countryCode⟩
      = ⟨st, ⟨400, json [("success", .bool false),
            ("message", .str "OTP has expired or is invalid. Please register again.")]⟩,
          [.dbFindByEmail email, .redisGet (verificationKey email)]⟩ := by
  obtain ⟨hv, hc⟩ := verifyOtp_validated email otp hemail hotp hcode
  unfold verifyOtp
  simp only [hv, hc, Bool.false_eq_true, if_false, Option.getD_some, prismaFindByEmail, hfind,
    hsome, hverified, hmobile, redisGet, hget, habsent, Option.map_none', Option.getD_none,
    JVal.truthy, Bool.not_false, if_true, List.singleton_append]

/-- An entry under the key of the email whose value reads back falsy: the
challenge-expired answer, as if there were no entry. -/
theorem verifyOtp_falsy_session (env : Env) (st : State) (email otp : String)
    (countryCode : Option String) (student : Student) (entry : RedisEntry)
    (hemail : email ≠ "") (hotp : otp ≠ "")
    (hcode : WellFormedCode otp)
    (hfind : env.fault Call.findByEmail = none)
    (hsome : findByEmail st.students email = some student)
    (hverified : student.emailVerified = false)
    (hmobile : jsNot student.mobileNumber = false)
    (hget : env.fault Call.redisGet = none)
    (hentry : st.redis.lookup (verificationKey email) = some entry)
    (hdead : (env.redisReadBack entry.value).truthy = false) :
    verifyOtp env st ⟨some email, some otp, countryCode⟩
      = ⟨st, ⟨400, json [("success", .bool false),
            ("message", .str "OTP has expired or is invalid. Please register again.")]⟩,
          [.dbFindByEmail email, .redisGet (verificationKey email)]⟩ := by
  obtain ⟨hv, hc⟩ := verifyOtp_validated email otp hemail hotp hcode
  unfold verifyOtp
  simp only [hv, hc, Bool.false_eq_true, if_false, Option.getD_some, prismaFindByEmail, hfind,
    hsome, hverified, hmobile, redisGet, hget, hentry, Option.map_some', hdead,
    Bool.not_false, if_true, List.singleton_append]

/-- With an unverified account, a mobile number and a session whose value
reads back truthy, verify-otp reaches the provider and goes on by its verdict. -/
theorem verifyOtp_reaches_provider (env : Env) (st : State) (email otp : String)
    (countryCode : Option String) (student : Student) (mobileNumber : String)
    (entry : RedisEntry) (hemail : email ≠ "") (hotp : otp ≠ "")
    (hcode : WellFormedCode otp)
    (hfind : env.fault Call.findByEmail = none)
    (hsome : findByEmail st.students email = some student)
    (hverified : student.emailVerified = false)
    (hmobile : student.mobileNumber = some mobileNumber) (hmobile2 : mobileNumber ≠ "")
    (hget : env.fault Call.redisGet = none)
    (hentry : st.redis.lookup (verificationKey email) = some entry)
    (hlive : (env.redisReadBack entry.value).truthy = true) :
    verifyOtp env st ⟨some email, some otp, countryCode⟩
      = if !(validateOTP env mobileNumber (env.redisReadBack entry.value) otp
          (otpCountryCode countryCode)).success
            || !(validateOTP env mobileNumber (env.redisReadBack entry.value) otp
                  (otpCountryCode countryCode)).isValid then
          ⟨st, ⟨400, json [("success", .bool false),
            ("message", (validateOTP env mobileNumber (env.redisReadBack entry.value) otp
              (otpCountryCode countryCode)).message.or (.str "Invalid OTP"))]⟩,
            [.dbFindByEmail email, .redisGet (verificationKey email),
             .axiosGet (MESSAGE_CENTRAL_BASE_URL ++ "/validateOtp")
               (validateRequestConfig env mobileNumber (env.redisReadBack entry.value) otp
                 (otpCountryCode countryCode))]⟩
        else
          match redisDel env st (verificationKey email) with
          | .error error =>
            verifyCatch st error
              [.dbFindByEmail email, .redisGet (verificationKey email),
               .axiosGet (MESSAGE_CENTRAL_BASE_URL ++ "/validateOtp")
                 (validateRequestConfig env mobileNumber (env.redisReadBack entry.value) otp
                   (otpCountryCode countryCode)),
               .redisDel (verificationKey email)]
          | .ok st1 =>
            match prismaUpdateVerified env st1 email with
            | .error error =>
              verifyCatch st1 error
                [.dbFindByEmail email, .redisGet (verificationKey email),
                 .axiosGet (MESSAGE_CENTRAL_BASE_URL ++ "/validateOtp")
                   (validateRequestConfig env mobileNumber (env.redisReadBack entry.value) otp
                     (otpCountryCode countryCode)),
                 .redisDel (verificationKey email), .dbUpdate email]
            | .ok st2 =>
              ⟨st2, ⟨200, json [("success", .bool true),
                ("message", .str "Email verified successfully. Waiting for admin approval.")]⟩,
                [.dbFindByEmail email, .redisGet (verificationKey email),
                 .axiosGet (MESSAGE_CENTRAL_BASE_URL ++ "/validateOtp")
                   (validateRequestConfig env mobileNumber (env.redisReadBack entry.value) otp
                     (otpCountryCode countryCode)),
                 .redisDel (verificationKey email), .dbUpdate email]⟩ := by
  obtain ⟨hv, hc⟩ := verifyOtp_validated email otp hemail hotp hcode
  have hm : jsNot (some mobileNumber) = false := by simp [jsNot, hmobile2]
  unfold verifyOtp
  simp only [hv, hc, Bool.false_eq_true, if_false, Option.getD_some, prismaFindByEmail, hfind,
    hsome, hverified, hmobile, hm, redisGet, hget, hentry, Option.map_some', hlive,
    Bool.not_true, List.singleton_append, List.cons_append, List.nil_append]

/-- C13: for a well-formed code (and a lookup that answers), verify-otp checks
its preconditions in order and answers the first that fails with its own
error: no account for the email (404 not found); account already verified
(400), whether or not a session is live; no mobile number on file (400); no
session entry under the key of the email (400 challenge expired, when the
ephemeral store answers). In all four cases both stores are unchanged and no
call that writes or reaches the provider was made. -/
theorem verifyOtp_precondition_order (env : Env) (st : State) (email otp : String)
    (countryCode : Option String) (hemail : email ≠ "") (hotp : otp ≠ "")
    (hcode : WellFormedCode otp) (hfind : env.fault Call.findByEmail = none) :
    (findByEmail st.students email = none →
      (verifyOtp env st ⟨some email, some otp, countryCode⟩).resp
        = ⟨404, json [("success", .bool false), ("message", .str "Student not found")]⟩ ∧
      (verifyOtp env st ⟨some email, some otp, countryCode⟩).state = st ∧
      (verifyOtp env st ⟨some email, some otp, countryCode⟩).trace.all
        (fun e => !e.isEffect) = true) ∧
    (∀ student, findByEmail st.students email = some student →
      student.emailVerified = true →
      (verifyOtp env st ⟨some email, some otp, countryCode⟩).resp
        = ⟨400, json [("success", .bool false),
            ("message", .str "Email is already verified")]⟩ ∧
      (verifyOtp env st ⟨some email, some otp, countryCode⟩).state = st ∧
      (verifyOtp env st ⟨some email, some otp, countryCode⟩).trace.all
        (fun e => !e.isEffect) = true) ∧
    (∀ student, findByEmail st.students email = some student →
      student.emailVerified = false → jsNot student.mobileNumber = true →
      (verifyOtp env st ⟨some email, some otp, countryCode⟩).resp
        = ⟨400, json [("success", .bool false),
            ("message", .str "Mobile number not found. Please register again.")]⟩ ∧
      (verifyOtp env st ⟨some email, some otp, countryCode⟩).state = st ∧
      (verifyOtp env st ⟨some email, some otp, countryCode⟩).trace.all
        (fun e => !e.isEffect) = true) ∧
    (∀ student, findByEmail st.students email = some student →
      student.emailVerified = false → jsNot student.mobileNumber = false →
      env.fault Call.redisGet = none → st.redis.lookup (verificationKey email) = none →
      (verifyOtp env st ⟨some email, some otp, countryCode⟩).resp
        = ⟨400, json [("success", .bool false),
            ("message", .str "OTP has expired or is invalid. Please register again.")]⟩ ∧
      (verifyOtp env st ⟨some email, some otp, countryCode⟩).state = st ∧
      (verifyOtp env st ⟨some email, some otp, countryCode⟩).trace.all
        (fun e => !e.isEffect) = true) := by
  refine ⟨?_, ?_, ?_, ?_⟩
  · intro hnone
    rw [verifyOtp_not_found env st email otp countryCode hemail hotp hcode hfind hnone]
    exact ⟨rfl, rfl, rfl⟩
  · intro student hsome hverified
    rw [verifyOtp_already_verified env st email otp countryCode student hemail hotp hcode hfind
      hsome hverified]
    exact ⟨rfl, rfl, rfl⟩
  · intro student hsome hverified hmobile
    rw [verifyOtp_no_mobile env st email otp countryCode student hemail hotp hcode hfind
      hsome hverified hmobile]
    exact ⟨rfl, rfl, rfl⟩
  · intro student hsome hverified hmobile hget habsent
    rw [verifyOtp_no_session env st email otp countryCode student hemail hotp hcode hfind
      hsome hverified hmobile hget habsent]
    exact ⟨rfl, rfl, rfl⟩

/-- Witness of C13: a verified account without a live session gets the
already-verified error, not the challenge-expired error. -/
theorem verifyOtp_precondition_order_witness :
    WellFormedCode "1234" ∧
    findByEmail (sampleState true Status.PENDING_ADMIN_APPROVAL).students "a@x.com"
      = some (sampleStudent true Status.PENDING_ADMIN_APPROVAL) ∧
    (sampleState true Status.PENDING_ADMIN_APPROVAL).redis.lookup (verificationKey "a@x.com")
      = none ∧
    (verifyOtp sampleEnv (sampleState true Status.PENDING_ADMIN_APPROVAL)
      ⟨some "a@x.com", some "1234", none⟩).resp
      = ⟨400, json [("success", .bool false), ("message", .str "Email is already verified")]⟩ :=
  have hcode : WellFormedCode "1234" := by unfold WellFormedCode; decide
  ⟨hcode, by decide, rfl,
   ((verifyOtp_precondition_order sampleEnv (sampleState true Status.PENDING_ADMIN_APPROVAL)
      "a@x.com" "1234" none (by decide) (by decide) hcode rfl).2.1
      (sampleStudent true Status.PENDING_ADMIN_APPROVAL) (by decide) rfl).1⟩

/-- C14: verify-otp asks the provider when the account is unverified, has a
mobile number and the value the client reads back from the session entry is
truthy, and it asks with that read-back value. When this validate call fails
at transport level or the provider does not confirm the code, verify-otp
answers 400 with an invalid-code message and changes nothing: the session
entry is still under its key and the account is still unverified. -/
theorem verifyOtp_invalid_code_keeps_state (env : Env) (st : State) (email otp : String)
    (countryCode : Option String) (student : Student) (mobileNumber : String)
    (entry : RedisEntry) (hemail : email ≠ "") (hotp : otp ≠ "")
    (hcode : WellFormedCode otp)
    (hfind : env.fault Call.findByEmail = none)
    (hsome : findByEmail st.students email = some student)
    (hverified : student.emailVerified = false)
    (hmobile : student.mobileNumber = some mobileNumber) (hmobile2 : mobileNumber ≠ "")
    (hget : env.fault Call.redisGet = none)
    (hentry : st.redis.lookup (verificationKey email) = some entry)
    (hlive : (env.redisReadBack entry.value).truthy = true)
    (hfail : (validateOTP env mobileNumber (env.redisReadBack entry.value) otp
        (otpCountryCode countryCode)).success
        = false ∨
      (validateOTP env mobileNumber (env.redisReadBack entry.value) otp
          (otpCountryCode countryCode)).isValid
        = false) :
    (verifyOtp env st ⟨some email, some otp, countryCode⟩).resp
      = ⟨400, json [("success", .bool false),
          ("message", (validateOTP env mobileNumber (env.redisReadBack entry.value) otp
            (otpCountryCode countryCode)).message.or (.str "Invalid OTP"))]⟩ ∧
    (verifyOtp env st ⟨some email, some otp, countryCode⟩).state = st ∧
    (verifyOtp env st ⟨some email, some otp, countryCode⟩).state.redis.lookup
      (verificationKey email) = some entry ∧
    findByEmail (verifyOtp env st ⟨some email, some otp, countryCode⟩).state.students email
      = some student ∧
    student.emailVerified = false := by
  have hcond : (!(validateOTP env mobileNumber (env.redisReadBack entry.value) otp
        (otpCountryCode countryCode)).success ||
      !(validateOTP env mobileNumber (env.redisReadBack entry.value) otp
          (otpCountryCode countryCode)).isValid)
      = true := by
    rcases hfail with h | h <;> simp [h]
  rw [verifyOtp_reaches_provider env st email otp countryCode student mobileNumber entry hemail
    hotp hcode hfind hsome hverified hmobile hmobile2 hget hentry hlive, if_pos hcond]
  exact ⟨rfl, rfl, hentry, hsome, hverified⟩

/-- Witness of C14: the validate call fails at transport level. -/
theorem verifyOtp_invalid_code_keeps_state_witness :
    (validateOTP validateFailsEnv "9000000001" (.str "v-1") "1234" (otpCountryCode none)).success
      = false ∧
    (verifyOtp validateFailsEnv sessionState ⟨some "a@x.com", some "1234", none⟩).resp
      = ⟨400, json [("success", .bool false),
          ("message", .str "Failed to validate OTP via Message Central")]⟩ ∧
    (verifyOtp validateFailsEnv sessionState ⟨some "a@x.com", some "1234", none⟩).state
      = sessionState :=
  have h := verifyOtp_invalid_code_keeps_state validateFailsEnv sessionState "a@x.com" "1234"
    none (sampleStudent false Status.PENDING_ADMIN_APPROVAL) "9000000001" ⟨.str "v-1", 600⟩
    (by decide) (by decide) (by unfold WellFormedCode; decide) rfl (by decide) rfl rfl
    (by decide) rfl rfl rfl (Or.inl rfl)
  ⟨rfl, h.1, h.2.1⟩

/-! ### A successful code validation -/

theorem lookup_filter_ne_self (key : String) (l : List (String × RedisEntry)) :
    (l.filter fun p => !(p.1 == key)).lookup key = none := by
  induction l with
  | nil => rfl
  | cons p ps ih =>
    by_cases hp : p.1 = key
    · simp [List.filter, hp, ih]
    · have hne : (p.1 == key) = false := by simpa using hp
      have hne2 : (key == p.1) = false := by simpa using fun h => hp h.symm
      simp only [List.filter, hne, Bool.not_false]
      obtain ⟨k, v⟩ := p
      simp only [List.lookup, hne2] at hne2 ⊢
      exact ih

theorem findByEmail_map_verified (students : List Student) (email : String) (student : Student)
    (h : findByEmail students email = some student) :
    findByEmail (students.map fun t =>
        if t.email == email then { t with emailVerified := true } else t) email
      = some { student with emailVerified := true } := by
  unfold findByEmail at *
  induction students with
  | nil => simp at h
  | cons t ts ih =>
    by_cases ht : t.email = email
    · have heq : (t.email == email) = true := by simpa using ht
      simp only [List.find?, List.map_cons, heq, if_true] at h ⊢
      cases h
      rfl
    · have hne : (t.email == email) = false := by simpa using ht
      simp only [List.find?, List.map_cons, hne, Bool.false_eq_true, if_false] at h ⊢
      exact ih h

/-- The state a code validation ends in when the provider confirms the code
and both stores accept the delete and the update. -/
theorem verifyOtp_success (env : Env) (st : State) (email otp : String)
    (countryCode : Option String) (student : Student) (mobileNumber : String)
    (entry : RedisEntry) (hemail : email ≠ "") (hotp : otp ≠ "")
    (hcode : WellFormedCode otp)
    (hfind : env.fault Call.findByEmail = none)
    (hsome : findByEmail st.students email = some student)
    (hverified : student.emailVerified = false)
    (hmobile : student.mobileNumber = some mobileNumber) (hmobile2 : mobileNumber ≠ "")
    (hget : env.fault Call.redisGet = none)
    (hentry : st.redis.lookup (verificationKey email) = some entry)
    (hlive : (env.redisReadBack entry.value).truthy = true)
    (hok : (validateOTP env mobileNumber (env.redisReadBack entry.value) otp
        (otpCountryCode countryCode)).success
      = true)
    (hvalid : (validateOTP env mobileNumber (env.redisReadBack entry.value) otp
        (otpCountryCode countryCode)).isValid
      = true)
    (hdel : env.fault Call.redisDel = none) (hupdate : env.fault Call.update = none) :
    verifyOtp env st ⟨some email, some otp, countryCode⟩
      = ⟨{ students := st.students.map fun t =>
              if t.email == email then { t with emailVerified := true } else t,
            redis := st.redis.filter fun p => !(p.1 == verificationKey email),
            admins := st.admins },
          ⟨200, json [("success", .bool true),
            ("message", .str "Email verified successfully. Waiting for admin approval.")]⟩,
          [.dbFindByEmail email, .redisGet (verificationKey email),
           .axiosGet (MESSAGE_CENTRAL_BASE_URL ++ "/validateOtp")
             (validateRequestConfig env mobileNumber (env.redisReadBack entry.value) otp
               (otpCountryCode countryCode)),
           .redisDel (verificationKey email), .dbUpdate email]⟩ := by
  rw [verifyOtp_reaches_provider env st email otp countryCode student mobileNumber entry hemail
    hotp hcode hfind hsome hverified hmobile hmobile2 hget hentry hlive]
  simp only [hok, hvalid, Bool.not_true, Bool.or_self, Bool.false_eq_true, if_false, redisDel,
    hdel, prismaUpdateVerified, hupdate, hsome]

/-- C15: when the value read back from the session entry is truthy, the
provider confirms the code for that read-back value and both stores work,
verify-otp answers success; afterwards no entry is under the key of the email, the
account of the email has `emailVerified = true` with its other fields as they
were, and every account with another email, every session under another key
and the admin table are unchanged. -/
theorem verifyOtp_success_effects (env : Env) (st : State) (email otp : String)
    (countryCode : Option String) (student : Student) (mobileNumber : String)
    (entry : RedisEntry) (hemail : email ≠ "") (hotp : otp ≠ "")
    (hcode : WellFormedCode otp)
    (hfind : env.fault Call.findByEmail = none)
    (hsome : findByEmail st.students email = some student)
    (hverified : student.emailVerified = false)
    (hmobile : student.mobileNumber = some mobileNumber) (hmobile2 : mobileNumber ≠ "")
    (hget : env.fault Call.redisGet = none)
    (hentry : st.redis.lookup (verificationKey email) = some entry)
    (hlive : (env.redisReadBack entry.value).truthy = true)
    (hok : (validateOTP env mobileNumber (env.redisReadBack entry.value) otp
        (otpCountryCode countryCode)).success
      = true)
    (hvalid : (validateOTP env mobileNumber (env.redisReadBack entry.value) otp
        (otpCountryCode countryCode)).isValid
      = true)
    (hdel : env.fault Call.redisDel = none) (hupdate : env.fault Call.update = none) :
    (verifyOtp env st ⟨some email, some otp, countryCode⟩).resp
      = ⟨200, json [("success", .bool true),
          ("message", .str "Email verified successfully. Waiting for admin approval.")]⟩ ∧
    (verifyOtp env st ⟨some email, some otp, countryCode⟩).state.redis.lookup
      (verificationKey email) = none ∧
    findByEmail (verifyOtp env st ⟨some email, some otp, countryCode⟩).state.students email
      = some { student with emailVerified := true } ∧
    (verifyOtp env st ⟨some email, some otp, countryCode⟩).state.students
      = (st.students.map fun t =>
          if t.email == email then { t with emailVerified := true } else t) ∧
    (verifyOtp env st ⟨some email, some otp, countryCode⟩).state.redis
      = (st.redis.filter fun p => !(p.1 == verificationKey email)) ∧
    (verifyOtp env st ⟨some email, some otp, countryCode⟩).state.admins = st.admins := by
  rw [verifyOtp_success env st email otp countryCode student mobileNumber entry hemail
    hotp hcode hfind hsome hverified hmobile hmobile2 hget hentry hlive hok hvalid hdel hupdate]
  exact ⟨rfl, lookup_filter_ne_self _ _, findByEmail_map_verified _ _ _ hsome, rfl, rfl, rfl⟩

/-- Witness of C15: the provider confirms the code of the live session. -/
theorem verifyOtp_success_effects_witness :
    (validateOTP sampleEnv "9000000001" (.str "v-1") "1234" (otpCountryCode none)).isValid
      = true ∧
    (verifyOtp sampleEnv sessionState ⟨some "a@x.com", some "1234", none⟩).resp.status = 200 ∧
    (verifyOtp sampleEnv sessionState ⟨some "a@x.com", some "1234", none⟩).state.redis.lookup
      (verificationKey "a@x.com") = none ∧
    findByEmail (verifyOtp sampleEnv sessionState
        ⟨some "a@x.com", some "1234", none⟩).state.students "a@x.com"
      = some (sampleStudent true Status.PENDING_ADMIN_APPROVAL) :=
  have h := verifyOtp_success_effects sampleEnv sessionState "a@x.com" "1234"
    none (sampleStudent false Status.PENDING_ADMIN_APPROVAL) "9000000001" ⟨.str "v-1", 600⟩
    (by decide) (by decide) (by unfold WellFormedCode; decide) rfl (by decide) rfl rfl
    (by decide) rfl rfl rfl rfl rfl rfl rfl
  ⟨rfl, by rw [h.1], h.2.1, h.2.2.1⟩

/-! ### Deletion of the session comes before the durable update -/

theorem redisDel_inv {env : Env} {st st1 : State} {key : String}
    (h : redisDel env st key = .ok st1) :
    st1 = { st with redis := st.redis.filter fun p => !(p.1 == key) } := by
  unfold redisDel at h
  split at h
  · cases h
  · simp only [Except.ok.injEq] at h
    exact h.symm

theorem prismaUpdateVerified_inv {env : Env} {st st2 : State} {email : String}
    (h : prismaUpdateVerified env st email = .ok st2) : st2.redis = st.redis := by
  unfold prismaUpdateVerified at h
  split at h
  · cases h
  · split at h
    · cases h
    · simp only [Except.ok.injEq] at h
      rw [← h]

/-- Whatever the request and the world, verify-otp either leaves the accounts
as they were or has removed the entry under the key of the email. -/
theorem verifyOtp_state_cases (env : Env) (st : State) (req : VerifyReq) :
    (verifyOtp env st req).state.students = st.students ∨
    (verifyOtp env st req).state.redis
      = st.redis.filter fun p => !(p.1 == verificationKey (req.email.getD "")) := by
  unfold verifyOtp verifyCatch
  dsimp only
  repeat' split
  all_goals first
    | exact Or.inl rfl
    | (rename_i hd _ _ _
       have h1 := redisDel_inv hd
       subst h1
       exact Or.inl rfl)
    | (rename_i hd _ _ hu
       have h1 := redisDel_inv hd
       have h2 := prismaUpdateVerified_inv hu
       subst h1
       exact Or.inr h2)

/-- C16: verify-otp deletes the session entry before it updates the account.
When the provider has confirmed the code for the value read back from the
session entry (a truthy value) and the delete fails, the answer is
the 500 error, the update is not attempted and the state is unchanged, so the
account stays unverified; and whatever the request and the world, if the
accounts changed at all then no entry is left under the key of the email. -/
theorem verifyOtp_delete_before_update (env : Env) (st : State) (req : VerifyReq) :
    (∀ email otp student mobileNumber entry message,
      req.email = some email → req.otp = some otp → email ≠ "" → otp ≠ "" →
      WellFormedCode otp → env.fault Call.findByEmail = none →
      findByEmail st.students email = some student → student.emailVerified = false →
      student.mobileNumber = some mobileNumber → mobileNumber ≠ "" →
      env.fault Call.redisGet = none →
      st.redis.lookup (verificationKey email) = some entry →
          (env.redisReadBack entry.value).truthy = true →
      (validateOTP env mobileNumber (env.redisReadBack entry.value) otp
          (otpCountryCode req.countryCode)).success
        = true →
      (validateOTP env mobileNumber (env.redisReadBack entry.value) otp
          (otpCountryCode req.countryCode)).isValid
        = true →
      env.fault Call.redisDel = some message →
      (verifyOtp env st req).resp
        = ⟨500, json [("success", .bool false),
            ("message", .str "Server error during OTP verification"),
            ("error", .str message)]⟩ ∧
      (verifyOtp env st req).state = st ∧
      findByEmail (verifyOtp env st req).state.students email = some student ∧
      (verifyOtp env st req).trace.all (fun e =>
        match e with
        | .dbUpdate _ => false
        | _ => true) = true) ∧
    (∀ email, req.email = some email →
      (verifyOtp env st req).state.students ≠ st.students →
      (verifyOtp env st req).state.redis.lookup (verificationKey email) = none) := by
  constructor
  · intro email otp student mobileNumber entry message he ho hemail hotp hcode hfind hsome
      hverified hmobile hmobile2 hget hentry hlive hok hvalid hdel
    obtain ⟨oe, oo, cc⟩ := req
    cases he
    cases ho
    have hcond : ¬ (!(validateOTP env mobileNumber (env.redisReadBack entry.value) otp
        (otpCountryCode cc)).success ||
        !(validateOTP env mobileNumber (env.redisReadBack entry.value) otp
            (otpCountryCode cc)).isValid) = true := by
      simp [hok, hvalid]
    have hd : redisDel env st (verificationKey email) = .error ⟨message, none⟩ := by
      simp [redisDel, hdel]
    rw [verifyOtp_reaches_provider env st email otp cc student mobileNumber entry hemail
      hotp hcode hfind hsome hverified hmobile hmobile2 hget hentry hlive, if_neg hcond, hd]
    exact ⟨rfl, rfl, hsome, rfl⟩
  · intro email he hchanged
    have hgetD : req.email.getD "" = email := by rw [he]; rfl
    rcases verifyOtp_state_cases env st req with h | h
    · exact absurd h hchanged
    · rw [h, hgetD]
      exact lookup_filter_ne_self _ _

/-- Witness of C16: the provider confirms the code and the ephemeral store
rejects the delete; the account stays unverified. -/
theorem verifyOtp_delete_before_update_witness :
    redisDelFailsEnv.fault Call.redisDel = some "fetch failed" ∧
    (verifyOtp redisDelFailsEnv sessionState ⟨some "a@x.com", some "1234", none⟩).resp.status
      = 500 ∧
    (verifyOtp redisDelFailsEnv sessionState ⟨some "a@x.com", some "1234", none⟩).state
      = sessionState ∧
    findByEmail (verifyOtp redisDelFailsEnv sessionState
        ⟨some "a@x.com", some "1234", none⟩).state.students "a@x.com"
      = some (sampleStudent false Status.PENDING_ADMIN_APPROVAL) :=
  have h := (verifyOtp_delete_before_update redisDelFailsEnv sessionState
    ⟨some "a@x.com", some "1234", none⟩).1 "a@x.com" "1234"
    (sampleStudent false Status.PENDING_ADMIN_APPROVAL) "9000000001" ⟨.str "v-1", 600⟩
    "fetch failed" rfl rfl (by decide) (by decide) (by unfold WellFormedCode; decide) rfl
    (by decide) rfl rfl (by decide) rfl rfl rfl rfl rfl rfl
  ⟨rfl, by rw [h.1], h.2.1, h.2.2.1⟩

/-! ### A code validates at most once -/

/-- A code validation that answers 200 had a well-formed code, an unverified
account with a mobile number, a live session, the verdict of the provider, and
stores that accepted the delete and the update. -/
theorem verifyOtp_success_inv (env : Env) (st : State) (req : VerifyReq)
    (h : (verifyOtp env st req).resp.status = 200) :
    ∃ email otp student mobileNumber entry,
      req = ⟨some email, some otp, req.countryCode⟩ ∧ email ≠ "" ∧ otp ≠ "" ∧
      WellFormedCode otp ∧
      env.fault Call.findByEmail = none ∧ findByEmail st.students email = some student ∧
      student.emailVerified = false ∧ student.mobileNumber = some mobileNumber ∧
      mobileNumber ≠ "" ∧ env.fault Call.redisGet = none ∧
      st.redis.lookup (verificationKey email) = some entry ∧
          (env.redisReadBack entry.value).truthy = true ∧
      (validateOTP env mobileNumber (env.redisReadBack entry.value) otp
          (otpCountryCode req.countryCode)).success
        = true ∧
      (validateOTP env mobileNumber (env.redisReadBack entry.value) otp
          (otpCountryCode req.countryCode)).isValid
        = true ∧
      env.fault Call.redisDel = none ∧ env.fault Call.update = none := by
  obtain ⟨oe, oo, cc⟩ := req
  rcases oe with _ | email
  · simp [verifyOtp, jsNot] at h
  rcases oo with _ | otp
  · simp [verifyOtp, jsNot] at h
  by_cases hemail : email = ""
  · simp [verifyOtp, jsNot, hemail] at h
  by_cases hotp : otp = ""
  · simp [verifyOtp, jsNot, hotp] at h
  have hv : (jsNot (some email) || jsNot (some otp)) = false := by
    simp [jsNot, hemail, hotp]
  by_cases hcode : WellFormedCode otp
  swap
  · have hc : (decide (jsLength otp < 4) || decide (jsLength otp > 6) || !digitsOnly otp)
        = true := by
      cases hb : (decide (jsLength otp < 4) || decide (jsLength otp > 6) || !digitsOnly otp)
      · exact absurd ((codeCheck_iff otp).1 hb) hcode
      · rfl
    unfold verifyOtp at h
    simp only [hv, Bool.false_eq_true, if_false, Option.getD_some, hc, if_true] at h
    exact absurd h (by decide)
  have hc := (codeCheck_iff otp).2 hcode
  refine ⟨email, otp, ?_⟩
  cases hfind : env.fault Call.findByEmail with
  | some m =>
    unfold verifyOtp at h
    simp [hv, hc, prismaFindByEmail, hfind, verifyCatch] at h
  | none =>
  cases hsome : findByEmail st.students email with
  | none =>
    rw [verifyOtp_not_found env st email otp cc hemail hotp hcode hfind hsome] at h
    simp at h
  | some student =>
  cases hverified : student.emailVerified with
  | true =>
    rw [verifyOtp_already_verified env st email otp cc student hemail hotp hcode hfind hsome
      hverified] at h
    simp at h
  | false =>
  cases hjs : jsNot student.mobileNumber with
  | true =>
    rw [verifyOtp_no_mobile env st email otp cc student hemail hotp hcode hfind hsome
      hverified hjs] at h
    simp at h
  | false =>
  obtain ⟨mobileNumber, hmobile, hmobile2⟩ :
      ∃ m, student.mobileNumber = some m ∧ m ≠ "" := by
    cases hm : student.mobileNumber with
    | none => simp [hm, jsNot] at hjs
    | some m => exact ⟨m, rfl, by simpa [hm, jsNot] using hjs⟩
  cases hget : env.fault Call.redisGet with
  | some m =>
    unfold verifyOtp at h
    simp [hv, hc, prismaFindByEmail, hfind, hsome, hverified, hjs, redisGet, hget,
      verifyCatch] at h
  | none =>
  cases hentry : st.redis.lookup (verificationKey email) with
  | none =>
    rw [verifyOtp_no_session env st email otp cc student hemail hotp hcode hfind hsome
      hverified hjs hget hentry] at h
    simp at h
  | some entry =>
  cases hlive : (env.redisReadBack entry.value).truthy with
  | false =>
    unfold verifyOtp at h
    simp [hv, hc, prismaFindByEmail, hfind, hsome, hverified, hjs, redisGet, hget, hentry,
      hlive] at h
  | true =>
  refine ⟨student, mobileNumber, entry, rfl, hemail, hotp, hcode, rfl, rfl, hverified, hmobile,
    hmobile2, rfl, rfl, hlive, ?_⟩
  rw [verifyOtp_reaches_provider env st email otp cc student mobileNumber entry hemail
    hotp hcode hfind hsome hverified hmobile hmobile2 hget hentry hlive] at h
  show (validateOTP env mobileNumber (env.redisReadBack entry.value) otp
      (otpCountryCode cc)).success = true ∧
    (validateOTP env mobileNumber (env.redisReadBack entry.value) otp
        (otpCountryCode cc)).isValid = true ∧
    env.fault Call.redisDel = none ∧ env.fault Call.update = none
  cases hok : (validateOTP env mobileNumber (env.redisReadBack entry.value) otp
      (otpCountryCode cc)).success with
  | false => simp [hok] at h
  | true =>
  cases hvalid : (validateOTP env mobileNumber (env.redisReadBack entry.value) otp
      (otpCountryCode cc)).isValid with
  | false => simp [hok, hvalid] at h
  | true =>
  cases hdel : env.fault Call.redisDel with
  | some m => simp [hok, hvalid, redisDel, hdel, verifyCatch] at h
  | none =>
  cases hupdate : env.fault Call.update with
  | some m => simp [hok, hvalid, redisDel, hdel, prismaUpdateVerified, hupdate, verifyCatch] at h
  | none => exact ⟨rfl, rfl, rfl, rfl⟩

/-- C17 (as amended): after a code validation that answered success, a second
request with the same email and the same code never succeeds, in whatever
world it is handled; when the account lookup answers, it gets the
already-verified error with the state unchanged, and the account lookup is
the only call it makes: the session is not read and the provider is not
called, so the answer is the same whatever the ephemeral store holds. -/
theorem verifyOtp_second_attempt_rejected (env env2 : Env) (st : State) (req : VerifyReq)
    (h : (verifyOtp env st req).resp.status = 200) :
    (verifyOtp env2 (verifyOtp env st req).state req).resp.status ≠ 200 ∧
    (env2.fault Call.findByEmail = none →
      (verifyOtp env2 (verifyOtp env st req).state req).resp
        = ⟨400, json [("success", .bool false),
            ("message", .str "Email is already verified")]⟩ ∧
      (verifyOtp env2 (verifyOtp env st req).state req).state = (verifyOtp env st req).state ∧
      (verifyOtp env2 (verifyOtp env st req).state req).trace
        = [.dbFindByEmail (req.email.getD "")] ∧
      (∀ key, Event.redisGet key ∉ (verifyOtp env2 (verifyOtp env st req).state req).trace) ∧
      (verifyOtp env2 (verifyOtp env st req).state req).trace.all
        (fun e => !e.isEffect) = true ∧
      (∀ redis,
        (verifyOtp env2 { (verifyOtp env st req).state with redis := redis } req).resp
          = ⟨400, json [("success", .bool false),
              ("message", .str "Email is already verified")]⟩ ∧
        (verifyOtp env2 { (verifyOtp env st req).state with redis := redis } req).trace
          = [.dbFindByEmail (req.email.getD "")])) := by
  obtain ⟨email, otp, student, mobileNumber, entry, hreq, hemail, hotp, hcode, hfind, hsome,
    hverified, hmobile, hmobile2, hget, hentry, hlive, hok, hvalid, hdel, hupdate⟩ :=
    verifyOtp_success_inv env st req h
  generalize req.countryCode = cc at hreq hok hvalid
  subst hreq
  rw [verifyOtp_success env st email otp cc student mobileNumber entry hemail hotp hcode hfind
    hsome hverified hmobile hmobile2 hget hentry hlive hok hvalid hdel hupdate]
  dsimp only
  have hsome2 := findByEmail_map_verified st.students email student hsome
  cases hfind2 : env2.fault Call.findByEmail with
  | none =>
    rw [verifyOtp_already_verified env2 _ email otp cc { student with emailVerified := true }
      hemail hotp hcode hfind2 hsome2 rfl]
    refine ⟨by simp, fun _ => ⟨rfl, rfl, rfl, ?_, rfl, ?_⟩⟩
    · intro key hmem
      simp at hmem
    · intro redis
      rw [verifyOtp_already_verified env2 _ email otp cc { student with emailVerified := true }
        hemail hotp hcode hfind2 hsome2 rfl]
      exact ⟨rfl, rfl⟩
  | some m =>
    obtain ⟨hv, hc⟩ := verifyOtp_validated email otp hemail hotp hcode
    refine ⟨?_, fun hn => absurd hn (by simp)⟩
    unfold verifyOtp
    simp [hv, hc, prismaFindByEmail, hfind2, verifyCatch]

/-- Witness of C17: the second request in the world of the first, and in a
world whose ephemeral store rejects every read. -/
theorem verifyOtp_second_attempt_rejected_witness :
    (verifyOtp sampleEnv sessionState ⟨some "a@x.com", some "1234", none⟩).resp.status = 200 ∧
    (verifyOtp sampleEnv
      (verifyOtp sampleEnv sessionState ⟨some "a@x.com", some "1234", none⟩).state
      ⟨some "a@x.com", some "1234", none⟩).resp
      = ⟨400, json [("success", .bool false), ("message", .str "Email is already verified")]⟩ ∧
    (verifyOtp sampleEnv
      (verifyOtp sampleEnv sessionState ⟨some "a@x.com", some "1234", none⟩).state
      ⟨some "a@x.com", some "1234", none⟩).trace = [.dbFindByEmail "a@x.com"] ∧
    (sampleEnv.withFault Call.redisGet (some "fetch failed")).fault Call.redisGet
      = some "fetch failed" ∧
    (verifyOtp (sampleEnv.withFault Call.redisGet (some "fetch failed"))
      (verifyOtp sampleEnv sessionState ⟨some "a@x.com", some "1234", none⟩).state
      ⟨some "a@x.com", some "1234", none⟩).resp
      = ⟨400, json [("success", .bool false), ("message", .str "Email is already verified")]⟩ :=
  have h200 : (verifyOtp sampleEnv sessionState
      ⟨some "a@x.com", some "1234", none⟩).resp.status = 200 := by decide
  have h := (verifyOtp_second_attempt_rejected sampleEnv sampleEnv sessionState
      ⟨some "a@x.com", some "1234", none⟩ h200).2 rfl
  ⟨h200, h.1, h.2.2.1, rfl,
    ((verifyOtp_second_attempt_rejected sampleEnv
      (sampleEnv.withFault Call.redisGet (some "fetch failed")) sessionState
      ⟨some "a@x.com", some "1234", none⟩ h200).2 rfl).1⟩

/-- Counterexample to C17 as stated: the second request with the same email
and code is answered with the already-verified error, not with the
challenge-expired error. -/
theorem verifyOtp_second_attempt_not_challenge_expired :
    (verifyOtp sampleEnv sessionState ⟨some "a@x.com", some "1234", none⟩).resp.status = 200 ∧
    (verifyOtp sampleEnv
      (verifyOtp sampleEnv sessionState ⟨some "a@x.com", some "1234", none⟩).state
      ⟨some "a@x.com", some "1234", none⟩).resp.body.get "message"
      = .str "Email is already verified" ∧
    (verifyOtp sampleEnv
      (verifyOtp sampleEnv sessionState ⟨some "a@x.com", some "1234", none⟩).state
      ⟨some "a@x.com", some "1234", none⟩).resp.body.get "message"
      ≠ .str "OTP has expired or is invalid. Please register again." := by
  have hmsg : (verifyOtp sampleEnv
      (verifyOtp sampleEnv sessionState ⟨some "a@x.com", some "1234", none⟩).state
      ⟨some "a@x.com", some "1234", none⟩).resp.body.get "message"
      = .str "Email is already verified" := rfl
  refine ⟨by decide, hmsg, ?_⟩
  rw [hmsg]
  simp

/-! ### An expired session -/

/-- C18 (as amended): with a well-formed code, a registered, unverified account
with a mobile number and no entry under the key of its email gets the
challenge-expired error, and the response is the same whether the entry
expired or was never written (any two such stores and worlds); an email that
was never registered gets the 404 not-found error instead. -/
theorem verifyOtp_expired_same_as_never_issued (env env2 : Env) (st st2 : State)
    (email otp : String) (countryCode countryCode2 : Option String) (student student2 : Student)
    (hemail : email ≠ "") (hotp : otp ≠ "") (hcode : WellFormedCode otp)
    (hfind : env.fault Call.findByEmail = none) (hget : env.fault Call.redisGet = none)
    (hsome : findByEmail st.students email = some student)
    (hverified : student.emailVerified = false)
    (hmobile : jsNot student.mobileNumber = false)
    (habsent : st.redis.lookup (verificationKey email) = none)
    (hfind2 : env2.fault Call.findByEmail = none) (hget2 : env2.fault Call.redisGet = none)
    (hsome2 : findByEmail st2.students email = some student2)
    (hverified2 : student2.emailVerified = false)
    (hmobile2 : jsNot student2.mobileNumber = false)
    (habsent2 : st2.redis.lookup (verificationKey email) = none) :
    (verifyOtp env st ⟨some email, some otp, countryCode⟩).resp
      = ⟨400, json [("success", .bool false),
          ("message", .str "OTP has expired or is invalid. Please register again.")]⟩ ∧
    (verifyOtp env st ⟨some email, some otp, countryCode⟩).resp
      = (verifyOtp env2 st2 ⟨some email, some otp, countryCode2⟩).resp ∧
    (∀ env3 st3 countryCode3, env3.fault Call.findByEmail = none →
      findByEmail st3.students email = none →
      (verifyOtp env3 st3 ⟨some email, some otp, countryCode3⟩).resp
        = ⟨404, json [("success", .bool false), ("message", .str "Student not found")]⟩) := by
  rw [verifyOtp_no_session env st email otp countryCode student hemail hotp hcode hfind hsome
      hverified hmobile hget habsent,
    verifyOtp_no_session env2 st2 email otp countryCode2 student2 hemail hotp hcode hfind2 hsome2
      hverified2 hmobile2 hget2 habsent2]
  refine ⟨rfl, rfl, ?_⟩
  intro env3 st3 countryCode3 hfind3 hnone3
  rw [verifyOtp_not_found env3 st3 email otp countryCode3 hemail hotp hcode hfind3 hnone3]

/-- Witness of C18: the account of the sample store, whose session is gone. -/
theorem verifyOtp_expired_same_as_never_issued_witness :
    (sampleState false Status.PENDING_ADMIN_APPROVAL).redis.lookup (verificationKey "a@x.com")
      = none ∧
    (verifyOtp sampleEnv (sampleState false Status.PENDING_ADMIN_APPROVAL)
      ⟨some "a@x.com", some "1234", none⟩).resp
      = ⟨400, json [("success", .bool false),
          ("message", .str "OTP has expired or is invalid. Please register again.")]⟩ :=
  ⟨rfl,
   (verifyOtp_expired_same_as_never_issued sampleEnv sampleEnv
      (sampleState false Status.PENDING_ADMIN_APPROVAL)
      (sampleState false Status.PENDING_ADMIN_APPROVAL) "a@x.com" "1234" none none
      (sampleStudent false Status.PENDING_ADMIN_APPROVAL)
      (sampleStudent false Status.PENDING_ADMIN_APPROVAL)
      (by decide) (by decide) (by unfold WellFormedCode; decide) rfl rfl (by decide) rfl
      (by decide) rfl rfl rfl (by decide) rfl (by decide) rfl).1⟩

/-- Counterexample to C18 as stated: the account whose session is gone gets
400, the email that was never registered gets 404, so a caller tells them
apart. -/
theorem verifyOtp_expired_differs_from_unregistered :
    findByEmail emptyState.students "a@x.com" = none ∧
    (verifyOtp sampleEnv (sampleState false Status.PENDING_ADMIN_APPROVAL)
      ⟨some "a@x.com", some "1234", none⟩).resp.status = 400 ∧
    (verifyOtp sampleEnv emptyState ⟨some "a@x.com", some "1234", none⟩).resp.status = 404 ∧
    (verifyOtp sampleEnv (sampleState false Status.PENDING_ADMIN_APPROVAL)
      ⟨some "a@x.com", some "1234", none⟩).resp
      ≠ (verifyOtp sampleEnv emptyState ⟨some "a@x.com", some "1234", none⟩).resp :=
  ⟨by decide, by decide, by decide,
   fun h => absurd (congrArg Response.status h) (by decide)⟩

/-! ### Registering again with the email of an abandoned registration -/

/-- C19: the register route has no path that registers an email again.
While the unverified account of an abandoned registration exists, a complete
registration with the same email (lookup answering) is answered 400
`Email already registered`: the state is unchanged, so no session is written
and what was under the key of the email stays as it was, and the lookup is the
only call made. When no entry is under the key (the session has expired),
verify-otp on the state afterwards still answers
`OTP has expired or is invalid. Please register again.`, the step the register
route has just refused. No registration that answers success had an account
with its email before. -/
theorem register_again_rejected (env : Env) (st : State) (req : RegisterReq) (email : String)
    (student : Student) (hreq : req.email = some email)
    (h1 : jsNot req.fullName = false) (h2 : jsNot req.email = false)
    (h3 : jsNot req.rollNumber = false) (h4 : jsNot req.password = false)
    (h5 : jsNot req.mobileNumber = false) (hfind : env.fault Call.findByEmail = none)
    (hsome : findByEmail st.students email = some student)
    (hunverified : student.emailVerified = false) :
    (register env st req).resp
      = ⟨400, json [("success", .bool false), ("message", .str "Email already registered")]⟩ ∧
    (register env st req).state = st ∧
    (register env st req).trace = [.dbFindByEmail email] ∧
    (register env st req).state.redis.lookup (verificationKey email)
      = st.redis.lookup (verificationKey email) ∧
    (∀ env2 otp countryCode, otp ≠ "" → WellFormedCode otp →
      env2.fault Call.findByEmail = none → env2.fault Call.redisGet = none →
      jsNot student.mobileNumber = false →
      st.redis.lookup (verificationKey email) = none →
      (verifyOtp env2 (register env st req).state ⟨some email, some otp, countryCode⟩).resp
        = ⟨400, json [("success", .bool false),
            ("message", .str "OTP has expired or is invalid. Please register again.")]⟩) ∧
    (∀ env0 st0 req0, req0.email = some email → (register env0 st0 req0).resp.status = 201 →
      findByEmail st0.students email = none) := by
  have hgetD : req.email.getD "" = email := by rw [hreq]; rfl
  have hemail : email ≠ "" := by
    intro he
    rw [hreq, he] at h2
    simp [jsNot] at h2
  have hres : register env st req
      = ⟨st, ⟨400, json [("success", .bool false),
          ("message", .str "Email already registered")]⟩, [.dbFindByEmail email]⟩ := by
    unfold register
    simp only [h1, h2, h3, h4, h5, Bool.or_self, Bool.false_eq_true, if_false, hgetD,
      prismaFindByEmail, hfind, hsome]
  rw [hres]
  refine ⟨rfl, rfl, rfl, rfl, ?_, ?_⟩
  · intro env2 otp countryCode hotp hcode hfind2 hget2 hmobile habsent
    rw [verifyOtp_no_session env2 st email otp countryCode student hemail hotp hcode hfind2
      hsome hunverified hmobile hget2 habsent]
  · intro env0 st0 req0 hreq0 h201
    obtain ⟨fullName, email2, rollNumber, password, mobileNumber, hr, _, _, _, _, _, _,
      _, _, hne, _, _, _, _⟩ := register_success_inv env0 st0 req0 h201
    rw [hr] at hreq0
    cases hreq0
    exact hne

/-- Witness of C19: the account `a@x.com` is unverified and its session has
expired; the registration with the same email and roll number is refused and
verify-otp keeps answering that the user should register again. -/
theorem register_again_rejected_witness :
    findByEmail (sampleState false Status.PENDING_ADMIN_APPROVAL).students "a@x.com"
      = some (sampleStudent false Status.PENDING_ADMIN_APPROVAL) ∧
    (sampleState false Status.PENDING_ADMIN_APPROVAL).redis.lookup (verificationKey "a@x.com")
      = none ∧
    (register sampleEnv (sampleState false Status.PENDING_ADMIN_APPROVAL) sampleRegisterReq).resp
      = ⟨400, json [("success", .bool false), ("message", .str "Email already registered")]⟩ ∧
    (register sampleEnv (sampleState false Status.PENDING_ADMIN_APPROVAL)
      sampleRegisterReq).state.redis.lookup (verificationKey "a@x.com") = none ∧
    (verifyOtp sampleEnv
      (register sampleEnv (sampleState false Status.PENDING_ADMIN_APPROVAL)
        sampleRegisterReq).state ⟨some "a@x.com", some "1234", none⟩).resp
      = ⟨400, json [("success", .bool false),
          ("message", .str "OTP has expired or is invalid. Please register again.")]⟩ :=
  have h := register_again_rejected sampleEnv (sampleState false Status.PENDING_ADMIN_APPROVAL)
    sampleRegisterReq "a@x.com" (sampleStudent false Status.PENDING_ADMIN_APPROVAL) rfl
    (by decide) (by decide) (by decide) (by decide) (by decide) rfl (by decide) rfl
  ⟨by decide, rfl, h.1, h.2.2.2.1,
    h.2.2.2.2.1 sampleEnv "1234" none (by decide) (by unfold WellFormedCode; decide) rfl rfl
      (by decide) rfl⟩

/-- The abandoned registration of the sample store, whose session is still
live: the account is unverified and the provider would issue `v-1`; the new
registration is rejected, no session is written, and the old reference `v-0`
stays under the key. -/
theorem register_again_keeps_old_session :
    (sampleStudent false Status.PENDING_ADMIN_APPROVAL).emailVerified = false ∧
    (sendOTP sampleEnv "9000000001" (otpCountryCode none) "SMS").verificationId = .str "v-1" ∧
    (register sampleEnv abandonedState sampleRegisterReq).resp.status = 400 ∧
    (register sampleEnv abandonedState sampleRegisterReq).trace.all
      (fun e => !e.isEffect) = true ∧
    ((register sampleEnv abandonedState sampleRegisterReq).state.redis.lookup
      (verificationKey "a@x.com")).map (fun e => e.value) = some (.str "v-0") :=
  ⟨rfl, rfl, by decide, by decide, rfl⟩

/-! ### A unique-constraint violation on create -/

theorem prismaCreate_error_studentId {env : Env} {st : State} {data : CreateData}
    {error : JsError} (h : prismaCreate env st data = .error error) :
    error.studentId = none := by
  unfold prismaCreate at h
  split at h
  · simp only [Except.error.injEq] at h
    rw [← h]
  · dsimp only at h
    split at h
    · simp only [Except.error.injEq] at h
      rw [← h]
    · cases h

/-- C20 (as amended): when both lookups found no duplicate and the create call
then fails (with a unique-constraint violation or any other error), register
answers the generic 500 `Server error during registration` carrying the
message of the store error, which is not one of the two 400 already-registered
answers of the lookups; the state is unchanged and the provider is not
called. -/
theorem register_create_conflict_is_server_error (env : Env) (st : State)
    (fullName email rollNumber password mobileNumber : String) (countryCode : Option String)
    (error : JsError)
    (hfullName : fullName ≠ "") (hemail : email ≠ "") (hrollNumber : rollNumber ≠ "")
    (hpassword : password ≠ "") (hmobileNumber : mobileNumber ≠ "")
    (hfind1 : env.fault Call.findByEmail = none)
    (hfind2 : env.fault Call.findByRollNumber = none)
    (hnoEmail : findByEmail st.students email = none)
    (hnoRoll : findByRollNumber st.students rollNumber = none)
    (hcreate : prismaCreate env st
      (registerData env fullName email rollNumber password mobileNumber) = .error error) :
    (register env st ⟨some fullName, some email, some rollNumber, some password,
        some mobileNumber, countryCode⟩).resp
      = ⟨500, json [("success", .bool false),
          ("message", .str "Server error during registration"),
          ("error", .str error.message)]⟩ ∧
    (register env st ⟨some fullName, some email, some rollNumber, some password,
        some mobileNumber, countryCode⟩).resp
      ≠ ⟨400, json [("success", .bool false), ("message", .str "Email already registered")]⟩ ∧
    (register env st ⟨some fullName, some email, some rollNumber, some password,
        some mobileNumber, countryCode⟩).resp
      ≠ ⟨400, json [("success", .bool false),
          ("message", .str "Roll number already registered")]⟩ ∧
    (register env st ⟨some fullName, some email, some rollNumber, some password,
        some mobileNumber, countryCode⟩).state = st ∧
    (register env st ⟨some fullName, some email, some rollNumber, some password,
        some mobileNumber, countryCode⟩).trace
      = [.dbFindByEmail email, .dbFindByRollNumber rollNumber,
         .dbCreate (registerData env fullName email rollNumber password mobileNumber)] := by
  have hv : (jsNot (some fullName) || jsNot (some email) || jsNot (some rollNumber)
      || jsNot (some password)) = false := by
    simp [jsNot, hfullName, hemail, hrollNumber, hpassword]
  have hm : jsNot (some mobileNumber) = false := by simp [jsNot, hmobileNumber]
  have hid := prismaCreate_error_studentId hcreate
  have hres : register env st ⟨some fullName, some email, some rollNumber, some password,
        some mobileNumber, countryCode⟩
      = ⟨st, ⟨500, json [("success", .bool false),
            ("message", .str "Server error during registration"),
            ("error", .str error.message)]⟩,
          [.dbFindByEmail email, .dbFindByRollNumber rollNumber,
           .dbCreate (registerData env fullName email rollNumber password mobileNumber)]⟩ := by
    unfold register
    simp only [hv, hm, Bool.false_eq_true, if_false, Option.getD_some, prismaFindByEmail,
      prismaFindByRollNumber, hfind1, hfind2, hnoEmail, hnoRoll, hcreate, registerCatch, hid,
      List.singleton_append, List.cons_append, List.nil_append]
  rw [hres]
  have hne : (500 : Nat) ≠ 400 := by decide
  exact ⟨rfl, fun h => hne (congrArg Response.status h),
    fun h => hne (congrArg Response.status h), rfl, rfl⟩

/-- Witness of C20: the store rejects the create call with a unique-constraint
violation. -/
theorem register_create_conflict_is_server_error_witness :
    prismaCreate createConflictEnv emptyState
        (registerData createConflictEnv "Asha" "a@x.com" "R1" "pw" "9000000001")
      = .error ⟨"Unique constraint failed on the fields: (email)", none⟩ ∧
    (register createConflictEnv emptyState sampleRegisterReq).resp
      = ⟨500, json [("success", .bool false),
          ("message", .str "Server error during registration"),
          ("error", .str "Unique constraint failed on the fields: (email)")]⟩ :=
  ⟨rfl,
   (register_create_conflict_is_server_error createConflictEnv emptyState "Asha" "a@x.com" "R1"
      "pw" "9000000001" none ⟨"Unique constraint failed on the fields: (email)", none⟩
      (by decide) (by decide) (by decide) (by decide) (by decide) rfl rfl rfl rfl rfl).1⟩

/-- Counterexample to C20 as stated: the unique-constraint violation on create
is answered with status 500, the duplicate found by the lookup with status
400, so the two responses differ. -/
theorem register_create_conflict_differs_from_precheck :
    (register createConflictEnv emptyState sampleRegisterReq).resp.status = 500 ∧
    (register sampleEnv (sampleState false Status.PENDING_ADMIN_APPROVAL)
      sampleRegisterReq).resp.status = 400 ∧
    (register createConflictEnv emptyState sampleRegisterReq).resp
      ≠ (register sampleEnv (sampleState false Status.PENDING_ADMIN_APPROVAL)
          sampleRegisterReq).resp :=
  ⟨by decide, by decide, fun h => absurd (congrArg Response.status h) (by decide)⟩

/-! ### The provider client: normalising the validity signal -/

theorem JVal.eqStr_iff (v : JVal) (s : String) : v.eqStr s = true ↔ v = JVal.str s := by
  cases v <;> simp [JVal.eqStr]

theorem JVal.eqTrue_iff (v : JVal) : v.eqTrue = true ↔ v = JVal.bool true := by
  cases v <;> simp [JVal.eqTrue]

theorem JVal.eqNum_iff (v : JVal) (n : Int) : v.eqNum n = true ↔ v = JVal.num n := by
  cases v <;> simp [JVal.eqNum]

/-- C29: for a response body received without a transport error, validateOTP
returns `isValid = true` if and only if one of the listed signals is in the
body (a verification status `VERIFICATION_COMPLETED`, a boolean `true` under
`valid` or `verified`, a status `SUCCESS`, or the message `SUCCESS` together
with the response code 200, at the listed places); on a transport error
`isValid` is false. -/
theorem validateOTP_isValid_iff (env : Env) (mobileNumber : String) (verificationId : JVal)
    (code countryCode : String) :
    (∀ status data,
      env.axiosGet (MESSAGE_CENTRAL_BASE_URL ++ "/validateOtp")
          (validateRequestConfig env mobileNumber verificationId code countryCode)
        = .response status data →
      ((validateOTP env mobileNumber verificationId code countryCode).isValid = true ↔
        ((data.get "data").get "verificationStatus" = .str "VERIFICATION_COMPLETED" ∨
         data.get "verificationStatus" = .str "VERIFICATION_COMPLETED" ∨
         data.get "valid" = .bool true ∨
         data.get "verified" = .bool true ∨
         (data.get "data").get "valid" = .bool true ∨
         data.get "status" = .str "SUCCESS" ∨
         (data.get "data").get "status" = .str "SUCCESS" ∨
         (data.get "message" = .str "SUCCESS" ∧ data.get "responseCode" = .num 200)))) ∧
    (∀ message response,
      env.axiosGet (MESSAGE_CENTRAL_BASE_URL ++ "/validateOtp")
          (validateRequestConfig env mobileNumber verificationId code countryCode)
        = .error message response →
      (validateOTP env mobileNumber verificationId code countryCode).isValid = false) := by
  constructor
  · intro status data h
    unfold validateOTP
    simp only [h, isValidSignal, Bool.or_eq_true, Bool.and_eq_true, JVal.eqStr_iff,
      JVal.eqTrue_iff, JVal.eqNum_iff]
    tauto
  · intro message response h
    unfold validateOTP
    simp only [h]

/-- Witness of C29: the body of the sample provider carries
`data.verificationStatus = VERIFICATION_COMPLETED`. -/
theorem validateOTP_isValid_iff_witness :
    (validateOTP sampleEnv "9000000001" (.str "v-1") "1234" "91").isValid = true :=
  ((validateOTP_isValid_iff sampleEnv "9000000001" (.str "v-1") "1234" "91").1 200
    (.obj [("data", .obj [("verificationStatus", .str "VERIFICATION_COMPLETED")])]) rfl).2
    (Or.inl rfl)

/-! ### The provider client: extracting the session reference -/

/-- C28: for every response body, the verificationId sendOTP returns is the
first truthy value among `data.data.verificationId`, `data.verificationId`,
`data.id` and `data.verification_id`, in this order; when none of the four is
truthy the result is falsy (and `undefined` when none is present), and the
register route then answers with the delivery error. -/
theorem sendOTP_verificationId_first_truthy (env : Env)
    (mobileNumber countryCode flowType : String) (status : Nat) (data : JVal)
    (h : env.axiosPost (MESSAGE_CENTRAL_BASE_URL ++ "/send")
        (sendRequestConfig env mobileNumber countryCode flowType) = .response status data) :
    (sendOTP env mobileNumber countryCode flowType).verificationId
      = (([(data.get "data").get "verificationId", data.get "verificationId", data.get "id",
            data.get "verification_id"].find? JVal.truthy).getD (data.get "verification_id")) ∧
    ((sendOTP env mobileNumber countryCode flowType).verificationId.truthy = false ↔
      (((data.get "data").get "verificationId").truthy = false ∧
       (data.get "verificationId").truthy = false ∧
       (data.get "id").truthy = false ∧
       (data.get "verification_id").truthy = false)) ∧
    (((data.get "data").get "verificationId" = .undefined ∧
       data.get "verificationId" = .undefined ∧
       data.get "id" = .undefined ∧
       data.get "verification_id" = .undefined) →
      (sendOTP env mobileNumber countryCode flowType).verificationId = .undefined) ∧
    ((sendOTP env mobileNumber countryCode flowType).verificationId.truthy = false →
      flowType = "SMS" →
      ∀ st1 student email countryCode0 trace, otpCountryCode countryCode0 = countryCode →
        (registerIssue env st1 student email mobileNumber countryCode0 trace).resp.status = 500 ∧
        (registerIssue env st1 student email mobileNumber countryCode0 trace).resp.body.get
          "message" = .str "Failed to send OTP. Please try again.") := by
  have hid : (sendOTP env mobileNumber countryCode flowType).verificationId
      = ((((data.get "data").get "verificationId").or (data.get "verificationId")).or
          (data.get "id")).or (data.get "verification_id") := by
    unfold sendOTP
    simp only [h]
  refine ⟨?_, ?_, ?_, ?_⟩
  · rw [hid]
    unfold JVal.or
    simp only [List.find?]
    cases h1 : ((data.get "data").get "verificationId").truthy <;>
      cases h2 : (data.get "verificationId").truthy <;>
      cases h3 : (data.get "id").truthy <;>
      cases h4 : (data.get "verification_id").truthy <;>
      simp [h1, h2, h3, h4]
  · rw [hid]
    unfold JVal.or
    cases h1 : ((data.get "data").get "verificationId").truthy <;>
      cases h2 : (data.get "verificationId").truthy <;>
      cases h3 : (data.get "id").truthy <;>
      cases h4 : (data.get "verification_id").truthy <;>
      simp [h1, h2, h3, h4]
  · intro ⟨h1, h2, h3, h4⟩
    rw [hid, h1, h2, h3, h4]
    rfl
  · intro hfalsy hflow st1 student email countryCode0 trace hcc
    subst hflow
    subst hcc
    unfold registerIssue
    simp only [hfalsy, Bool.not_false, Bool.or_true, if_true]
    constructor
    · split <;> rfl
    · split <;> simp [json, JVal.get, JVal.isUndefined, List.lookup]

/-- Witness of C28: the body of the sample provider carries the reference
under `data.data.verificationId`. -/
theorem sendOTP_verificationId_first_truthy_witness :
    (sendOTP sampleEnv "9000000001" "91" "SMS").verificationId = .str "v-1" :=
  (sendOTP_verificationId_first_truthy sampleEnv "9000000001" "91" "SMS" 200
    (.obj [("data", .obj [("verificationId", .str "v-1")])]) rfl).1

/-! ### The provider client: request configuration -/

/-- C23 (as amended): the request configuration sendOTP passes to
`axios.post` and the one validateOTP passes to `axios.get` consist of `params`
and `headers` only, for every world and every argument: neither carries a
`timeout`. -/
theorem provider_requests_carry_no_timeout (env : Env) (mobileNumber countryCode flowType : String)
    (verificationId : JVal) (code : String) :
    (sendRequestConfig env mobileNumber countryCode flowType).keys = ["params", "headers"] ∧
    (sendRequestConfig env mobileNumber countryCode flowType).get "timeout" = JVal.undefined ∧
    (validateRequestConfig env mobileNumber verificationId code countryCode).keys
      = ["params", "headers"] ∧
    (validateRequestConfig env mobileNumber verificationId code countryCode).get "timeout"
      = JVal.undefined :=
  ⟨rfl, rfl, rfl, rfl⟩

/-- Counterexample to C23 as stated: the configuration of the provider call
of a registration has no `timeout`. -/
theorem register_provider_request_without_timeout :
    (register sampleEnv emptyState sampleRegisterReq).trace.get? 3
      = some (.axiosPost (MESSAGE_CENTRAL_BASE_URL ++ "/send")
          (sendRequestConfig sampleEnv "9000000001" "91" "SMS")) ∧
    (sendRequestConfig sampleEnv "9000000001" "91" "SMS").get "timeout" = JVal.undefined ∧
    (sendRequestConfig sampleEnv "9000000001" "91" "SMS").keys = ["params", "headers"] :=
  ⟨rfl, rfl, rfl⟩

/-! ### The provider client: classifying failures -/

/-- C22 (as amended): every call axios rejects (HTTP error status, timeout,
network error) is reported by sendOTP and validateOTP as an error result
(`success = false`, and `isValid = false` for validateOTP); every response
axios accepts is reported with `success = true`, whatever its body, so a
malformed or unrecognised 2xx body gives `success = true` with
`isValid = false` (validateOTP) or without a usable verificationId (sendOTP). -/
theorem provider_failures_classified (env : Env) (mobileNumber countryCode flowType : String)
    (verificationId : JVal) (code : String) :
    (∀ message response,
      env.axiosPost (MESSAGE_CENTRAL_BASE_URL ++ "/send")
          (sendRequestConfig env mobileNumber countryCode flowType) = .error message response →
      (sendOTP env mobileNumber countryCode flowType).success = false ∧
      (sendOTP env mobileNumber countryCode flowType).verificationId = .undefined) ∧
    (∀ message response,
      env.axiosGet (MESSAGE_CENTRAL_BASE_URL ++ "/validateOtp")
          (validateRequestConfig env mobileNumber verificationId code countryCode)
        = .error message response →
      (validateOTP env mobileNumber verificationId code countryCode).success = false ∧
      (validateOTP env mobileNumber verificationId code countryCode).isValid = false) ∧
    (∀ status data,
      env.axiosPost (MESSAGE_CENTRAL_BASE_URL ++ "/send")
          (sendRequestConfig env mobileNumber countryCode flowType) = .response status data →
      (sendOTP env mobileNumber countryCode flowType).success = true) ∧
    (∀ status data,
      env.axiosGet (MESSAGE_CENTRAL_BASE_URL ++ "/validateOtp")
          (validateRequestConfig env mobileNumber verificationId code countryCode)
        = .response status data →
      (validateOTP env mobileNumber verificationId code countryCode).success = true ∧
      (validateOTP env mobileNumber verificationId code countryCode).isValid
        = isValidSignal data) := by
  refine ⟨?_, ?_, ?_, ?_⟩
  · intro message response h
    unfold sendOTP
    simp only [h, and_self]
  · intro message response h
    unfold validateOTP
    simp only [h, and_self]
  · intro status data h
    unfold sendOTP
    simp only [h]
  · intro status data h
    unfold validateOTP
    simp only [h, and_self]

/-- Witness of C22: a transport failure of the validate call is an error
result. -/
theorem provider_failures_classified_witness :
    (validateOTP validateFailsEnv "9000000001" (.str "v-1") "1234" "91").success = false ∧
    (validateOTP validateFailsEnv "9000000001" (.str "v-1") "1234" "91").isValid = false :=
  (provider_failures_classified validateFailsEnv "9000000001" "91" "SMS" (.str "v-1")
    "1234").2.1 "Network Error" none rfl

/-- Counterexample to C22 as stated: the provider answers with status 200 and
a body that is not JSON; validateOTP reports a successful call with
`isValid = false`, and sendOTP a successful call without verificationId. -/
theorem malformed_body_reported_as_success :
    malformedBodyEnv.axiosGet (MESSAGE_CENTRAL_BASE_URL ++ "/validateOtp")
        (validateRequestConfig malformedBodyEnv "9000000001" (.str "v-1") "1234" "91")
      = .response 200 (.str "<html>Service temporarily unavailable</html>") ∧
    (validateOTP malformedBodyEnv "9000000001" (.str "v-1") "1234" "91").success = true ∧
    (validateOTP malformedBodyEnv "9000000001" (.str "v-1") "1234" "91").isValid = false ∧
    (sendOTP malformedBodyEnv "9000000001" "91" "SMS").success = true ∧
    (sendOTP malformedBodyEnv "9000000001" "91" "SMS").verificationId = .undefined :=
  ⟨rfl, rfl, rfl, rfl, rfl⟩

/-! ### Admin decisions -/

theorem findById_map_status (students : List Student) (id : String) (status : Status)
    (student : Student) (h : findById students id = some student) :
    findById (students.map fun t =>
        if t.id == id then { t with status := status } else t) id
      = some { student with status := status } := by
  unfold findById at *
  induction students with
  | nil => simp at h
  | cons t ts ih =>
    by_cases ht : t.id = id
    · have heq : (t.id == id) = true := by simpa using ht
      simp only [List.find?, List.map_cons, heq, if_true] at h ⊢
      cases h
      rfl
    · have hne : (t.id == id) = false := by simpa using ht
      simp only [List.find?, List.map_cons, hne, Bool.false_eq_true, if_false] at h ⊢
      exact ih h

/-- C24: for an authenticated admin and a store that accepts the update,
approve sets the status of the account with the given id to APPROVED and
reject sets it to REJECTED, whatever the previous status and whether or not
the account is verified; the request succeeds, the other fields of the account
(emailVerified among them), every other account, the sessions and the admins
are unchanged. -/
theorem admin_decision_sets_status (env : Env) (st : State) (req : AdminReq) (admin : Admin)
    (trace0 : List Event) (student : Student)
    (hauth : authenticateAdmin env st req.authorization = (.ok admin, trace0))
    (hupdate : env.fault Call.update = none)
    (hfound : findById st.students req.id = some student) :
    ((approveStudent env st req).resp
        = ⟨200, json [("success", .bool true),
            ("message", .str "Student approved successfully"),
            ("data", selectDecided { student with status := Status.APPROVED })]⟩ ∧
      findById (approveStudent env st req).state.students req.id
        = some { student with status := Status.APPROVED } ∧
      (approveStudent env st req).state
        = { st with students := st.students.map fun t =>
              if t.id == req.id then { t with status := Status.APPROVED } else t }) ∧
    ((rejectStudent env st req).resp
        = ⟨200, json [("success", .bool true),
            ("message", .str "Student rejected successfully"),
            ("data", selectDecided { student with status := Status.REJECTED })]⟩ ∧
      findById (rejectStudent env st req).state.students req.id
        = some { student with status := Status.REJECTED } ∧
      (rejectStudent env st req).state
        = { st with students := st.students.map fun t =>
              if t.id == req.id then { t with status := Status.REJECTED } else t }) := by
  have ha : approveStudent env st req
      = ⟨{ st with students := st.students.map fun t =>
              if t.id == req.id then { t with status := Status.APPROVED } else t },
          ⟨200, json [("success", .bool true),
            ("message", .str "Student approved successfully"),
            ("data", selectDecided { student with status := Status.APPROVED })]⟩,
          trace0 ++ [.dbUpdate req.id]⟩ := by
    unfold approveStudent
    simp only [hauth, prismaUpdateStatus, hupdate, hfound]
  have hr : rejectStudent env st req
      = ⟨{ st with students := st.students.map fun t =>
              if t.id == req.id then { t with status := Status.REJECTED } else t },
          ⟨200, json [("success", .bool true),
            ("message", .str "Student rejected successfully"),
            ("data", selectDecided { student with status := Status.REJECTED })]⟩,
          trace0 ++ [.dbUpdate req.id]⟩ := by
    unfold rejectStudent
    simp only [hauth, prismaUpdateStatus, hupdate, hfound]
  rw [ha, hr]
  exact ⟨⟨rfl, findById_map_status _ _ _ _ hfound, rfl⟩,
    ⟨rfl, findById_map_status _ _ _ _ hfound, rfl⟩⟩

/-- Witness of C24: the admin approves an account that is not verified. -/
theorem admin_decision_sets_status_witness :
    (sampleStudent false Status.PENDING_ADMIN_APPROVAL).emailVerified = false ∧
    findById (approveStudent sampleEnv adminState ⟨some "Bearer adm", "s-1"⟩).state.students "s-1"
      = some (sampleStudent false Status.APPROVED) ∧
    findById (rejectStudent sampleEnv adminState ⟨some "Bearer adm", "s-1"⟩).state.students "s-1"
      = some (sampleStudent false Status.REJECTED) :=
  have h := admin_decision_sets_status sampleEnv adminState ⟨some "Bearer adm", "s-1"⟩
    ⟨"a-1", "Admin", "admin@x.com", "h:adm"⟩ [.dbAdminFind "a-1"]
    (sampleStudent false Status.PENDING_ADMIN_APPROVAL) (by rfl) rfl (by decide)
  ⟨rfl, h.1.2.1, h.2.2.1⟩

/-! ### The compensating delete does not change the response -/

/-- When the provider did not issue a usable reference, the response is the
delivery error, whatever the store does with the compensating delete. -/
theorem registerIssue_failure_resp (env : Env) (st1 : State) (student : Student)
    (email mobileNumber : String) (countryCode : Option String) (trace : List Event)
    (hissue : (sendOTP env mobileNumber (otpCountryCode countryCode) "SMS").success = false ∨
      (sendOTP env mobileNumber (otpCountryCode countryCode) "SMS").verificationId.truthy
        = false) :
    (registerIssue env st1 student email mobileNumber countryCode trace).resp
      = ⟨500, json [("success", .bool false),
          ("message", .str "Failed to send OTP. Please try again."),
          ("error", (sendOTP env mobileNumber (otpCountryCode countryCode) "SMS").message.or
            (.str "Message Central API error")),
          ("details", (sendOTP env mobileNumber (otpCountryCode countryCode) "SMS").error)]⟩ := by
  have hcond : (!(sendOTP env mobileNumber (otpCountryCode countryCode) "SMS").success ||
      !(sendOTP env mobileNumber (otpCountryCode countryCode) "SMS").verificationId.truthy)
      = true := by
    rcases hissue with h | h <;> simp [h]
  unfold registerIssue
  simp only [hcond, if_true]
  split <;> rfl

/-- C25: when issuance fails during a registration, the response is the
delivery error (500, `Failed to send OTP. Please try again.`) and it is the
same response whether the compensating delete succeeds or rejects with any
message. -/
theorem register_delivery_error_regardless_of_delete (env : Env) (st : State)
    (fullName email rollNumber password mobileNumber : String) (countryCode : Option String)
    (deleteOutcome : Option String)
    (hfullName : fullName ≠ "") (hemail : email ≠ "") (hrollNumber : rollNumber ≠ "")
    (hpassword : password ≠ "") (hmobileNumber : mobileNumber ≠ "")
    (hfind1 : env.fault Call.findByEmail = none)
    (hfind2 : env.fault Call.findByRollNumber = none)
    (hcreate : env.fault Call.create = none)
    (hnoEmail : findByEmail st.students email = none)
    (hnoRoll : findByRollNumber st.students rollNumber = none)
    (hfresh : findById st.students env.newId = none)
    (hissue : (sendOTP env mobileNumber (otpCountryCode countryCode) "SMS").success = false ∨
      (sendOTP env mobileNumber (otpCountryCode countryCode) "SMS").verificationId.truthy
        = false) :
    (register (env.withFault Call.delete deleteOutcome) st ⟨some fullName, some email,
        some rollNumber, some password, some mobileNumber, countryCode⟩).resp
      = (register env st ⟨some fullName, some email, some rollNumber, some password,
          some mobileNumber, countryCode⟩).resp ∧
    (register env st ⟨some fullName, some email, some rollNumber, some password,
        some mobileNumber, countryCode⟩).resp.status = 500 ∧
    (register env st ⟨some fullName, some email, some rollNumber, some password,
        some mobileNumber, countryCode⟩).resp.body.get "message"
      = .str "Failed to send OTP. Please try again." := by
  have e1 : (env.withFault Call.delete deleteOutcome).fault Call.findByEmail = none := by
    simp [Env.withFault, hfind1]
  have e2 : (env.withFault Call.delete deleteOutcome).fault Call.findByRollNumber = none := by
    simp [Env.withFault, hfind2]
  have e3 : (env.withFault Call.delete deleteOutcome).fault Call.create = none := by
    simp [Env.withFault, hcreate]
  rw [register_reaches_issue env st fullName email rollNumber password mobileNumber countryCode
      hfullName hemail hrollNumber hpassword hmobileNumber hfind1 hfind2 hcreate hnoEmail hnoRoll
      hfresh,
    register_reaches_issue (env.withFault Call.delete deleteOutcome) st fullName email rollNumber
      password mobileNumber countryCode hfullName hemail hrollNumber hpassword hmobileNumber
      e1 e2 e3 hnoEmail hnoRoll hfresh,
    registerIssue_failure_resp env _ _ _ _ _ _ hissue,
    registerIssue_failure_resp (env.withFault Call.delete deleteOutcome) _ _ _ _ _ _ hissue]
  refine ⟨rfl, rfl, ?_⟩
  simp [json, JVal.get, JVal.isUndefined, List.lookup]

/-- Witness of C25: the issue call times out; the response with a failing
delete equals the response with a delete that succeeds. -/
theorem register_delivery_error_regardless_of_delete_witness :
    (sendOTP issueFailsEnv "9000000001" (otpCountryCode none) "SMS").success = false ∧
    (register (issueFailsEnv.withFault Call.delete (some "Connection lost")) emptyState
        sampleRegisterReq).resp
      = (register issueFailsEnv emptyState sampleRegisterReq).resp ∧
    (register issueFailsEnv emptyState sampleRegisterReq).resp.status = 500 :=
  have h := register_delivery_error_regardless_of_delete issueFailsEnv emptyState "Asha"
    "a@x.com" "R1" "pw" "9000000001" none (some "Connection lost") (by decide) (by decide)
    (by decide) (by decide) (by decide) rfl rfl rfl rfl rfl rfl (Or.inl rfl)
  ⟨rfl, h.1, h.2.1⟩

/-! ### What the responses show of the provider payload -/

theorem validateOTP_of_verdict (env : Env) (post get : String → JVal → AxiosOutcome)
    (hverdict : ∀ url config, (get url config).verdict = (env.axiosGet url config).verdict)
    (mobileNumber : String) (verificationId : JVal) (code countryCode : String) :
    (validateOTP (env.withProvider post get) mobileNumber verificationId code countryCode).success
      = (validateOTP env mobileNumber verificationId code countryCode).success ∧
    (validateOTP (env.withProvider post get) mobileNumber verificationId code countryCode).isValid
      = (validateOTP env mobileNumber verificationId code countryCode).isValid ∧
    (validateOTP (env.withProvider post get) mobileNumber verificationId code countryCode).message
      = (validateOTP env mobileNumber verificationId code countryCode).message := by
  have h := hverdict (MESSAGE_CENTRAL_BASE_URL ++ "/validateOtp")
    (validateRequestConfig env mobileNumber verificationId code countryCode)
  unfold validateOTP
  have hcfg : validateRequestConfig (env.withProvider post get) mobileNumber verificationId code
      countryCode = validateRequestConfig env mobileNumber verificationId code countryCode := rfl
  have hget : (env.withProvider post get).axiosGet = get := rfl
  simp only [hcfg, hget]
  cases h1 : get (MESSAGE_CENTRAL_BASE_URL ++ "/validateOtp")
      (validateRequestConfig env mobileNumber verificationId code countryCode) <;>
    cases h2 : env.axiosGet (MESSAGE_CENTRAL_BASE_URL ++ "/validateOtp")
      (validateRequestConfig env mobileNumber verificationId code countryCode) <;>
    simp [h1, h2, AxiosOutcome.verdict] at h ⊢
  exact h

/-- The response and the state of verify-otp depend on the provider only
through the verdict of the validate call. -/
theorem verifyOtp_of_verdict (env : Env) (post get : String → JVal → AxiosOutcome)
    (hverdict : ∀ url config, (get url config).verdict = (env.axiosGet url config).verdict)
    (st : State) (req : VerifyReq) :
    verifyOtp (env.withProvider post get) st req = verifyOtp env st req := by
  have hfault : (env.withProvider post get).fault = env.fault := rfl
  have hread : (env.withProvider post get).redisReadBack = env.redisReadBack := rfl
  have hcfg : ∀ m v c cc, validateRequestConfig (env.withProvider post get) m v c cc
      = validateRequestConfig env m v c cc := fun _ _ _ _ => rfl
  have hs := fun m v c cc => (validateOTP_of_verdict env post get hverdict m v c cc).1
  have hi := fun m v c cc => (validateOTP_of_verdict env post get hverdict m v c cc).2.1
  have hm := fun m v c cc => (validateOTP_of_verdict env post get hverdict m v c cc).2.2
  unfold verifyOtp prismaFindByEmail redisGet redisDel prismaUpdateVerified
  simp only [hfault, hread, hcfg, hs, hi, hm]

/-- The response of a registration that answers success, in closed form. -/
theorem register_success_resp (env : Env) (st : State) (req : RegisterReq)
    (h : (register env st req).resp.status = 201) :
    (register env st req).resp
      = ⟨201, json [("success", .bool true),
          ("message", .str "Registration successful. Please verify your email with OTP."),
          ("data", selectCreated (createdRow env (registerData env (req.fullName.getD "")
            (req.email.getD "") (req.rollNumber.getD "") (req.password.getD "")
            (req.mobileNumber.getD ""))))]⟩ := by
  obtain ⟨fullName, email, rollNumber, password, mobileNumber, hr, h1, h2, h3, h4, h5, hf1, hf2,
    hfc, hne, hnr, hid, hs, hv⟩ := register_success_inv env st req h
  generalize req.countryCode = cc at hr hs hv
  subst hr
  rw [register_reaches_issue env st fullName email rollNumber password mobileNumber cc
    h1 h2 h3 h4 h5 hf1 hf2 hfc hne hnr hid,
    registerIssue_success_resp _ _ _ _ _ _ _ hs hv]
  rfl

theorem JVal.or_str_isUndefined (a : JVal) (s : String) :
    (a.or (.str s)).isUndefined = false := by
  unfold JVal.or
  split
  · rename_i h
    cases a <;> simp [JVal.truthy, JVal.isUndefined] at h ⊢
  · rfl

theorem json_get_details (a : Bool) (b : String) (c d : JVal) (hd : d.isUndefined = false) :
    (json [("success", .bool a), ("message", .str b), ("error", c), ("details", d)]).get
      "details" = d := by
  have e1 : (JVal.bool a).isUndefined = false := rfl
  have e2 : (JVal.str b).isUndefined = false := rfl
  unfold json
  cases hc : c.isUndefined <;>
    simp [List.filter, e1, e2, hc, hd, JVal.get, List.lookup]

/-- C21 (as amended): the responses of login and verify-otp and the success
response of register show nothing of the provider payload: login does not
depend on the provider at all, verify-otp depends on it only through the
verdict of the validate call, and two successful registrations in worlds that
differ only in the provider get the same response. The delivery error of
register does carry provider content: when the issue call is rejected, its
`details` field is the error body of the provider, or the error message of
the transport when there is no body. -/
theorem provider_payload_in_responses (env : Env) (st : State)
    (post get : String → JVal → AxiosOutcome) :
    (∀ req, login (env.withProvider post get) st req = login env st req) ∧
    (∀ req, (∀ url config, (get url config).verdict = (env.axiosGet url config).verdict) →
      (verifyOtp (env.withProvider post get) st req).resp = (verifyOtp env st req).resp) ∧
    (∀ req, (register env st req).resp.status = 201 →
      (register (env.withProvider post get) st req).resp.status = 201 →
      (register (env.withProvider post get) st req).resp = (register env st req).resp) ∧
    (∀ fullName email rollNumber password mobileNumber countryCode message response,
      fullName ≠ "" → email ≠ "" → rollNumber ≠ "" → password ≠ "" → mobileNumber ≠ "" →
      env.fault Call.findByEmail = none → env.fault Call.findByRollNumber = none →
      env.fault Call.create = none → findByEmail st.students email = none →
      findByRollNumber st.students rollNumber = none → findById st.students env.newId = none →
      env.axiosPost (MESSAGE_CENTRAL_BASE_URL ++ "/send")
          (sendRequestConfig env mobileNumber (otpCountryCode countryCode) "SMS")
        = .error message response →
      (register env st ⟨some fullName, some email, some rollNumber, some password,
          some mobileNumber, countryCode⟩).resp.body.get "details"
        = (errorResponseData response).or (.str message)) := by
  refine ⟨fun _ => rfl, ?_, ?_, ?_⟩
  · intro req hverdict
    rw [verifyOtp_of_verdict env post get hverdict st req]
  · intro req h1 h2
    rw [register_success_resp env st req h1,
      register_success_resp (env.withProvider post get) st req h2]
    rfl
  · intro fullName email rollNumber password mobileNumber countryCode message response
      h1 h2 h3 h4 h5 hf1 hf2 hfc hne hnr hid hpost
    have hsend : sendOTP env mobileNumber (otpCountryCode countryCode) "SMS"
        = { success := false, data := .undefined, verificationId := .undefined,
            error := (errorResponseData response).or (.str message),
            message := .str "Failed to send OTP via Message Central",
            statusCode := errorResponseStatus response } := by
      unfold sendOTP
      simp only [hpost]
    rw [register_reaches_issue env st fullName email rollNumber password mobileNumber countryCode
      h1 h2 h3 h4 h5 hf1 hf2 hfc hne hnr hid,
      registerIssue_failure_resp env _ _ _ _ _ _ (Or.inl (by rw [hsend]))]
    rw [hsend]
    exact json_get_details _ _ _ _ (JVal.or_str_isUndefined _ _)

/-- Witness of C21: the provider refuses the issue call and its error body is
in the response. -/
theorem provider_payload_in_responses_witness :
    (refusingEnv "quota exceeded for customer C-1").axiosPost
        (MESSAGE_CENTRAL_BASE_URL ++ "/send")
        (sendRequestConfig (refusingEnv "quota exceeded for customer C-1") "9000000001"
          (otpCountryCode none) "SMS")
      = .error "Request failed with status code 400"
          (some (400, .obj [("responseCode", .num 506),
            ("message", .str "quota exceeded for customer C-1")])) ∧
    (register (refusingEnv "quota exceeded for customer C-1") emptyState
        sampleRegisterReq).resp.body.get "details"
      = .obj [("responseCode", .num 506), ("message", .str "quota exceeded for customer C-1")] :=
  ⟨rfl,
   (provider_payload_in_responses (refusingEnv "quota exceeded for customer C-1") emptyState
      (fun _ _ => .error "" none) (fun _ _ => .error "" none)).2.2.2 "Asha" "a@x.com" "R1" "pw"
      "9000000001" none "Request failed with status code 400"
      (some (400, .obj [("responseCode", .num 506),
        ("message", .str "quota exceeded for customer C-1")]))
      (by decide) (by decide) (by decide) (by decide) (by decide) rfl rfl rfl rfl rfl rfl rfl⟩

/-- Counterexample to C21 as stated: two provider error bodies with the same
normalised outcome (not issued) give two different responses of register,
each carrying the text of its body. -/
theorem register_response_shows_provider_error :
    (sendOTP (refusingEnv "quota exceeded for customer C-1") "9000000001" (otpCountryCode none)
      "SMS").success = false ∧
    (sendOTP (refusingEnv "unknown number") "9000000001" (otpCountryCode none) "SMS").success
      = false ∧
    ((register (refusingEnv "quota exceeded for customer C-1") emptyState
        sampleRegisterReq).resp.body.get "details").get "message"
      = .str "quota exceeded for customer C-1" ∧
    (register (refusingEnv "quota exceeded for customer C-1") emptyState sampleRegisterReq).resp
      ≠ (register (refusingEnv "unknown number") emptyState sampleRegisterReq).resp := by
  refine ⟨rfl, rfl, rfl, ?_⟩
  intro h
  have h2 : JVal.str "quota exceeded for customer C-1" = JVal.str "unknown number" :=
    congrArg (fun r => (r.body.get "details").get "message") h
  simp at h2

/-! ### What verify-otp sends to the provider -/

/-- A validate call in the trace of verify-otp was made with the mobile number
of the account of the email and the value stored under the key of the email. -/
theorem verifyOtp_axiosGet_inv (env : Env) (st : State) (req : VerifyReq) (url : String)
    (config : JVal) (h : Event.axiosGet url config ∈ (verifyOtp env st req).trace) :
    ∃ email otp student mobileNumber entry,
      req = ⟨some email, some otp, req.countryCode⟩ ∧
      findByEmail st.students email = some student ∧
      student.mobileNumber = some mobileNumber ∧
      st.redis.lookup (verificationKey email) = some entry ∧
      url = MESSAGE_CENTRAL_BASE_URL ++ "/validateOtp" ∧
      config = validateRequestConfig env mobileNumber (env.redisReadBack entry.value) otp
        (otpCountryCode req.countryCode) ∧
      Event.redisGet (verificationKey email) ∈ (verifyOtp env st req).trace := by
  obtain ⟨oe, oo, cc⟩ := req
  rcases oe with _ | email
  · simp [verifyOtp, jsNot] at h
  rcases oo with _ | otp
  · simp [verifyOtp, jsNot] at h
  by_cases hemail : email = ""
  · simp [verifyOtp, jsNot, hemail] at h
  by_cases hotp : otp = ""
  · simp [verifyOtp, jsNot, hotp] at h
  have hv : (jsNot (some email) || jsNot (some otp)) = false := by
    simp [jsNot, hemail, hotp]
  by_cases hcode : WellFormedCode otp
  swap
  · have hc : (decide (jsLength otp < 4) || decide (jsLength otp > 6) || !digitsOnly otp)
        = true := by
      cases hb : (decide (jsLength otp < 4) || decide (jsLength otp > 6) || !digitsOnly otp)
      · exact absurd ((codeCheck_iff otp).1 hb) hcode
      · rfl
    unfold verifyOtp at h
    simp only [hv, Bool.false_eq_true, if_false, Option.getD_some, hc, if_true] at h
    simp at h
  have hc := (codeCheck_iff otp).2 hcode
  refine ⟨email, otp, ?_⟩
  cases hfind : env.fault Call.findByEmail with
  | some m =>
    unfold verifyOtp at h
    simp [hv, hc, prismaFindByEmail, hfind, verifyCatch] at h
  | none =>
  cases hsome : findByEmail st.students email with
  | none =>
    rw [verifyOtp_not_found env st email otp cc hemail hotp hcode hfind hsome] at h
    simp at h
  | some student =>
  cases hverified : student.emailVerified with
  | true =>
    rw [verifyOtp_already_verified env st email otp cc student hemail hotp hcode hfind hsome
      hverified] at h
    simp at h
  | false =>
  cases hjs : jsNot student.mobileNumber with
  | true =>
    rw [verifyOtp_no_mobile env st email otp cc student hemail hotp hcode hfind hsome
      hverified hjs] at h
    simp at h
  | false =>
  obtain ⟨mobileNumber, hmobile, hmobile2⟩ :
      ∃ m, student.mobileNumber = some m ∧ m ≠ "" := by
    cases hm : student.mobileNumber with
    | none => simp [hm, jsNot] at hjs
    | some m => exact ⟨m, rfl, by simpa [hm, jsNot] using hjs⟩
  cases hget : env.fault Call.redisGet with
  | some m =>
    unfold verifyOtp at h
    simp [hv, hc, prismaFindByEmail, hfind, hsome, hverified, hjs, redisGet, hget,
      verifyCatch] at h
  | none =>
  cases hentry : st.redis.lookup (verificationKey email) with
  | none =>
    rw [verifyOtp_no_session env st email otp cc student hemail hotp hcode hfind hsome
      hverified hjs hget hentry] at h
    simp at h
  | some entry =>
  cases hlive : (env.redisReadBack entry.value).truthy with
  | false =>
    unfold verifyOtp at h
    simp [hv, hc, prismaFindByEmail, hfind, hsome, hverified, hjs, redisGet, hget, hentry,
      hlive] at h
  | true =>
  refine ⟨student, mobileNumber, entry, rfl, rfl, hmobile, rfl, ?_⟩
  rw [verifyOtp_reaches_provider env st email otp cc student mobileNumber entry hemail
    hotp hcode hfind hsome hverified hmobile hmobile2 hget hentry hlive] at h ⊢
  show url = MESSAGE_CENTRAL_BASE_URL ++ "/validateOtp" ∧
    config = validateRequestConfig env mobileNumber (env.redisReadBack entry.value) otp
        (otpCountryCode cc) ∧ _
  unfold verifyCatch at h ⊢
  repeat' split at h
  all_goals simp at h
  all_goals
    refine ⟨h.1, h.2, ?_⟩
    repeat' split
    all_goals simp

/-! ### The states a registration can end in -/

theorem registerCatch_state_of_none (env : Env) (st : State) (error : JsError)
    (trace : List Event) (h : error.studentId = none) :
    (registerCatch env st error trace).state = st := by
  unfold registerCatch
  simp only [h]

/-- A registration leaves the state as it was, or ends with the created
account appended, or with the created account appended and its session
reference under the key of the email. -/
theorem register_state_shapes (env : Env) (st : State) (req : RegisterReq) :
    (register env st req).state = st ∨
    ∃ fullName email rollNumber password mobileNumber,
      req = ⟨some fullName, some email, some rollNumber, some password, some mobileNumber,
        req.countryCode⟩ ∧
      findByEmail st.students email = none ∧
      findByRollNumber st.students rollNumber = none ∧
      findById st.students env.newId = none ∧
      ((register env st req).state
          = { st with students := st.students ++
                [createdRow env (registerData env fullName email rollNumber password
                  mobileNumber)] } ∨
        ((sendOTP env mobileNumber (otpCountryCode req.countryCode) "SMS").verificationId.truthy
            = true ∧
          (register env st req).state
            = { students := st.students ++
                  [createdRow env (registerData env fullName email rollNumber password
                    mobileNumber)],
                redis := (verificationKey email,
                    ⟨(sendOTP env mobileNumber (otpCountryCode req.countryCode)
                      "SMS").verificationId, 600⟩) ::
                  st.redis.filter fun p => !(p.1 == verificationKey email),
                admins := st.admins })) := by
  obtain ⟨ofn, oe, orn, op, om, cc⟩ := req
  rcases ofn with _ | fullName
  · left; simp [register, jsNot]
  rcases oe with _ | email
  · left; simp [register, jsNot]
  rcases orn with _ | rollNumber
  · left; simp [register, jsNot]
  rcases op with _ | password
  · left; simp [register, jsNot]
  rcases om with _ | mobileNumber
  · left
    simp only [register, jsNot]
    split <;> simp
  by_cases h1 : fullName = ""
  · left; simp [register, jsNot, h1]
  by_cases h2 : email = ""
  · left; simp [register, jsNot, h2]
  by_cases h3 : rollNumber = ""
  · left; simp [register, jsNot, h3]
  by_cases h4 : password = ""
  · left; simp [register, jsNot, h4]
  by_cases h5 : mobileNumber = ""
  · left; simp [register, jsNot, h1, h2, h3, h4, h5]
  have hv : (jsNot (some fullName) || jsNot (some email) || jsNot (some rollNumber)
      || jsNot (some password)) = false := by
    simp [jsNot, h1, h2, h3, h4]
  have hm : jsNot (some mobileNumber) = false := by simp [jsNot, h5]
  cases hf1 : env.fault Call.findByEmail with
  | some m =>
    left
    unfold register
    simp only [hv, hm, Bool.false_eq_true, if_false, Option.getD_some, prismaFindByEmail, hf1]
    exact registerCatch_state_of_none _ _ _ _ rfl
  | none =>
  cases hfe : findByEmail st.students email with
  | some s =>
    left
    unfold register
    simp only [hv, hm, Bool.false_eq_true, if_false, Option.getD_some, prismaFindByEmail, hf1,
      hfe]
  | none =>
  cases hf2 : env.fault Call.findByRollNumber with
  | some m =>
    left
    unfold register
    simp only [hv, hm, Bool.false_eq_true, if_false, Option.getD_some, prismaFindByEmail, hf1,
      hfe, prismaFindByRollNumber, hf2]
    exact registerCatch_state_of_none _ _ _ _ rfl
  | none =>
  cases hfr : findByRollNumber st.students rollNumber with
  | some s =>
    left
    unfold register
    simp only [hv, hm, Bool.false_eq_true, if_false, Option.getD_some, prismaFindByEmail, hf1,
      hfe, prismaFindByRollNumber, hf2, hfr]
  | none =>
  cases hc : prismaCreate env st
      (registerData env fullName email rollNumber password mobileNumber) with
  | error e =>
    left
    unfold register
    simp only [hv, hm, Bool.false_eq_true, if_false, Option.getD_some, prismaFindByEmail, hf1,
      hfe, prismaFindByRollNumber, hf2, hfr, hc]
    exact registerCatch_state_of_none _ _ _ _ (prismaCreate_error_studentId hc)
  | ok p =>
    obtain ⟨st1, student⟩ := p
    obtain ⟨hcf, hid, _, _⟩ := prismaCreate_inv hc
    rw [register_reaches_issue env st fullName email rollNumber password mobileNumber cc
      h1 h2 h3 h4 h5 hf1 hf2 hcf hfe hfr hid]
    unfold registerIssue
    dsimp only
    split
    · cases hd : env.fault Call.delete with
      | none =>
        left
        rw [prismaDelete_created env st _ hd hid]
      | some m =>
        right
        refine ⟨fullName, email, rollNumber, password, mobileNumber, rfl, hfe, hfr, hid,
          Or.inl ?_⟩
        simp [prismaDelete, hd]
    · rename_i hcond
      have hv2 : (sendOTP env mobileNumber (otpCountryCode cc) "SMS").verificationId.truthy
          = true := by
        simp only [Bool.or_eq_true, Bool.not_eq_true', not_or, Bool.not_eq_false] at hcond
        exact hcond.2
      right
      refine ⟨fullName, email, rollNumber, password, mobileNumber, rfl, hfe, hfr, hid, ?_⟩
      cases hr : env.fault Call.redisSet with
      | some m =>
        left
        simp [redisSet, hr]
      | none =>
        right
        exact ⟨hv2, by simp [redisSet, hr]⟩

/-- A registration that answers success has written, under the key of its
email, the reference the provider client returned. -/
theorem register_success_redisSet_mem (env : Env) (st : State) (req : RegisterReq)
    (email : String) (hemail : req.email = some email)
    (h : (register env st req).resp.status = 201) :
    ∃ ref, Event.redisSet (verificationKey email) ref 600 ∈ (register env st req).trace := by
  obtain ⟨fullName, email2, rollNumber, password, mobileNumber, hr, h1, h2, h3, h4, h5, hf1,
    hf2, hfc, hne, hnr, hid, hs, hv⟩ := register_success_inv env st req h
  generalize req.countryCode = cc at hr hs hv
  subst hr
  cases hemail
  refine ⟨(sendOTP env mobileNumber (otpCountryCode cc) "SMS").verificationId, ?_⟩
  rw [register_reaches_issue env st fullName email rollNumber password mobileNumber cc
    h1 h2 h3 h4 h5 hf1 hf2 hfc hne hnr hid]
  unfold registerIssue
  simp only [hs, hv, Bool.not_true, Bool.or_self, Bool.false_eq_true, if_false]
  split <;> simp

/-- A validate call that succeeded with a valid verdict: the provider answered
this request with a 2xx body that carries a validity signal. -/
theorem validateOTP_valid_inv (env : Env) (mobileNumber : String) (verificationId : JVal)
    (code countryCode : String)
    (hok : (validateOTP env mobileNumber verificationId code countryCode).success = true)
    (hvalid : (validateOTP env mobileNumber verificationId code countryCode).isValid = true) :
    ∃ status data,
      env.axiosGet (MESSAGE_CENTRAL_BASE_URL ++ "/validateOtp")
          (validateRequestConfig env mobileNumber verificationId code countryCode)
        = .response status data ∧
      isValidSignal data = true := by
  unfold validateOTP at hok hvalid
  dsimp only at hok hvalid
  cases hres : env.axiosGet (MESSAGE_CENTRAL_BASE_URL ++ "/validateOtp")
      (validateRequestConfig env mobileNumber verificationId code countryCode) with
  | response status data =>
    rw [hres] at hvalid
    exact ⟨status, data, rfl, hvalid⟩
  | error message response =>
    rw [hres] at hok
    simp at hok

/-- The validate call of a world with another provider that answers the
request of the call alike. -/
theorem validateOTP_congr (env : Env) (get : String → JVal → AxiosOutcome)
    (mobileNumber : String) (verificationId : JVal) (code countryCode : String)
    (hagree : get (MESSAGE_CENTRAL_BASE_URL ++ "/validateOtp")
        (validateRequestConfig env mobileNumber verificationId code countryCode)
      = env.axiosGet (MESSAGE_CENTRAL_BASE_URL ++ "/validateOtp")
        (validateRequestConfig env mobileNumber verificationId code countryCode)) :
    validateOTP (env.withProvider env.axiosPost get) mobileNumber verificationId code countryCode
      = validateOTP env mobileNumber verificationId code countryCode := by
  unfold validateOTP
  have hcfg : validateRequestConfig (env.withProvider env.axiosPost get) mobileNumber
      verificationId code countryCode
      = validateRequestConfig env mobileNumber verificationId code countryCode := rfl
  have hget : (env.withProvider env.axiosPost get).axiosGet = get := rfl
  simp only [hcfg, hget, hagree]

/-- The result of verify-otp depends on the provider only through its answer
to one request: the validate call for the number on the account of the email,
the value read back from the entry under the key of the email, and the code
and dialling code of the request. -/
theorem verifyOtp_provider_congr (env : Env) (get : String → JVal → AxiosOutcome) (st : State)
    (req : VerifyReq)
    (hagree : ∀ email otp student mobileNumber entry,
      req.email = some email → req.otp = some otp →
      findByEmail st.students email = some student →
      student.mobileNumber = some mobileNumber →
      st.redis.lookup (verificationKey email) = some entry →
      get (MESSAGE_CENTRAL_BASE_URL ++ "/validateOtp")
          (validateRequestConfig env mobileNumber (env.redisReadBack entry.value) otp
            (otpCountryCode req.countryCode))
        = env.axiosGet (MESSAGE_CENTRAL_BASE_URL ++ "/validateOtp")
          (validateRequestConfig env mobileNumber (env.redisReadBack entry.value) otp
            (otpCountryCode req.countryCode))) :
    verifyOtp (env.withProvider env.axiosPost get) st req = verifyOtp env st req := by
  obtain ⟨oe, oo, cc⟩ := req
  rcases oe with _ | email
  · simp [verifyOtp, jsNot]
  rcases oo with _ | otp
  · simp [verifyOtp, jsNot]
  by_cases hemail : email = ""
  · simp [verifyOtp, jsNot, hemail]
  by_cases hotp : otp = ""
  · simp [verifyOtp, jsNot, hotp]
  have hv : (jsNot (some email) || jsNot (some otp)) = false := by
    simp [jsNot, hemail, hotp]
  by_cases hcode : WellFormedCode otp
  swap
  · have hc : (decide (jsLength otp < 4) || decide (jsLength otp > 6) || !digitsOnly otp)
        = true := by
      cases hb : (decide (jsLength otp < 4) || decide (jsLength otp > 6) || !digitsOnly otp)
      · exact absurd ((codeCheck_iff otp).1 hb) hcode
      · rfl
    unfold verifyOtp
    simp only [hv, Bool.false_eq_true, if_false, Option.getD_some, hc, if_true]
  have hc := (codeCheck_iff otp).2 hcode
  have hfault : (env.withProvider env.axiosPost get).fault = env.fault := rfl
  cases hfind : env.fault Call.findByEmail with
  | some m =>
    unfold verifyOtp
    simp [hv, hc, prismaFindByEmail, hfault, hfind, verifyCatch]
  | none =>
  have hfind1 : (env.withProvider env.axiosPost get).fault Call.findByEmail = none := hfind
  cases hsome : findByEmail st.students email with
  | none =>
    rw [verifyOtp_not_found env st email otp cc hemail hotp hcode hfind hsome,
      verifyOtp_not_found _ st email otp cc hemail hotp hcode hfind1 hsome]
  | some student =>
  cases hverified : student.emailVerified with
  | true =>
    rw [verifyOtp_already_verified env st email otp cc student hemail hotp hcode hfind hsome
      hverified,
      verifyOtp_already_verified _ st email otp cc student hemail hotp hcode hfind1 hsome
      hverified]
  | false =>
  cases hjs : jsNot student.mobileNumber with
  | true =>
    rw [verifyOtp_no_mobile env st email otp cc student hemail hotp hcode hfind hsome
      hverified hjs,
      verifyOtp_no_mobile _ st email otp cc student hemail hotp hcode hfind1 hsome
      hverified hjs]
  | false =>
  obtain ⟨mobileNumber, hmobile, hmobile2⟩ :
      ∃ m, student.mobileNumber = some m ∧ m ≠ "" := by
    cases hm : student.mobileNumber with
    | none => simp [hm, jsNot] at hjs
    | some m => exact ⟨m, rfl, by simpa [hm, jsNot] using hjs⟩
  cases hget : env.fault Call.redisGet with
  | some m =>
    unfold verifyOtp
    simp [hv, hc, prismaFindByEmail, hfault, hfind, hsome, hverified, hjs, redisGet, hget,
      verifyCatch]
  | none =>
  have hget1 : (env.withProvider env.axiosPost get).fault Call.redisGet = none := hget
  cases hentry : st.redis.lookup (verificationKey email) with
  | none =>
    rw [verifyOtp_no_session env st email otp cc student hemail hotp hcode hfind hsome
      hverified hjs hget hentry,
      verifyOtp_no_session _ st email otp cc student hemail hotp hcode hfind1 hsome
      hverified hjs hget1 hentry]
  | some entry =>
  cases hlive : (env.redisReadBack entry.value).truthy with
  | false =>
    rw [verifyOtp_falsy_session env st email otp cc student entry hemail hotp hcode hfind hsome
      hverified hjs hget hentry hlive,
      verifyOtp_falsy_session _ st email otp cc student entry hemail hotp hcode hfind1 hsome
      hverified hjs hget1 hentry hlive]
  | true =>
  have hval := validateOTP_congr env get mobileNumber (env.redisReadBack entry.value) otp
    (otpCountryCode cc) (hagree email otp student mobileNumber entry rfl rfl hsome hmobile hentry)
  rw [verifyOtp_reaches_provider env st email otp cc student mobileNumber entry hemail
    hotp hcode hfind hsome hverified hmobile hmobile2 hget hentry hlive,
    verifyOtp_reaches_provider (env.withProvider env.axiosPost get) st email otp cc student
    mobileNumber entry hemail hotp hcode hfind1 hsome hverified hmobile hmobile2 hget1 hentry
    hlive]
  rw [show (env.withProvider env.axiosPost get).redisReadBack = env.redisReadBack from rfl, hval]
  rfl

/-- A registration that answers success, in a world whose ephemeral store
accepts the write, leaves an entry under the key of its email. -/
theorem register_success_session_key (env : Env) (st : State) (req : RegisterReq)
    (email : String) (hemail : req.email = some email)
    (h : (register env st req).resp.status = 201) (hset : env.fault Call.redisSet = none) :
    ∃ ref, (register env st req).state.redis.lookup ("verification:" ++ email)
      = some ⟨ref, 600⟩ := by
  obtain ⟨fullName, email2, rollNumber, password, mobileNumber, hr, h1, h2, h3, h4, h5, hf1,
    hf2, hfc, hne, hnr, hid, hs, hv⟩ := register_success_inv env st req h
  generalize req.countryCode = cc at hr hs hv
  subst hr
  cases hemail
  refine ⟨(sendOTP env mobileNumber (otpCountryCode cc) "SMS").verificationId, ?_⟩
  rw [register_reaches_issue env st fullName email rollNumber password mobileNumber cc
    h1 h2 h3 h4 h5 hf1 hf2 hfc hne hnr hid]
  unfold registerIssue
  simp [hs, hv, redisSet, hset, List.lookup, verificationKey]

/-- C27: the provider sees of a verify-otp request one validate call only, and
that call carries, as verificationId, the value read back from the entry of
the ephemeral store under the key `"verification:"` followed by the email of
the request, as mobile number the number on the account of that email, and
from the request the code and the dialling code only. Stated on the provider
itself: a provider that answers this one request as the provider of the world
does gives the same result, whatever it answers to any other request; and
verify-otp answers success only if the provider answered this very request
with a body that carries a validity signal. The key read is the key a
successful registration with this email leaves its entry under. -/
theorem verifyOtp_validates_stored_reference (env : Env) (st : State) (req : VerifyReq) :
    (∀ get : String → JVal → AxiosOutcome,
      (∀ email otp student mobileNumber entry,
        req.email = some email → req.otp = some otp →
        findByEmail st.students email = some student →
        student.mobileNumber = some mobileNumber →
        st.redis.lookup ("verification:" ++ email) = some entry →
        get (MESSAGE_CENTRAL_BASE_URL ++ "/validateOtp")
            (JVal.obj [("params", JVal.obj [
                ("countryCode", .str (otpCountryCode req.countryCode)),
                ("mobileNumber", .str mobileNumber),
                ("verificationId", env.redisReadBack entry.value),
                ("customerId", .str env.customerId),
                ("code", .str otp)]),
              ("headers", JVal.obj [("authToken", .str env.authToken)])])
          = env.axiosGet (MESSAGE_CENTRAL_BASE_URL ++ "/validateOtp")
            (JVal.obj [("params", JVal.obj [
                ("countryCode", .str (otpCountryCode req.countryCode)),
                ("mobileNumber", .str mobileNumber),
                ("verificationId", env.redisReadBack entry.value),
                ("customerId", .str env.customerId),
                ("code", .str otp)]),
              ("headers", JVal.obj [("authToken", .str env.authToken)])])) →
      verifyOtp (env.withProvider env.axiosPost get) st req = verifyOtp env st req) ∧
    ((verifyOtp env st req).resp.status = 200 →
      ∃ email otp student mobileNumber entry status data,
        req.email = some email ∧ req.otp = some otp ∧
        findByEmail st.students email = some student ∧
        student.mobileNumber = some mobileNumber ∧
        st.redis.lookup ("verification:" ++ email) = some entry ∧
        env.axiosGet (MESSAGE_CENTRAL_BASE_URL ++ "/validateOtp")
            (JVal.obj [("params", JVal.obj [
                ("countryCode", .str (otpCountryCode req.countryCode)),
                ("mobileNumber", .str mobileNumber),
                ("verificationId", env.redisReadBack entry.value),
                ("customerId", .str env.customerId),
                ("code", .str otp)]),
              ("headers", JVal.obj [("authToken", .str env.authToken)])])
          = .response status data ∧
        isValidSignal data = true) ∧
    (∀ email env0 st0 req0, req0.email = some email →
      (register env0 st0 req0).resp.status = 201 → env0.fault Call.redisSet = none →
      ∃ ref, (register env0 st0 req0).state.redis.lookup ("verification:" ++ email)
        = some ⟨ref, 600⟩) := by
  refine ⟨?_, ?_, ?_⟩
  · intro get hagree
    exact verifyOtp_provider_congr env get st req hagree
  · intro h200
    obtain ⟨email, otp, student, mobileNumber, entry, hreq, _, _, _, _, hsome, _, hmobile, _, _,
      hentry, _, hok, hvalid, _, _⟩ := verifyOtp_success_inv env st req h200
    obtain ⟨status, data, hresp, hsignal⟩ := validateOTP_valid_inv env mobileNumber
      (env.redisReadBack entry.value) otp (otpCountryCode req.countryCode) hok hvalid
    refine ⟨email, otp, student, mobileNumber, entry, status, data, ?_, ?_, hsome, hmobile,
      hentry, hresp, hsignal⟩
    · rw [hreq]
    · rw [hreq]
  · intro email env0 st0 req0 hemail0 h201 hset
    exact register_success_session_key env0 st0 req0 email hemail0 h201 hset

/-- Witness of C27: for the live session of the sample store, a provider that
confirms the validate call with the stored reference, the number of the
account and the submitted code, and fails every other call, gives the result
of the sample provider: success. -/
theorem verifyOtp_validates_stored_reference_witness :
    pickyValidate "https://elsewhere.example" JVal.null = .error "Network Error" none ∧
    verifyOtp (sampleEnv.withProvider sampleEnv.axiosPost pickyValidate) sessionState
        ⟨some "a@x.com", some "1234", none⟩
      = verifyOtp sampleEnv sessionState ⟨some "a@x.com", some "1234", none⟩ ∧
    (verifyOtp sampleEnv sessionState ⟨some "a@x.com", some "1234", none⟩).resp.status = 200 :=
  ⟨rfl,
   (verifyOtp_validates_stored_reference sampleEnv sessionState
      ⟨some "a@x.com", some "1234", none⟩).1 pickyValidate (by
        intro email otp student mobileNumber entry he ho hs hm hentry
        cases he
        cases ho
        have hst : sampleStudent false Status.PENDING_ADMIN_APPROVAL = student :=
          Option.some.inj ((by decide :
            findByEmail sessionState.students "a@x.com"
              = some (sampleStudent false Status.PENDING_ADMIN_APPROVAL)).symm.trans hs)
        subst hst
        cases hm
        have hen : (⟨.str "v-1", 600⟩ : RedisEntry) = entry :=
          Option.some.inj ((rfl : sessionState.redis.lookup ("verification:" ++ "a@x.com")
            = some ⟨.str "v-1", 600⟩).symm.trans hentry)
        subst hen
        rfl),
   by decide⟩

/-- The sample client reads the reference `0` back as the number zero, which is
falsy: verify-otp answers challenge-expired without asking the provider,
although an entry is under the key. -/
theorem verifyOtp_zero_reference_expired :
    zeroSessionState.redis.lookup (verificationKey "a@x.com") = some ⟨.str "0", 600⟩ ∧
    (sampleEnv.redisReadBack (.str "0")).truthy = false ∧
    verifyOtp sampleEnv zeroSessionState ⟨some "a@x.com", some "1234", none⟩
      = ⟨zeroSessionState, ⟨400, json [("success", .bool false),
            ("message", .str "OTP has expired or is invalid. Please register again.")]⟩,
          [.dbFindByEmail "a@x.com", .redisGet (verificationKey "a@x.com")]⟩ :=
  ⟨rfl, rfl, rfl⟩

/-- The sample client reads a reference that is a string of digits back as a
number, and the number is what the validate call carries. -/
theorem verifyOtp_numeric_reference_sent_as_number :
    numericSessionState.redis.lookup (verificationKey "a@x.com") = some ⟨.str "2949", 600⟩ ∧
    (verifyOtp sampleEnv numericSessionState ⟨some "a@x.com", some "1234", none⟩).trace
      = [.dbFindByEmail "a@x.com", .redisGet (verificationKey "a@x.com"),
         .axiosGet (MESSAGE_CENTRAL_BASE_URL ++ "/validateOtp")
           (validateRequestConfig sampleEnv "9000000001" (.num 2949) "1234" "91"),
         .redisDel (verificationKey "a@x.com"), .dbUpdate "a@x.com"] :=
  ⟨rfl, rfl⟩

/-! ### The states a code validation can end in -/

/-- A code validation leaves the state as it was, or (only when a live session
was under the key of the email) ends with that entry removed, or with that
entry removed and the accounts of the email marked verified. -/
theorem verifyOtp_state_shapes (env : Env) (st : State) (req : VerifyReq) :
    (verifyOtp env st req).state = st ∨
    ∃ email entry, req.email = some email ∧
      st.redis.lookup (verificationKey email) = some entry ∧
      ((verifyOtp env st req).state
          = { st with redis := st.redis.filter fun p => !(p.1 == verificationKey email) } ∨
        (verifyOtp env st req).state
          = { students := st.students.map fun t =>
                if t.email == email then { t with emailVerified := true } else t,
              redis := st.redis.filter fun p => !(p.1 == verificationKey email),
              admins := st.admins }) := by
  obtain ⟨oe, oo, cc⟩ := req
  rcases oe with _ | email
  · left; simp [verifyOtp, jsNot]
  rcases oo with _ | otp
  · left; simp [verifyOtp, jsNot]
  by_cases hemail : email = ""
  · left; simp [verifyOtp, jsNot, hemail]
  by_cases hotp : otp = ""
  · left; simp [verifyOtp, jsNot, hotp]
  have hv : (jsNot (some email) || jsNot (some otp)) = false := by
    simp [jsNot, hemail, hotp]
  by_cases hcode : WellFormedCode otp
  swap
  · have hc : (decide (jsLength otp < 4) || decide (jsLength otp > 6) || !digitsOnly otp)
        = true := by
      cases hb : (decide (jsLength otp < 4) || decide (jsLength otp > 6) || !digitsOnly otp)
      · exact absurd ((codeCheck_iff otp).1 hb) hcode
      · rfl
    left
    unfold verifyOtp
    simp only [hv, Bool.false_eq_true, if_false, Option.getD_some, hc, if_true]
  have hc := (codeCheck_iff otp).2 hcode
  cases hfind : env.fault Call.findByEmail with
  | some m =>
    left
    unfold verifyOtp
    simp [hv, hc, prismaFindByEmail, hfind, verifyCatch]
  | none =>
  cases hsome : findByEmail st.students email with
  | none =>
    left
    rw [verifyOtp_not_found env st email otp cc hemail hotp hcode hfind hsome]
  | some student =>
  cases hverified : student.emailVerified with
  | true =>
    left
    rw [verifyOtp_already_verified env st email otp cc student hemail hotp hcode hfind hsome
      hverified]
  | false =>
  cases hjs : jsNot student.mobileNumber with
  | true =>
    left
    rw [verifyOtp_no_mobile env st email otp cc student hemail hotp hcode hfind hsome
      hverified hjs]
  | false =>
  obtain ⟨mobileNumber, hmobile, hmobile2⟩ :
      ∃ m, student.mobileNumber = some m ∧ m ≠ "" := by
    cases hm : student.mobileNumber with
    | none => simp [hm, jsNot] at hjs
    | some m => exact ⟨m, rfl, by simpa [hm, jsNot] using hjs⟩
  cases hget : env.fault Call.redisGet with
  | some m =>
    left
    unfold verifyOtp
    simp [hv, hc, prismaFindByEmail, hfind, hsome, hverified, hjs, redisGet, hget,
      verifyCatch]
  | none =>
  cases hentry : st.redis.lookup (verificationKey email) with
  | none =>
    left
    rw [verifyOtp_no_session env st email otp cc student hemail hotp hcode hfind hsome
      hverified hjs hget hentry]
  | some entry =>
  cases hlive : (env.redisReadBack entry.value).truthy with
  | false =>
    left
    unfold verifyOtp
    simp [hv, hc, prismaFindByEmail, hfind, hsome, hverified, hjs, redisGet, hget, hentry,
      hlive]
  | true =>
  rw [verifyOtp_reaches_provider env st email otp cc student mobileNumber entry hemail
    hotp hcode hfind hsome hverified hmobile hmobile2 hget hentry hlive]
  split
  · exact Or.inl rfl
  · cases hdel : env.fault Call.redisDel with
    | some m =>
      left
      simp [redisDel, hdel, verifyCatch]
    | none =>
      right
      refine ⟨email, entry, rfl, hentry, ?_⟩
      cases hupdate : env.fault Call.update with
      | some m =>
        left
        simp [redisDel, hdel, prismaUpdateVerified, hupdate, verifyCatch]
      | none =>
        right
        simp [redisDel, hdel, prismaUpdateVerified, hupdate, hsome]

/-! ### The states an admin decision can end in -/

theorem prismaUpdateStatus_inv {env : Env} {st st1 : State} {id : String} {status : Status}
    {row : Student} (h : prismaUpdateStatus env st id status = .ok (st1, row)) :
    st1 = { st with students := st.students.map fun t =>
      if t.id == id then { t with status := status } else t } := by
  unfold prismaUpdateStatus at h
  split at h
  · cases h
  · split at h
    · cases h
    · simp only [Except.ok.injEq, Prod.mk.injEq] at h
      exact h.1.symm

/-- An approval leaves the state as it was or sets the status of the rows
with the given id to APPROVED. -/
theorem approveStudent_state_shapes (env : Env) (st : State) (req : AdminReq) :
    (approveStudent env st req).state = st ∨
    (approveStudent env st req).state
      = { st with students := st.students.map fun t =>
            if t.id == req.id then { t with status := Status.APPROVED } else t } := by
  unfold approveStudent
  repeat' split
  all_goals first
    | exact Or.inl rfl
    | (rename_i hu
       exact Or.inr (prismaUpdateStatus_inv hu))

/-- A rejection leaves the state as it was or sets the status of the rows
with the given id to REJECTED. -/
theorem rejectStudent_state_shapes (env : Env) (st : State) (req : AdminReq) :
    (rejectStudent env st req).state = st ∨
    (rejectStudent env st req).state
      = { st with students := st.students.map fun t =>
            if t.id == req.id then { t with status := Status.REJECTED } else t } := by
  unfold rejectStudent
  repeat' split
  all_goals first
    | exact Or.inl rfl
    | (rename_i hu
       exact Or.inr (prismaUpdateStatus_inv hu))

/-! ### Accounts are removed only by the compensating delete -/

theorem map_id_verified (students : List Student) (email : String) :
    (students.map fun t =>
        if t.email == email then { t with emailVerified := true } else t).map (fun s => s.id)
      = students.map fun s => s.id := by
  rw [List.map_map]
  apply List.map_congr_left
  intro t _
  simp only [Function.comp]
  split <;> rfl

theorem map_id_status (students : List Student) (id : String) (status : Status) :
    (students.map fun t =>
        if t.id == id then { t with status := status } else t).map (fun s => s.id)
      = students.map fun s => s.id := by
  rw [List.map_map]
  apply List.map_congr_left
  intro t _
  simp only [Function.comp]
  split <;> rfl

/-- C26: verify-otp, login, approve and reject never remove an account: the
ids of the accounts after the request are the ids before it, in the same
order. A registration never removes or changes an account that existed before
the request: the accounts afterwards are the accounts before, followed by at
most the one account the request created (which its compensating delete may
have removed again). -/
theorem accounts_removed_only_by_compensation (env : Env) (st : State) :
    (∀ req, (verifyOtp env st req).state.students.map (fun s => s.id)
      = st.students.map fun s => s.id) ∧
    (∀ req, (login env st req).state = st) ∧
    (∀ req, (approveStudent env st req).state.students.map (fun s => s.id)
      = st.students.map fun s => s.id) ∧
    (∀ req, (rejectStudent env st req).state.students.map (fun s => s.id)
      = st.students.map fun s => s.id) ∧
    (∀ req, (register env st req).state.students = st.students ∨
      ∃ fullName email rollNumber password mobileNumber,
        req = ⟨some fullName, some email, some rollNumber, some password, some mobileNumber,
          req.countryCode⟩ ∧
        findById st.students env.newId = none ∧
        (register env st req).state.students
          = st.students ++
              [createdRow env (registerData env fullName email rollNumber password
                mobileNumber)]) := by
  refine ⟨?_, ?_, ?_, ?_, ?_⟩
  · intro req
    rcases verifyOtp_state_shapes env st req with h | ⟨email, entry, _, _, h | h⟩
    · rw [h]
    · rw [h]
    · rw [h]
      exact map_id_verified _ _
  · intro req
    exact login_state env st req
  · intro req
    rcases approveStudent_state_shapes env st req with h | h
    · rw [h]
    · rw [h]
      exact map_id_status _ _ _
  · intro req
    rcases rejectStudent_state_shapes env st req with h | h
    · rw [h]
    · rw [h]
      exact map_id_status _ _ _
  · intro req
    rcases register_state_shapes env st req with h |
      ⟨fullName, email, rollNumber, password, mobileNumber, hreq, _, _, hid, h | ⟨_, h⟩⟩
    · exact Or.inl (by rw [h])
    · exact Or.inr ⟨fullName, email, rollNumber, password, mobileNumber, hreq, hid, by rw [h]⟩
    · exact Or.inr ⟨fullName, email, rollNumber, password, mobileNumber, hreq, hid, by rw [h]⟩

/-! ### An unverified account without session stays unverified -/

theorem verificationKey_injective {a b : String} (h : verificationKey a = verificationKey b) :
    a = b := by
  unfold verificationKey at h
  have h2 := congrArg String.data h
  simp only [String.data_append, List.append_cancel_left_eq] at h2
  exact String.ext h2

theorem lookup_filter_of_ne (key key2 : String) (l : List (String × RedisEntry))
    (hne : key ≠ key2) :
    (l.filter fun p => !(p.1 == key2)).lookup key = l.lookup key := by
  induction l with
  | nil => rfl
  | cons p ps ih =>
    obtain ⟨k, v⟩ := p
    by_cases hk : k = key2
    · have h1 : (k == key2) = true := by simpa using hk
      have h2 : (key == k) = false := by
        simp only [beq_eq_false_iff_ne, ne_eq]
        rw [hk]
        exact hne
      simp only [List.filter, h1, Bool.not_true, List.lookup, h2]
      exact ih
    · have h1 : (k == key2) = false := by simpa using hk
      simp only [List.filter, h1, Bool.not_false, List.lookup]
      cases (key == k)
      · exact ih
      · rfl

theorem findByEmail_append_of_some (students : List Student) (row student : Student)
    (email : String) (h : findByEmail students email = some student) :
    findByEmail (students ++ [row]) email = some student := by
  unfold findByEmail at *
  rw [List.find?_append, h]
  rfl

theorem findByEmail_map_of_email (students : List Student) (f : Student → Student)
    (email : String) (hf : ∀ t, (f t).email = t.email) :
    findByEmail (students.map f) email = (findByEmail students email).map f := by
  unfold findByEmail
  induction students with
  | nil => rfl
  | cons t ts ih =>
    simp only [List.map_cons, List.find?, hf]
    cases (t.email == email)
    · exact ih
    · rfl

theorem findByEmail_email {students : List Student} {email : String} {student : Student}
    (h : findByEmail students email = some student) : student.email = email := by
  unfold findByEmail at h
  have := List.find?_some h
  simpa using this

theorem stranded_register (env : Env) (st : State) (req : RegisterReq) (email : String)
    (h : Stranded email st) : Stranded email (register env st req).state := by
  obtain ⟨student, hsome, hverified, habsent⟩ := h
  rcases register_state_shapes env st req with h |
    ⟨fullName, email2, rollNumber, password, mobileNumber, _, hnone, _, _, h | ⟨_, h⟩⟩
  · rw [h]
    exact ⟨student, hsome, hverified, habsent⟩
  · rw [h]
    exact ⟨student, findByEmail_append_of_some _ _ _ _ hsome, hverified, habsent⟩
  · rw [h]
    have hne : email ≠ email2 := by
      intro heq
      rw [heq, hnone] at hsome
      cases hsome
    have hkey : verificationKey email ≠ verificationKey email2 :=
      fun hk => hne (verificationKey_injective hk)
    refine ⟨student, findByEmail_append_of_some _ _ _ _ hsome, hverified, ?_⟩
    have hb : (verificationKey email == verificationKey email2) = false := by
      simpa using hkey
    simp only [List.lookup, hb]
    rw [lookup_filter_of_ne _ _ _ hkey]
    exact habsent

theorem stranded_verifyOtp (env : Env) (st : State) (req : VerifyReq) (email : String)
    (h : Stranded email st) : Stranded email (verifyOtp env st req).state := by
  obtain ⟨student, hsome, hverified, habsent⟩ := h
  rcases verifyOtp_state_shapes env st req with h | ⟨email2, entry, _, hentry, h | h⟩
  · rw [h]
    exact ⟨student, hsome, hverified, habsent⟩
  all_goals
    have hne : email ≠ email2 := by
      intro heq
      rw [heq, hentry] at habsent
      cases habsent
    have hkey : verificationKey email ≠ verificationKey email2 :=
      fun hk => hne (verificationKey_injective hk)
  · rw [h]
    exact ⟨student, hsome, hverified, by
      show List.lookup _ (List.filter _ _) = none
      rw [lookup_filter_of_ne _ _ _ hkey]
      exact habsent⟩
  · rw [h]
    refine ⟨student, ?_, hverified, ?_⟩
    · show findByEmail (List.map _ _) email = some student
      rw [findByEmail_map_of_email _ _ _ (by intro t; split <;> rfl), hsome]
      have he := findByEmail_email hsome
      have hb : (student.email == email2) = false := by
        simp only [beq_eq_false_iff_ne, ne_eq]
        rw [he]
        exact hne
      simp only [Option.map_some', hb, Bool.false_eq_true, if_false]
    · show List.lookup _ (List.filter _ _) = none
      rw [lookup_filter_of_ne _ _ _ hkey]
      exact habsent

theorem stranded_of_status_map (st : State) (id : String) (status : Status) (email : String)
    (h : Stranded email st) :
    Stranded email { st with students := st.students.map fun t =>
      if t.id == id then { t with status := status } else t } := by
  obtain ⟨student, hsome, hverified, habsent⟩ := h
  refine ⟨if student.id == id then { student with status := status } else student, ?_, ?_,
    habsent⟩
  · show findByEmail (List.map _ _) email = _
    rw [findByEmail_map_of_email _ _ _ (by intro t; split <;> rfl), hsome]
    rfl
  · split
    · exact hverified
    · exact hverified

theorem stranded_handle (env : Env) (st : State) (req : Request) (email : String)
    (h : Stranded email st) : Stranded email (handle env st req).state := by
  cases req with
  | register r => exact stranded_register env st r email h
  | verifyOtp r => exact stranded_verifyOtp env st r email h
  | login r => simpa only [handle, login_state] using h
  | approve r =>
    rcases approveStudent_state_shapes env st r with h2 | h2
    · simpa only [handle, h2] using h
    · simpa only [handle, h2] using stranded_of_status_map st r.id Status.APPROVED email h
  | reject r =>
    rcases rejectStudent_state_shapes env st r with h2 | h2
    · simpa only [handle, h2] using h
    · simpa only [handle, h2] using stranded_of_status_map st r.id Status.REJECTED email h

/-- C30: an unverified account whose session entry is absent can never become
verified: from a state in which the account of an email exists with
`emailVerified = false` and no entry is under the key of the email, every
sequence of register, verify-otp, login, approve and reject requests, handled
in arbitrary worlds, ends in a state in which that account still exists, is
still unverified and still has no entry under its key. -/
theorem stranded_account_stays_unverified (email : String) (st : State)
    (steps : List (Env × Request)) (h : Stranded email st) : Stranded email (run st steps) := by
  induction steps generalizing st with
  | nil => exact h
  | cons step rest ih =>
    obtain ⟨env, req⟩ := step
    exact ih _ (stranded_handle env st req email h)

/-- Witness of C30: the account of the sample store has no session; a new
registration with its email, a code validation, an approval and a login leave
it unverified and without session. -/
theorem stranded_account_stays_unverified_witness :
    Stranded "a@x.com" (sampleState false Status.PENDING_ADMIN_APPROVAL) ∧
    Stranded "a@x.com" (run (sampleState false Status.PENDING_ADMIN_APPROVAL)
      [(sampleEnv, .register sampleRegisterReq),
       (sampleEnv, .verifyOtp ⟨some "a@x.com", some "1234", none⟩),
       (sampleEnv, .approve ⟨some "Bearer adm", "s-1"⟩),
       (sampleEnv, .login ⟨some "a@x.com", some "pw"⟩)]) :=
  have h0 : Stranded "a@x.com" (sampleState false Status.PENDING_ADMIN_APPROVAL) :=
    ⟨sampleStudent false Status.PENDING_ADMIN_APPROVAL, by decide, rfl, rfl⟩
  ⟨h0, stranded_account_stays_unverified "a@x.com" _ _ h0⟩

end EduBot
